import Mathlib

/-!
# VMX / EPT core of the `hv` hypervisor

A shallow embedding of `src/src/vmx.c`: the EPT builder (`ept_setup_range`,
`ept_init_pt`, `needed_paging_structs`, `setup_eptp`), the address walks
(`ept_translate`, `gpa_to_hva`, `gva_to_gpa`) and the control-field adjustment
used by `vmcs_write_control`.

Conventions.
* `u64` values are natural numbers below `U64 = 2 ^ 64`; arithmetic that can
  wrap carries an explicit `% U64`.
* Host memory is a map from the host-virtual address of a 64-bit word to its
  value.  All accesses of the modelled code are to table slots
  `base + 8 * index`.
* Headers that are not part of the sources (`page.h`, `memory.h`, `vmx.h`) are
  modelled by the definitions marked so, or taken as parameters (`PageEnv`).
-/

namespace HV

/-! ## Machine words and the missing page macros -/

/-- Modulus of the 64-bit machine word (`u64`, `paddr_t`, `vaddr_t`). -/
def U64 : Nat := 18446744073709551616

/-- Bitwise complement of a 64-bit word (the C operator `~` on `u64`). -/
def not64 (x : Nat) : Nat := U64 - 1 - x % U64

/-- The value `(paddr_t)-1`, returned by the walks for "not present". -/
def SENTINEL : Nat := U64 - 1

/-- The C null pointer. -/
def NULL : Nat := 0

/-- Modelled from the spec: `page.h` is not in the sources; pages are 4 KiB
("Mask out the 12 low bits"). -/
def PAGE_SHIFT : Nat := 12

/-- Modelled from the spec: `page.h` is not in the sources; 4 KiB pages. -/
def PAGE_SIZE : Nat := 1 <<< PAGE_SHIFT

/-- Modelled from the spec: `page.h` is not in the sources; the mask that
clears the 12 low bits of an address. -/
def PAGE_MASK : Nat := not64 (PAGE_SIZE - 1)

/-- Modelled from the spec: `page.h` is not in the sources; the mask of a
2 MiB region (a huge-page PDE keeps "21 bits" of the address). -/
def PMD_MASK : Nat := not64 ((1 <<< 21) - 1)

/-- Modelled from the spec: `page.h` is not in the sources; the mask of a
1 GiB region (a huge-page PDPTE keeps "30 bits" of the address). -/
def PUD_MASK : Nat := not64 ((1 <<< 30) - 1)

/-- Modelled from the spec: `page.h` is not in the sources; huge pages are
2 MiB pages. -/
def HUGE_PAGE_SIZE : Nat := 1 <<< 21

/-- Modelled from the spec: the size macro `MB(n)` is not in the sources. -/
def MB (n : Nat) : Nat := n <<< 20

/-- Modelled from the spec: the size macro `GB(n)` is not in the sources. -/
def GB (n : Nat) : Nat := n <<< 30

/-- Modelled from the spec: `vmx.h` is not in the sources; every table has 512
entries. -/
def EPT_PTRS_PER_TABLE : Nat := 512

/-- Modelled from the spec: `page.h` is not in the sources; "PML4 / PDPT / PD /
PT indices of nine bits each", the PML4 index being bits 39..47. -/
def pgd_offset (addr : Nat) : Nat := (addr >>> 39) &&& 511

/-- Modelled from the spec: `page.h` is not in the sources; PDPT index, bits
30..38. -/
def pud_offset (addr : Nat) : Nat := (addr >>> 30) &&& 511

/-- Modelled from the spec: `page.h` is not in the sources; PD index, bits
21..29. -/
def pmd_offset (addr : Nat) : Nat := (addr >>> 21) &&& 511

/-- Modelled from the spec: `page.h` is not in the sources; PT index, bits
12..20. -/
def pte_offset (addr : Nat) : Nat := (addr >>> 12) &&& 511

/-- Modelled from the spec: `page.h` is not in the sources; the huge-page (PS)
bit of a guest paging entry is bit 7, the one bit that the scenario entry
`0x3087` ("present + huge") has outside the three low permission bits. -/
def pg_huge_page (e : Nat) : Bool := e &&& 128 != 0

/-- The parts of the missing headers that the spec does not pin down.

* `pg_present` is the `page.h` macro that both walks apply to an entry.  The
  spec describes it as "the low bit of the entry" for the guest walk and as
  "any of R/W/X" for the EPT walk, while the code uses the one macro for both;
  it is therefore a parameter.
* `phys_offset` is the fixed offset of the host linear map: `phys_to_virt` is
  "identity plus a fixed offset". -/
structure PageEnv where
  pg_present : Nat → Bool
  phys_offset : Nat

/-- Modelled from the spec: `memory.h` is not in the sources; host-physical to
host-virtual, "identity plus a fixed offset". -/
def phys_to_virt (env : PageEnv) (p : Nat) : Nat := (p + env.phys_offset) % U64

/-- Modelled from the spec: `memory.h` is not in the sources; host-virtual to
host-physical, the inverse of `phys_to_virt`. -/
def virt_to_phys (env : PageEnv) (v : Nat) : Nat :=
  (v + (U64 - env.phys_offset % U64)) % U64

/-! ## Bit-fields -/

/-- Store `v` into the bit-field of width `w` at bit `lo` of the word `e`,
keeping every other bit (a C bit-field assignment). -/
def set_field (e lo w v : Nat) : Nat :=
  e % 2 ^ lo + (v % 2 ^ w) * 2 ^ lo + e / 2 ^ (lo + w) * 2 ^ (lo + w)

/-- Read the bit-field of width `w` at bit `lo` of the word `e`. -/
def get_field (e lo w : Nat) : Nat := e / 2 ^ lo % 2 ^ w

/-- Modelled from the spec: `vmx.h` (the `struct ept_pte` family and
`struct eptp`) is not in the sources.  The layout is the hardware one that the
spec and `ept_translate` presuppose: `read`, `write`, `kern_exec` are bits 0, 1,
2; `memory_type` is bits 3..5; `ignore_pat` is bit 6; the frame number `paddr`
starts at bit 12 (`quad_word & PAGE_MASK` recovers the address) and is 40 bits
wide.  This structure lists (low bit, width) of each field. -/
structure FieldPos where
  lo : Nat
  width : Nat

/-- Field `read` of an EPT entry. -/
def F_READ : FieldPos := ⟨0, 1⟩
/-- Field `write` of an EPT entry. -/
def F_WRITE : FieldPos := ⟨1, 1⟩
/-- Field `kern_exec` of an EPT entry. -/
def F_KERN_EXEC : FieldPos := ⟨2, 1⟩
/-- Field `memory_type` of an EPT leaf entry. -/
def F_MEMORY_TYPE : FieldPos := ⟨3, 3⟩
/-- Field `ignore_pat` of an EPT leaf entry. -/
def F_IGNORE_PAT : FieldPos := ⟨6, 1⟩
/-- Field `paddr` of an EPT entry. -/
def F_PADDR : FieldPos := ⟨12, 40⟩
/-- Field `type` of the EPTP. -/
def F_EPTP_TYPE : FieldPos := ⟨0, 3⟩
/-- Field `page_walk_length` of the EPTP. -/
def F_EPTP_WALK : FieldPos := ⟨3, 3⟩
/-- Field `enable_dirty_flag` of the EPTP. -/
def F_EPTP_DIRTY : FieldPos := ⟨6, 1⟩
/-- Field `pml4_addr` of the EPTP. -/
def F_EPTP_PML4 : FieldPos := ⟨12, 40⟩

/-- Assignment `entry.f = v`. -/
def FieldPos.set (f : FieldPos) (e v : Nat) : Nat := set_field e f.lo f.width v

/-- Value of `entry.f`. -/
def FieldPos.get (f : FieldPos) (e : Nat) : Nat := get_field e f.lo f.width

/-! ## Memory and the page allocator -/

/-- Host memory: the 64-bit word stored at a host-virtual address. -/
abbrev Mem := Nat → Nat

/-- Store a 64-bit word. -/
def write64 (m : Mem) (a v : Nat) : Mem := fun x => if x = a then v else m x

/-- The call `memset(p, 0, n)`. -/
def memset0 (m : Mem) (p n : Nat) : Mem :=
  fun x => if p ≤ x ∧ x < p + n then 0 else m x

/-- Address of the 8-byte entry `base[idx]` (pointer arithmetic on `u64`). -/
def slot (base idx : Nat) : Nat := (base + 8 * idx) % U64

/-- Kind of a block handed out by the external allocators: 4 KiB pages
(`alloc_page`, `alloc_pages`), 2 MiB pages (`alloc_huge_pages`) or small
objects (`kmalloc`). -/
inductive ResKind where
  | page
  | huge
  | heap
deriving DecidableEq, Repr

/-- Modelled from the spec: the page allocator is an external collaborator
(`alloc_page() → HVA|NULL`, `alloc_pages(n)`, `alloc_huge_pages(n)` and the
matching `release_*`).  Its behaviour is left open: `script` lists what the
successive allocation calls return (`NULL` is 0, and an exhausted script
returns `NULL`).  `live` records the blocks handed out and not yet released, as
(kind, pointer, count); the two counters count the calls made. -/
structure PageAlloc where
  script : List Nat
  live : List (ResKind × Nat × Nat)
  alloc_calls : Nat
  release_calls : Nat
deriving DecidableEq

/-- One allocation call of kind `k` for `n` units. -/
def alloc_block (k : ResKind) (a : PageAlloc) (n : Nat) : Nat × PageAlloc :=
  match a.script with
  | [] => (NULL, { a with alloc_calls := a.alloc_calls + 1 })
  | p :: rest =>
    if p = NULL then
      (NULL, { a with script := rest, alloc_calls := a.alloc_calls + 1 })
    else
      (p, { a with script := rest, live := (k, p, n) :: a.live,
                   alloc_calls := a.alloc_calls + 1 })

/-- One release call of kind `k` for the `n` units at `p`. -/
def release_block (k : ResKind) (a : PageAlloc) (p n : Nat) : PageAlloc :=
  { a with live := a.live.erase (k, p, n), release_calls := a.release_calls + 1 }

/-- Modelled from the spec: `alloc_pages(n)` of the external page allocator. -/
def alloc_pages (a : PageAlloc) (n : Nat) : Nat × PageAlloc :=
  alloc_block ResKind.page a n

/-- Modelled from the spec: `alloc_page()` of the external page allocator. -/
def alloc_page (a : PageAlloc) : Nat × PageAlloc := alloc_pages a 1

/-- Modelled from the spec: `alloc_huge_pages(n)` of the external page
allocator. -/
def alloc_huge_pages (a : PageAlloc) (n : Nat) : Nat × PageAlloc :=
  alloc_block ResKind.huge a n

/-- Modelled from the spec: `release_pages(p, n)` of the external page
allocator. -/
def release_pages (a : PageAlloc) (p n : Nat) : PageAlloc :=
  release_block ResKind.page a p n

/-- Modelled from the spec: `release_page(p)` of the external page allocator. -/
def release_page (a : PageAlloc) (p : Nat) : PageAlloc := release_pages a p 1

/-! ## VMM bring-up: state (`vmx.c`, lines 20-66 and 290-352) -/

/-- Modelled from the spec: `NR_VMX_MSR` is declared in `vmx.h`, which is not in
the sources; the cache "reads 18 consecutive MSRs starting at the VMX-basic
MSR". -/
def NR_VMX_MSR : Nat := 18

/-- MSR number `MSR_VMX_CR0_FIXED0` (`x86.h`). -/
def MSR_VMX_CR0_FIXED0 : Nat := 0x486
/-- MSR number `MSR_VMX_CR0_FIXED1` (`x86.h`). -/
def MSR_VMX_CR0_FIXED1 : Nat := 0x487
/-- MSR number `MSR_VMX_CR4_FIXED0` (`x86.h`). -/
def MSR_VMX_CR4_FIXED0 : Nat := 0x488
/-- MSR number `MSR_VMX_CR4_FIXED1` (`x86.h`). -/
def MSR_VMX_CR4_FIXED1 : Nat := 0x489
/-- MSR number `MSR_VMX_PROC_CTLS2` (`x86.h`). -/
def MSR_VMX_PROC_CTLS2 : Nat := 0x48b
/-- MSR number `MSR_VMX_TRUE_PIN_CTLS` (`x86.h`). -/
def MSR_VMX_TRUE_PIN_CTLS : Nat := 0x48d
/-- MSR number `MSR_VMX_TRUE_PROC_CTLS` (`x86.h`). -/
def MSR_VMX_TRUE_PROC_CTLS : Nat := 0x48e
/-- MSR number `MSR_VMX_TRUE_EXIT_CTLS` (`x86.h`). -/
def MSR_VMX_TRUE_EXIT_CTLS : Nat := 0x48f
/-- MSR number `MSR_VMX_TRUE_ENTRY_CTLS` (`x86.h`). -/
def MSR_VMX_TRUE_ENTRY_CTLS : Nat := 0x490
/-- MSR number `MSR_EFER` (`x86.h`). -/
def MSR_EFER : Nat := 0xc0000080
/-- MSR number `MSR_SYSENTER_CS` (`x86.h`). -/
def MSR_SYSENTER_CS : Nat := 0x174
/-- MSR number `MSR_SYSENTER_ESP` (`x86.h`). -/
def MSR_SYSENTER_ESP : Nat := 0x175
/-- MSR number `MSR_SYSENTER_EIP` (`x86.h`). -/
def MSR_SYSENTER_EIP : Nat := 0x176
/-- MSR number `MSR_DEBUGCTL` (`x86.h`). -/
def MSR_DEBUGCTL : Nat := 0x1d9
/-- MSR number `MSR_PAT` (`x86.h`). -/
def MSR_PAT : Nat := 0x277
/-- MSR number `MSR_PERF_GLOBAL_CTRL` (`x86.h`). -/
def MSR_PERF_GLOBAL_CTRL : Nat := 0x38f
/-- MSR number `MSR_FS_BASE` (`x86.h`). -/
def MSR_FS_BASE : Nat := 0xc0000100
/-- MSR number `MSR_GS_BASE` (`x86.h`). -/
def MSR_GS_BASE : Nat := 0xc0000101
/-- The flag `CR4_VMXE`, `1 << 13` (`x86.h`). -/
def CR4_VMXE : Nat := 1 <<< 13

/-- The macro `VMCS_NB_PAGES`. -/
def VMCS_NB_PAGES : Nat := 2

/-- The macro `VM_EXIT_STACK_SIZE`, `PAGE_SIZE - 32`. -/
def VM_EXIT_STACK_SIZE : Nat := PAGE_SIZE - 32

/-- The macro `MSR_ALL_BITMAP_SZ`, four bitmaps of 1024 bytes. -/
def MSR_ALL_BITMAP_SZ : Nat := 4 * 1024

/-- The `struct control_regs` of `vmx.h` (not in the sources), after the
accesses in `vmcs_get_control_regs`. -/
structure control_regs where
  cr0 : Nat := 0
  cr3 : Nat := 0
  cr4 : Nat := 0

/-- The `struct segment_selectors` of `vmx.h` (not in the sources), after the
accesses in `vmcs_get_host_selectors`. -/
structure segment_selectors where
  cs : Nat := 0
  ds : Nat := 0
  es : Nat := 0
  ss : Nat := 0
  fs : Nat := 0
  gs : Nat := 0
  tr : Nat := 0

/-- The `struct vmcs_state_msr` of `vmx.h` (not in the sources), after the
accesses in `vmcs_fill_msr_state`. -/
structure vmcs_state_msr where
  ia32_fs_base : Nat := 0
  ia32_gs_base : Nat := 0
  ia32_sysenter_cs : Nat := 0
  ia32_sysenter_esp : Nat := 0
  ia32_sysenter_eip : Nat := 0
  ia32_perf_global_ctrl : Nat := 0
  ia32_pat : Nat := 0
  ia32_efer : Nat := 0
  ia32_debugctl : Nat := 0
  ia32_bndcfgs : Nat := 0

/-- The `struct vmcs_host_state` of `vmx.h` (not in the sources), after the
accesses in `vmcs_get_host_state` and `vmcs_write_vm_host_state`. -/
structure vmcs_host_state where
  control_regs : control_regs := {}
  selectors : segment_selectors := {}
  gdtr_base : Nat := 0
  idtr_base : Nat := 0
  tr_base : Nat := 0
  msr : vmcs_state_msr := {}
  rsp : Nat := 0
  rip : Nat := 0

/-- The `struct segment_descriptor` of `vmx.h` (not in the sources), after the
accesses in `vmcs_write_guest_selector`. -/
structure segment_descriptor where
  base_field : Nat := 0
  selector : Nat := 0
  base : Nat := 0
  limit : Nat := 0
  access : Nat := 0

/-- The `struct segment_descriptors` of `vmx.h` (not in the sources), after the
accesses in `vmcs_write_guest_selectors`. -/
structure segment_descriptors where
  cs : segment_descriptor := {}
  ds : segment_descriptor := {}
  es : segment_descriptor := {}
  ss : segment_descriptor := {}
  fs : segment_descriptor := {}
  gs : segment_descriptor := {}
  tr : segment_descriptor := {}
  ldtr : segment_descriptor := {}

/-- The `struct gdtr` (`gdt.h`, not in the sources): base and limit of a
descriptor table. -/
structure gdtr where
  base : Nat := 0
  limit : Nat := 0

/-- The `struct x86_regs` of `x86.h`. -/
structure x86_regs where
  rip : Nat := 0
  rflags : Nat := 0
  rsp : Nat := 0
  rbp : Nat := 0
  rsi : Nat := 0
  rdi : Nat := 0
  rax : Nat := 0
  rbx : Nat := 0
  rcx : Nat := 0
  rdx : Nat := 0
  r8 : Nat := 0
  r9 : Nat := 0
  r10 : Nat := 0
  r11 : Nat := 0
  r12 : Nat := 0
  r13 : Nat := 0
  r14 : Nat := 0
  r15 : Nat := 0

/-- The `struct vmcs_guest_register_state` of `vmx.h` (not in the sources),
after the accesses in `vmcs_write_guest_reg_state`.  Its `control_regs.cr3` is
the field `guest_cr3` of `Vmm`; the fields `cr0` and `cr4` here are the other
two control registers. -/
structure vmcs_guest_register_state where
  cr0 : Nat := 0
  cr4 : Nat := 0
  seg_descs : segment_descriptors := {}
  gdtr : HV.gdtr := {}
  idtr : HV.gdtr := {}
  msr : vmcs_state_msr := {}
  dr7 : Nat := 0
  regs : x86_regs := {}

/-- The `struct vmcs_guest_state` of `vmx.h` (not in the sources), after the
accesses in `vmcs_write_guest_state`. -/
structure vmcs_guest_state where
  reg_state : vmcs_guest_register_state := {}
  vmcs_link : Nat := 0

/-- The fields of `struct vmm` that the modelled functions use: the capability
MSR table `vmx_msr`, the two control regions `vmx_on` and `vmcs` (host-virtual
addresses), `eptp.quad_word`, the guest memory span `guest_mem`, `host_state`,
`guest_state` with its `reg_state.control_regs.cr3` kept apart as `guest_cr3`,
and `msr_bitmap`. -/
structure Vmm where
  vmx_msr : List Nat := []
  vmx_on : Nat := 0
  vmcs : Nat := 0
  eptp : Nat := 0
  guest_mem_start : Nat := 0
  guest_mem_end : Nat := 0
  host_state : vmcs_host_state := {}
  guest_cr3 : Nat := 0
  guest_state : vmcs_guest_state := {}
  msr_bitmap : Nat := 0

/-- Everything `ept_setup_range` can touch: the VMM record, host memory and the
page allocator. -/
structure World where
  vmm : Vmm
  mem : Mem
  pa : PageAlloc

/-! ## The EPT builder (`vmx.c`, lines 67-190) -/

/-- Write-back caching, `EPT_MEMORY_TYPE_WB`. -/
def EPT_MEMORY_TYPE_WB : Nat := 6

/-- The function `setup_eptp`: the new `eptp.quad_word` for the PML4 at
host-virtual `ept_pml4`. -/
def setup_eptp (env : PageEnv) (ept_pml4 : Nat) : Nat :=
  let q0 := 0
  let q1 := F_EPTP_TYPE.set q0 EPT_MEMORY_TYPE_WB
  let q2 := F_EPTP_WALK.set q1 3
  let q3 := F_EPTP_DIRTY.set q2 0
  F_EPTP_PML4.set q3 (virt_to_phys env ept_pml4 >>> PAGE_SHIFT)

/-- The function `ept_set_pte_rwe`, on the entry's `quad_word`. -/
def ept_set_pte_rwe (e : Nat) : Nat :=
  F_KERN_EXEC.set (F_WRITE.set (F_READ.set e 1) 1) 1

/-- The function `ept_init_default`, on the entry's `quad_word`. -/
def ept_init_default (e paddr : Nat) : Nat :=
  F_PADDR.set (ept_set_pte_rwe e) (paddr >>> PAGE_SHIFT)

/-- Body of the loop of `ept_init_pt` on one entry's `quad_word`. -/
def ept_init_pte (e host : Nat) : Nat :=
  let e1 := ept_set_pte_rwe e
  let e2 := F_MEMORY_TYPE.set e1 EPT_MEMORY_TYPE_WB
  let e3 := F_IGNORE_PAT.set e2 1
  F_PADDR.set e3 (host >>> PAGE_SHIFT)

/-- The loop of `ept_init_pt`:
`for (; pte_off < EPT_PTRS_PER_TABLE; ++pte_off, host += PAGE_SIZE)`.
The first argument bounds the number of iterations; 512 always suffices. -/
def ept_init_pt_loop (ept_pt : Nat) : Nat → Nat → Nat → Mem → Mem
  | 0, _, _, m => m
  | fuel + 1, pte_off, host, m =>
    if pte_off < EPT_PTRS_PER_TABLE then
      let cur_pte := slot ept_pt pte_off
      let m1 := write64 m cur_pte (ept_init_pte (m cur_pte) host)
      ept_init_pt_loop ept_pt fuel (pte_off + 1) ((host + PAGE_SIZE) % U64) m1
    else m

/-- The function `ept_init_pt`. -/
def ept_init_pt (m : Mem) (ept_pt host guest : Nat) : Mem :=
  ept_init_pt_loop ept_pt EPT_PTRS_PER_TABLE (pte_offset guest) host m

/-- The function `needed_paging_structs`. -/
def needed_paging_structs (mem_size mapped_size : Nat) : Nat :=
  let n := mem_size / mapped_size
  if n = 0 then 1
  else if mem_size % mapped_size ≠ 0 then n + 1
  else n

/-- State of the two nested loops of `ept_setup_range`: memory and the running
`host_start`, `guest_start`. -/
structure LoopSt where
  mem : Mem
  host_start : Nat
  guest_start : Nat

/-- The inner loop of `ept_setup_range`:
`for (u64 j = 0; j < EPT_PTRS_PER_TABLE && j < needed_pt; ++j)`.
The first argument bounds the number of iterations; 512 always suffices. -/
def ept_pd_loop (env : PageEnv) (cur_pd ept_pt needed_pt : Nat) :
    Nat → Nat → LoopSt → LoopSt
  | 0, _, s => s
  | fuel + 1, j, s =>
    if j < EPT_PTRS_PER_TABLE ∧ j < needed_pt then
      let pde := slot cur_pd (pmd_offset s.guest_start)
      let pt := (ept_pt + j * PAGE_SIZE) % U64
      let m1 := write64 s.mem pde (ept_init_default (s.mem pde) (virt_to_phys env pt))
      let m2 := ept_init_pt m1 pt s.host_start s.guest_start
      ept_pd_loop env cur_pd ept_pt needed_pt fuel (j + 1)
        { mem := m2,
          host_start := (s.host_start + MB 2) % U64,
          guest_start := (s.guest_start + MB 2) % U64 }
    else s

/-- The outer loop of `ept_setup_range`: `for (u64 i = 0; i < needed_pd; ++i)`,
with `needed_pt -= EPT_PTRS_PER_TABLE` at the end of each round.  `ept_pdpt` is
the pointer already advanced to the first entry to fill.  The first argument
bounds the number of iterations; `needed_pd` suffices. -/
def ept_pdpt_loop (env : PageEnv) (ept_pdpt ept_pd ept_pt needed_pd : Nat) :
    Nat → Nat → Nat → LoopSt → LoopSt
  | 0, _, _, s => s
  | fuel + 1, i, needed_pt, s =>
    if i < needed_pd then
      let cur_pd := (ept_pd + i * PAGE_SIZE) % U64
      let pdpte := slot ept_pdpt i
      let m1 := write64 s.mem pdpte (ept_init_default (s.mem pdpte) (virt_to_phys env cur_pd))
      let s1 := ept_pd_loop env cur_pd ept_pt needed_pt EPT_PTRS_PER_TABLE 0
                  { s with mem := m1 }
      ept_pdpt_loop env ept_pdpt ept_pd ept_pt needed_pd fuel (i + 1)
        ((needed_pt + (U64 - EPT_PTRS_PER_TABLE)) % U64) s1
    else s

/-- The difference `host_end - host_start` on `u64`. -/
def mmap_size (host_start host_end : Nat) : Nat :=
  (host_end % U64 + (U64 - host_start % U64)) % U64

/-- The function `ept_setup_range`: the returned `int` and the world after the
call. -/
def ept_setup_range (env : PageEnv) (w : World)
    (host_start host_end guest_start : Nat) : Nat × World :=
  let mmap_size := mmap_size host_start host_end
  if mmap_size > GB 512 then (1, w)
  else
    let r1 := alloc_page w.pa
    let ept_pml4 := r1.1
    if ept_pml4 = NULL then (1, { w with pa := r1.2 })
    else
      let r2 := alloc_page r1.2
      let ept_pdpt0 := r2.1
      if ept_pdpt0 = NULL then
        -- free_pml4
        (1, { w with pa := release_page r2.2 ept_pml4 })
      else
        let pml4e := slot ept_pml4 (pgd_offset guest_start)
        let m1 := write64 w.mem pml4e
                    (ept_init_default (w.mem pml4e) (virt_to_phys env ept_pdpt0))
        let pdpt_off := pud_offset guest_start
        let ept_pdpt := slot ept_pdpt0 pdpt_off
        let needed_pd := needed_paging_structs mmap_size (GB 1)
        let needed_pt := needed_paging_structs mmap_size (MB 2)
        if pdpt_off + needed_pd ≥ EPT_PTRS_PER_TABLE then
          -- free_pdpt, free_pml4
          (1, { w with mem := m1,
                       pa := release_page (release_page r2.2 ept_pdpt) ept_pml4 })
        else
          let r3 := alloc_pages r2.2 needed_pd
          let ept_pd := r3.1
          if ept_pd = NULL then
            (1, { w with mem := m1,
                         pa := release_page (release_page r3.2 ept_pdpt) ept_pml4 })
          else
            let r4 := alloc_pages r3.2 needed_pt
            let ept_pt := r4.1
            if ept_pt = NULL then
              -- free_pd, free_pdpt, free_pml4
              (1, { w with mem := m1,
                           pa := release_page
                                   (release_page
                                     (release_pages r4.2 ept_pd needed_pd) ept_pdpt)
                                   ept_pml4 })
            else
              let m2 := memset0 m1 ept_pd (needed_pd * PAGE_SIZE)
              let m3 := memset0 m2 ept_pt (needed_pt * PAGE_SIZE)
              let s := ept_pdpt_loop env ept_pdpt ept_pd ept_pt needed_pd needed_pd 0
                         needed_pt { mem := m3, host_start := host_start,
                                     guest_start := guest_start }
              (0, { vmm := { w.vmm with eptp := setup_eptp env ept_pml4 },
                    mem := s.mem, pa := r4.2 })

/-- The function `setup_ept`: allocate `nb_pages = 100` huge pages and map them
at guest-physical 0. -/
def setup_ept (env : PageEnv) (w : World) : Nat × World :=
  let nb_pages := 100
  let r := alloc_huge_pages w.pa nb_pages
  let p := r.1
  if p = NULL then (1, { w with pa := r.2 })
  else
    let start := virt_to_phys env p
    let host_end := (start + nb_pages * HUGE_PAGE_SIZE) % U64
    let r1 := ept_setup_range env { w with pa := r.2 } start host_end 0
    if r1.1 ≠ 0 then (1, r1.2)
    else
      (0, { r1.2 with vmm := { r1.2.vmm with guest_mem_start := p,
                                             guest_mem_end := phys_to_virt env host_end } })

/-! ## The walks (`vmx.c`, lines 209-288) -/

/-- The function `ept_translate` (GPA to HPA). -/
def ept_translate (env : PageEnv) (m : Mem) (vmm : Vmm) (addr : Nat) : Nat :=
  let pgd_addr := (F_EPTP_PML4.get vmm.eptp <<< PAGE_SHIFT) % U64
  let pgd := phys_to_virt env pgd_addr
  let pgd_off := pgd_offset addr
  let pgd_e := m (slot pgd pgd_off)
  if !env.pg_present pgd_e then SENTINEL
  else
    let pud_addr := pgd_e &&& PAGE_MASK
    let pud := phys_to_virt env pud_addr
    let pud_off := pud_offset addr
    let pud_e := m (slot pud pud_off)
    if !env.pg_present pud_e then SENTINEL
    else
      let pmd_addr := pud_e &&& PAGE_MASK
      let pmd := phys_to_virt env pmd_addr
      let pmd_off := pmd_offset addr
      let pmd_e := m (slot pmd pmd_off)
      if !env.pg_present pmd_e then SENTINEL
      else
        let pt_addr := pmd_e &&& PAGE_MASK
        let pte := phys_to_virt env pt_addr
        let pte_off := pte_offset addr
        let pte_e := m (slot pte pte_off)
        if !env.pg_present pte_e then SENTINEL
        else
          let page_off := addr &&& not64 PAGE_MASK
          (pte_e &&& PAGE_MASK) + page_off

/-- The function `gpa_to_hva`. -/
def gpa_to_hva (env : PageEnv) (m : Mem) (vmm : Vmm) (gpa : Nat) : Nat :=
  let hpa := ept_translate env m vmm gpa
  phys_to_virt env hpa

/-- The function `gva_to_gpa` (guest 4-level walk). -/
def gva_to_gpa (env : PageEnv) (m : Mem) (vmm : Vmm) (gva : Nat) : Nat :=
  let guest_cr3 := vmm.guest_cr3 &&& PAGE_MASK
  let guest_pgd := gpa_to_hva env m vmm guest_cr3
  let pml4e := m (slot guest_pgd (pgd_offset gva))
  if !env.pg_present pml4e then SENTINEL
  else
    let guest_pud := gpa_to_hva env m vmm (pml4e &&& PAGE_MASK)
    let pdpte := m (slot guest_pud (pud_offset gva))
    if !env.pg_present pdpte then SENTINEL
    else if pg_huge_page pdpte then
      ((pdpte &&& PAGE_MASK) + (gva &&& not64 PUD_MASK)) % U64
    else
      let guest_pmd := gpa_to_hva env m vmm (pdpte &&& PAGE_MASK)
      let pde := m (slot guest_pmd (pmd_offset gva))
      if !env.pg_present pde then SENTINEL
      else if pg_huge_page pde then
        ((pde &&& PAGE_MASK) + (gva &&& not64 PMD_MASK)) % U64
      else
        let guest_pt := gpa_to_hva env m vmm (pde &&& PAGE_MASK)
        let pte := m (slot guest_pt (pte_offset gva))
        if !env.pg_present pte then SENTINEL
        else ((pte &&& PAGE_MASK) + (gva &&& not64 PAGE_MASK)) % U64

/-- The function `gva_to_hva`. -/
def gva_to_hva (env : PageEnv) (m : Mem) (vmm : Vmm) (gva : Nat) : Nat :=
  let gpa := gva_to_gpa env m vmm gva
  if gpa = SENTINEL then SENTINEL
  else gpa_to_hva env m vmm gpa

/-! ## Control-field adjustment (`vmx.c`, lines 354-366) -/

/-- Number of the first VMX capability MSR, `MSR_VMX_BASIC` (`x86.h`). -/
def MSR_VMX_BASIC : Nat := 0x480

/-- The macro `VMM_IDX`. -/
def VMM_IDX (idx : Nat) : Nat := idx - MSR_VMX_BASIC

/-- Low 32 bits of a capability word: the bits that must be 1. -/
def must_be_1 (ctl_mask : Nat) : Nat := ctl_mask &&& 0xffffffff

/-- High 32 bits of a capability word: the bits that may be 1. -/
def may_be_1 (ctl_mask : Nat) : Nat := (ctl_mask % U64) >>> 32

/-- Modelled from the spec: `adjust_vm_control` is declared in `vmx.h`, which is
not in the sources.  "The writer computes `(requested | must_be_1) & may_be_1`",
with "low 32 bits = must-be-1, high 32 bits = may-be-1". -/
def adjust_vm_control (ctl ctl_mask : Nat) : Nat :=
  (ctl ||| must_be_1 ctl_mask) &&& may_be_1 ctl_mask

/-- The function `vmcs_write_control`: the field and the value handed to
`__vmwrite`. -/
def vmcs_write_control (vmm : Vmm) (field ctl ctl_msr : Nat) : Nat × Nat :=
  let ctl_mask := vmm.vmx_msr.getD (VMM_IDX ctl_msr) 0
  (field, adjust_vm_control ctl ctl_mask)

/-! ## VMM bring-up: VMCS fields and writers (`vmx.c`, lines 354-551) -/

/-- Modelled from the spec: the control flags and `enum vmcs_field` are
declared in `vmx.h`, which is not in the sources.  The values are the
architectural ones, which the field arithmetic of the code (`base_field + 2`,
`sel_offset`) presupposes.  Primary control "use MSR bitmaps", bit 28. -/
def VM_EXEC_USE_MSR_BITMAPS : Nat := 1 <<< 28
/-- Modelled from the spec: primary control "enable secondary controls", bit 31. -/
def VM_EXEC_ENABLE_PROC_CTLS2 : Nat := 1 <<< 31
/-- Modelled from the spec: primary control "CR3-load exiting", bit 15. -/
def VM_EXEC_CR3_LOAD_EXIT : Nat := 1 <<< 15
/-- Modelled from the spec: primary control "unconditional I/O exit", bit 24. -/
def VM_EXEC_UNCONDITIONAL_IO_EXIT : Nat := 1 <<< 24
/-- Modelled from the spec: secondary control "unrestricted guest", bit 7. -/
def VM_EXEC_UNRESTRICTED_GUEST : Nat := 1 <<< 7
/-- Modelled from the spec: secondary control "enable EPT", bit 1. -/
def VM_EXEC_ENABLE_EPT : Nat := 1 <<< 1
/-- Modelled from the spec: exit control "host address-space size", bit 9. -/
def VM_EXIT_LONG_MODE : Nat := 1 <<< 9
/-- Modelled from the spec: exit control "save IA32_EFER", bit 20. -/
def VM_EXIT_SAVE_MSR_EFER : Nat := 1 <<< 20
/-- Modelled from the spec: entry control "load IA32_EFER", bit 15. -/
def VM_ENTRY_LOAD_MSR_EFER : Nat := 1 <<< 15

/-- Modelled from the spec: VMCS field encoding (see `VM_EXEC_USE_MSR_BITMAPS`). -/
def GUEST_ES_SELECTOR : Nat := 0x0800
/-- Modelled from the spec: VMCS field encoding. -/
def HOST_ES_SELECTOR : Nat := 0x0c00
/-- Modelled from the spec: VMCS field encoding. -/
def HOST_CS_SELECTOR : Nat := 0x0c02
/-- Modelled from the spec: VMCS field encoding. -/
def HOST_SS_SELECTOR : Nat := 0x0c04
/-- Modelled from the spec: VMCS field encoding. -/
def HOST_DS_SELECTOR : Nat := 0x0c06
/-- Modelled from the spec: VMCS field encoding. -/
def HOST_FS_SELECTOR : Nat := 0x0c08
/-- Modelled from the spec: VMCS field encoding. -/
def HOST_GS_SELECTOR : Nat := 0x0c0a
/-- Modelled from the spec: VMCS field encoding. -/
def HOST_TR_SELECTOR : Nat := 0x0c0c
/-- Modelled from the spec: VMCS field encoding. -/
def MSR_BITMAP : Nat := 0x2004
/-- Modelled from the spec: VMCS field encoding. -/
def EPT_POINTER : Nat := 0x201a
/-- Modelled from the spec: VMCS field encoding. -/
def VMCS_LINK_POINTER : Nat := 0x2800
/-- Modelled from the spec: VMCS field encoding. -/
def GUEST_DEBUGCTL : Nat := 0x2802
/-- Modelled from the spec: VMCS field encoding. -/
def GUEST_PAT : Nat := 0x2804
/-- Modelled from the spec: VMCS field encoding. -/
def GUEST_EFER : Nat := 0x2806
/-- Modelled from the spec: VMCS field encoding. -/
def GUEST_PERF_GLOBAL_CTRL : Nat := 0x2808
/-- Modelled from the spec: VMCS field encoding. -/
def GUEST_BNDCFGS : Nat := 0x2812
/-- Modelled from the spec: VMCS field encoding. -/
def HOST_PAT : Nat := 0x2c00
/-- Modelled from the spec: VMCS field encoding. -/
def HOST_EFER : Nat := 0x2c02
/-- Modelled from the spec: VMCS field encoding. -/
def HOST_PERF_GLOBAL_CTRL : Nat := 0x2c04
/-- Modelled from the spec: VMCS field encoding. -/
def PIN_BASED_VM_EXEC_CONTROL : Nat := 0x4000
/-- Modelled from the spec: VMCS field encoding. -/
def CPU_BASED_VM_EXEC_CONTROL : Nat := 0x4002
/-- Modelled from the spec: VMCS field encoding. -/
def EXCEPTION_BITMAP : Nat := 0x4004
/-- Modelled from the spec: VMCS field encoding. -/
def VM_EXIT_CONTROLS : Nat := 0x400c
/-- Modelled from the spec: VMCS field encoding. -/
def VM_ENTRY_CONTROLS : Nat := 0x4012
/-- Modelled from the spec: VMCS field encoding. -/
def SECONDARY_VM_EXEC_CONTROL : Nat := 0x401e
/-- Modelled from the spec: VMCS field encoding. -/
def GUEST_ES_LIMIT : Nat := 0x4800
/-- Modelled from the spec: VMCS field encoding. -/
def GUEST_GDTR_LIMIT : Nat := 0x4810
/-- Modelled from the spec: VMCS field encoding. -/
def GUEST_IDTR_LIMIT : Nat := 0x4812
/-- Modelled from the spec: VMCS field encoding. -/
def GUEST_ES_AR_BYTES : Nat := 0x4814
/-- Modelled from the spec: VMCS field encoding. -/
def GUEST_INTERRUPTIBILITY_INFO : Nat := 0x4824
/-- Modelled from the spec: VMCS field encoding. -/
def GUEST_ACTIVITY_STATE : Nat := 0x4826
/-- Modelled from the spec: VMCS field encoding. -/
def GUEST_SYSENTER_CS : Nat := 0x482a
/-- Modelled from the spec: VMCS field encoding. -/
def HOST_SYSENTER_CS : Nat := 0x4c00
/-- Modelled from the spec: VMCS field encoding. -/
def CR0_GUEST_HOST_MASK : Nat := 0x6000
/-- Modelled from the spec: VMCS field encoding. -/
def CR4_GUEST_HOST_MASK : Nat := 0x6002
/-- Modelled from the spec: VMCS field encoding. -/
def CR0_READ_SHADOW : Nat := 0x6004
/-- Modelled from the spec: VMCS field encoding. -/
def CR4_READ_SHADOW : Nat := 0x6006
/-- Modelled from the spec: VMCS field encoding. -/
def GUEST_CR0 : Nat := 0x6800
/-- Modelled from the spec: VMCS field encoding. -/
def GUEST_ES_BASE : Nat := 0x6806
/-- Modelled from the spec: VMCS field encoding. -/
def GUEST_GDTR_BASE : Nat := 0x6816
/-- Modelled from the spec: VMCS field encoding. -/
def GUEST_IDTR_BASE : Nat := 0x6818
/-- Modelled from the spec: VMCS field encoding. -/
def GUEST_DR7 : Nat := 0x681a
/-- Modelled from the spec: VMCS field encoding. -/
def GUEST_RSP : Nat := 0x681c
/-- Modelled from the spec: VMCS field encoding. -/
def GUEST_RIP : Nat := 0x681e
/-- Modelled from the spec: VMCS field encoding. -/
def GUEST_RFLAGS : Nat := 0x6820
/-- Modelled from the spec: VMCS field encoding. -/
def GUEST_SYSENTER_ESP : Nat := 0x6824
/-- Modelled from the spec: VMCS field encoding. -/
def GUEST_SYSENTER_EIP : Nat := 0x6826
/-- Modelled from the spec: VMCS field encoding. -/
def HOST_CR0 : Nat := 0x6c00
/-- Modelled from the spec: VMCS field encoding. -/
def HOST_FS_BASE : Nat := 0x6c06
/-- Modelled from the spec: VMCS field encoding. -/
def HOST_GS_BASE : Nat := 0x6c08
/-- Modelled from the spec: VMCS field encoding. -/
def HOST_TR_BASE : Nat := 0x6c0a
/-- Modelled from the spec: VMCS field encoding. -/
def HOST_GDTR_BASE : Nat := 0x6c0c
/-- Modelled from the spec: VMCS field encoding. -/
def HOST_IDTR_BASE : Nat := 0x6c0e
/-- Modelled from the spec: VMCS field encoding. -/
def HOST_SYSENTER_ESP : Nat := 0x6c10
/-- Modelled from the spec: VMCS field encoding. -/
def HOST_SYSENTER_EIP : Nat := 0x6c12
/-- Modelled from the spec: VMCS field encoding. -/
def HOST_RSP : Nat := 0x6c14
/-- Modelled from the spec: VMCS field encoding. -/
def HOST_RIP : Nat := 0x6c16

/-- One call of `__vmwrite(field, value)`. -/
abbrev VmWrite := Nat × Nat

/-- The function `vmcs_write_pin_based_ctrls`. -/
def vmcs_write_pin_based_ctrls (vmm : Vmm) (ctl : Nat) : VmWrite :=
  vmcs_write_control vmm PIN_BASED_VM_EXEC_CONTROL ctl MSR_VMX_TRUE_PIN_CTLS

/-- The function `vmcs_write_proc_based_ctrls`. -/
def vmcs_write_proc_based_ctrls (vmm : Vmm) (ctl : Nat) : VmWrite :=
  vmcs_write_control vmm CPU_BASED_VM_EXEC_CONTROL ctl MSR_VMX_TRUE_PROC_CTLS

/-- The function `vmcs_write_proc_based_ctrls2`. -/
def vmcs_write_proc_based_ctrls2 (vmm : Vmm) (ctl : Nat) : VmWrite :=
  vmcs_write_control vmm SECONDARY_VM_EXEC_CONTROL ctl MSR_VMX_PROC_CTLS2

/-- The macro `EXCEPTION_BITMAP_MASK`, `~(EXCEPTION_PF|EXCEPTION_UD)`. -/
def EXCEPTION_BITMAP_MASK : Nat := not64 ((1 <<< 14) ||| (1 <<< 6))

/-- The function `vmcs_write_vm_exec_controls`: its `__vmwrite` calls in
order. -/
def vmcs_write_vm_exec_controls (env : PageEnv) (vmm : Vmm) : List VmWrite :=
  let proc_flags1 := VM_EXEC_USE_MSR_BITMAPS ||| VM_EXEC_ENABLE_PROC_CTLS2 |||
    VM_EXEC_CR3_LOAD_EXIT ||| VM_EXEC_UNCONDITIONAL_IO_EXIT
  let proc_flags2 := VM_EXEC_UNRESTRICTED_GUEST ||| VM_EXEC_ENABLE_EPT
  let guest_cr0 := vmm.guest_state.reg_state.cr0
  let guest_cr4 := vmm.guest_state.reg_state.cr4
  [ vmcs_write_pin_based_ctrls vmm 0,
    vmcs_write_proc_based_ctrls vmm proc_flags1,
    vmcs_write_proc_based_ctrls2 vmm proc_flags2,
    (EXCEPTION_BITMAP, EXCEPTION_BITMAP_MASK),
    (MSR_BITMAP, virt_to_phys env vmm.msr_bitmap),
    (CR0_READ_SHADOW, guest_cr0),
    (CR0_GUEST_HOST_MASK, guest_cr0),
    (CR4_READ_SHADOW, guest_cr4),
    (CR4_GUEST_HOST_MASK, guest_cr4),
    (EPT_POINTER, vmm.eptp) ]

/-- The function `vmcs_write_vm_exit_controls`. -/
def vmcs_write_vm_exit_controls (vmm : Vmm) : List VmWrite :=
  [ vmcs_write_control vmm VM_EXIT_CONTROLS (VM_EXIT_LONG_MODE ||| VM_EXIT_SAVE_MSR_EFER)
      MSR_VMX_TRUE_EXIT_CTLS ]

/-- The function `vmcs_write_vm_entry_controls`. -/
def vmcs_write_vm_entry_controls (vmm : Vmm) : List VmWrite :=
  [ vmcs_write_control vmm VM_ENTRY_CONTROLS VM_ENTRY_LOAD_MSR_EFER MSR_VMX_TRUE_ENTRY_CTLS ]

/-- The function `vmcs_write_control_regs`: `host` selects `HOST_CR0` or
`GUEST_CR0` as the base field. -/
def vmcs_write_control_regs (regs : control_regs) (host : Bool) : List VmWrite :=
  let base_field := if host then HOST_CR0 else GUEST_CR0
  [ (base_field, regs.cr0), (base_field + 2, regs.cr3), (base_field + 4, regs.cr4) ]

/-- The function `vmcs_write_vm_host_state`. -/
def vmcs_write_vm_host_state (vmm : Vmm) : List VmWrite :=
  vmcs_write_control_regs vmm.host_state.control_regs true ++
  [ (HOST_CS_SELECTOR, vmm.host_state.selectors.cs),
    (HOST_DS_SELECTOR, vmm.host_state.selectors.ds),
    (HOST_ES_SELECTOR, vmm.host_state.selectors.es),
    (HOST_SS_SELECTOR, vmm.host_state.selectors.ss),
    (HOST_FS_SELECTOR, vmm.host_state.selectors.fs),
    (HOST_GS_SELECTOR, vmm.host_state.selectors.gs),
    (HOST_TR_SELECTOR, vmm.host_state.selectors.tr),
    (HOST_TR_BASE, vmm.host_state.tr_base),
    (HOST_GDTR_BASE, vmm.host_state.gdtr_base),
    (HOST_IDTR_BASE, vmm.host_state.idtr_base),
    (HOST_FS_BASE, vmm.host_state.msr.ia32_fs_base),
    (HOST_GS_BASE, vmm.host_state.msr.ia32_gs_base),
    (HOST_SYSENTER_CS, vmm.host_state.msr.ia32_sysenter_cs),
    (HOST_SYSENTER_ESP, vmm.host_state.msr.ia32_sysenter_esp),
    (HOST_SYSENTER_EIP, vmm.host_state.msr.ia32_sysenter_eip),
    (HOST_PERF_GLOBAL_CTRL, vmm.host_state.msr.ia32_perf_global_ctrl),
    (HOST_PAT, vmm.host_state.msr.ia32_pat),
    (HOST_EFER, vmm.host_state.msr.ia32_efer),
    (HOST_RSP, vmm.host_state.rsp),
    (HOST_RIP, vmm.host_state.rip) ]

/-- The function `sel_offset`: `field - GUEST_ES_SELECTOR`, wrapping like
unsigned arithmetic (taken on 64 bits, the width `__vmwrite` receives). -/
def sel_offset (field : Nat) : Nat := (field + (U64 - GUEST_ES_SELECTOR)) % U64

/-- The function `sel_limit`. -/
def sel_limit (field : Nat) : Nat := (sel_offset GUEST_ES_LIMIT + field) % U64

/-- The function `sel_access`. -/
def sel_access (field : Nat) : Nat := (sel_offset GUEST_ES_AR_BYTES + field) % U64

/-- The function `sel_base`. -/
def sel_base (field : Nat) : Nat := (sel_offset GUEST_ES_BASE + field) % U64

/-- The function `vmcs_write_guest_selector`. -/
def vmcs_write_guest_selector (desc : segment_descriptor) : List VmWrite :=
  let field := desc.base_field
  [ (field, desc.selector),
    (sel_limit field, desc.limit),
    (sel_access field, desc.access),
    (sel_base field, desc.base) ]

/-- The function `vmcs_write_guest_selectors`. -/
def vmcs_write_guest_selectors (desc : segment_descriptors) : List VmWrite :=
  vmcs_write_guest_selector desc.cs ++
  vmcs_write_guest_selector desc.ds ++
  vmcs_write_guest_selector desc.es ++
  vmcs_write_guest_selector desc.ss ++
  vmcs_write_guest_selector desc.fs ++
  vmcs_write_guest_selector desc.gs ++
  vmcs_write_guest_selector desc.tr ++
  vmcs_write_guest_selector desc.ldtr

/-- The function `vmcs_write_guest_reg_state`; `cr3` is the guest CR3 kept in
`Vmm.guest_cr3`. -/
def vmcs_write_guest_reg_state (state : vmcs_guest_register_state) (cr3 : Nat) :
    List VmWrite :=
  vmcs_write_control_regs { cr0 := state.cr0, cr3 := cr3, cr4 := state.cr4 } false ++
  vmcs_write_guest_selectors state.seg_descs ++
  [ (GUEST_GDTR_BASE, state.gdtr.base),
    (GUEST_IDTR_BASE, state.idtr.base),
    (GUEST_GDTR_LIMIT, state.gdtr.limit),
    (GUEST_IDTR_LIMIT, state.idtr.limit),
    (GUEST_SYSENTER_CS, state.msr.ia32_sysenter_cs),
    (GUEST_SYSENTER_ESP, state.msr.ia32_sysenter_esp),
    (GUEST_SYSENTER_EIP, state.msr.ia32_sysenter_eip),
    (GUEST_PAT, state.msr.ia32_pat),
    (GUEST_EFER, state.msr.ia32_efer),
    (GUEST_BNDCFGS, state.msr.ia32_bndcfgs),
    (GUEST_DEBUGCTL, state.msr.ia32_debugctl),
    (GUEST_PERF_GLOBAL_CTRL, state.msr.ia32_perf_global_ctrl),
    (GUEST_DR7, state.dr7),
    (GUEST_RFLAGS, state.regs.rflags),
    (GUEST_RSP, state.regs.rsp),
    (GUEST_RIP, state.regs.rip),
    (GUEST_ACTIVITY_STATE, 0),
    (GUEST_INTERRUPTIBILITY_INFO, 0) ]

/-- The function `vmcs_write_guest_state`. -/
def vmcs_write_guest_state (state : vmcs_guest_state) (cr3 : Nat) : List VmWrite :=
  vmcs_write_guest_reg_state state.reg_state cr3 ++ [ (VMCS_LINK_POINTER, state.vmcs_link) ]

/-- The function `vmcs_write_vm_guest_state`. -/
def vmcs_write_vm_guest_state (vmm : Vmm) : List VmWrite :=
  vmcs_write_guest_state vmm.guest_state vmm.guest_cr3

/-! ## VMM bring-up: the orchestrator (`vmx.c`, lines 43-66, 290-352, 553-670) -/

/-- Modelled from the spec: `kmalloc(size)` of the small-object allocator
(prototype in `kmalloc.h`, body not in the sources), kept in the same
allocator state as the page allocator, with kind `heap`. -/
def kmalloc (a : PageAlloc) (size : Nat) : Nat × PageAlloc :=
  alloc_block ResKind.heap a size

/-- Modelled from the spec: `kfree(p)` of the small-object allocator.  It takes
the pointer only, so the live heap block is found by its pointer; a pointer
that is not the start of a live heap block releases nothing. -/
def kfree (a : PageAlloc) (p : Nat) : PageAlloc :=
  { a with live := a.live.eraseP (fun b => decide (b.1 = ResKind.heap ∧ b.2.1 = p)),
           release_calls := a.release_calls + 1 }

/-- One executed VMX instruction: its operand, and for the instructions that
report failure in the flags whether it succeeded. -/
inductive VmxEvent where
  | vmxon (paddr : Nat) (ok : Bool)
  | vmclear (paddr : Nat) (ok : Bool)
  | vmptrld (paddr : Nat) (ok : Bool)
  | vmwrite (field value : Nat)
  | vmlaunch (ok : Bool)
  | vmxoff
deriving DecidableEq, Repr

/-- Modelled from the spec: what `vmm_init` obtains from outside `vmx.c`.
`rdmsr` is `__readmsr`; `selectors`, `gdtr_base`, `idtr_base` are what
`read_cs` .. `__str`, `__sgdt`, `__sidt` deliver; `tss` and `vm_exit_stub` are
the addresses of the two external symbols; `vmm_ptr` is the address of the
`struct vmm` itself; `setup_guest` is the callback `vmm->setup_guest` and
`init_vm_exit_handlers` the function of that name, both free to change the
VMM record, memory and the allocator; neither executes a VMX instruction.  The
four flags say which of `__vmxon`, `__vmclear`, `__vmptrld` and `vmlaunch`
report failure ("any non-zero flag means error"). -/
structure Platform where
  rdmsr : Nat → Nat
  selectors : segment_selectors
  gdtr_base : Nat
  idtr_base : Nat
  tss : Nat
  vm_exit_stub : Nat
  vmm_ptr : Nat
  setup_guest : World → World
  init_vm_exit_handlers : World → World
  vmxon_fails : Bool
  vmclear_fails : Bool
  vmptrld_fails : Bool
  vmlaunch_fails : Bool

/-- State that `vmm_init` acts on: the world of the EPT builder, the control
registers CR0, CR3, CR4 of the processor, and the VMX instructions executed so
far, oldest first. -/
structure Machine where
  w : World
  cr0 : Nat
  cr3 : Nat
  cr4 : Nat
  trace : List VmxEvent

/-- Store to a `u32` member at offset 0 of the 64-bit word at `a` (little
endian: the low half of the word). -/
def write32 (m : Mem) (a v : Nat) : Mem := write64 m a (set_field (m a) 0 32 v)

/-- The function `vmm_read_vmx_msrs`. -/
def vmm_read_vmx_msrs (P : Platform) (vmm : Vmm) : Vmm :=
  { vmm with vmx_msr := (List.range NR_VMX_MSR).map (fun i => P.rdmsr (MSR_VMX_BASIC + i) % U64) }

/-- The function `alloc_vmcs`. -/
def alloc_vmcs (w : World) : Nat × World :=
  let r := alloc_pages w.pa VMCS_NB_PAGES
  let mem := r.1
  if mem = NULL then (1, { w with pa := r.2 })
  else
    (0, { vmm := { w.vmm with vmx_on := mem, vmcs := (mem + PAGE_SIZE) % U64 },
          mem := memset0 w.mem mem (VMCS_NB_PAGES * PAGE_SIZE),
          pa := r.2 })

/-- The function `release_vmcs`. -/
def release_vmcs (w : World) : World :=
  { w with pa := release_pages w.pa w.vmm.vmx_on VMCS_NB_PAGES }

/-- The function `vmcs_get_host_selectors`. -/
def vmcs_get_host_selectors (P : Platform) : segment_selectors :=
  { cs := P.selectors.cs, ds := P.selectors.ds, es := P.selectors.es, ss := P.selectors.ss,
    fs := P.selectors.fs, gs := P.selectors.gs, tr := P.selectors.tr }

/-- The function `vmcs_get_control_regs`. -/
def vmcs_get_control_regs (m : Machine) : control_regs :=
  { cr0 := m.cr0, cr3 := m.cr3, cr4 := m.cr4 }

/-- The function `vmcs_fill_msr_state`; `ia32_bndcfgs` is left as it was (the
read is under `#if 0`). -/
def vmcs_fill_msr_state (P : Platform) (msr : vmcs_state_msr) : vmcs_state_msr :=
  { msr with
    ia32_fs_base := P.rdmsr MSR_FS_BASE % U64,
    ia32_gs_base := P.rdmsr MSR_GS_BASE % U64,
    ia32_sysenter_cs := P.rdmsr MSR_SYSENTER_CS % U64,
    ia32_sysenter_esp := P.rdmsr MSR_SYSENTER_ESP % U64,
    ia32_sysenter_eip := P.rdmsr MSR_SYSENTER_EIP % U64,
    ia32_perf_global_ctrl := P.rdmsr MSR_PERF_GLOBAL_CTRL % U64,
    ia32_pat := P.rdmsr MSR_PAT % U64,
    ia32_efer := P.rdmsr MSR_EFER % U64,
    ia32_debugctl := P.rdmsr MSR_DEBUGCTL % U64 }

/-- The function `vmcs_get_host_state`, on `vmm->host_state`: the returned
`int` and the machine after the call. -/
def vmcs_get_host_state (P : Platform) (m : Machine) : Nat × Machine :=
  let st0 := m.w.vmm.host_state
  let st1 : vmcs_host_state :=
    { st0 with control_regs := vmcs_get_control_regs m,
               selectors := vmcs_get_host_selectors P,
               gdtr_base := P.gdtr_base,
               idtr_base := P.idtr_base,
               tr_base := P.tss,
               msr := vmcs_fill_msr_state P st0.msr }
  let r := kmalloc m.w.pa PAGE_SIZE
  let ptr := r.1
  if ptr = NULL then
    (1, { m with w := { m.w with vmm := { m.w.vmm with host_state := st1 }, pa := r.2 } })
  else
    let st2 : vmcs_host_state :=
      { st1 with rsp := (ptr + VM_EXIT_STACK_SIZE) % U64, rip := P.vm_exit_stub }
    (0, { m with w := { m.w with vmm := { m.w.vmm with host_state := st2 }, pa := r.2 } })

/-- The function `host_set_stack_ctx`: the address of the VMM record is stored
at `host_state.rsp`. -/
def host_set_stack_ctx (P : Platform) (w : World) : World :=
  { w with mem := write64 w.mem w.vmm.host_state.rsp P.vmm_ptr }

/-- The function `init_msr_bitmap`. -/
def init_msr_bitmap (w : World) : Nat × World :=
  let r := alloc_page w.pa
  let vmm1 := { w.vmm with msr_bitmap := r.1 }
  let mem1 := if r.1 ≠ NULL then memset0 w.mem r.1 MSR_ALL_BITMAP_SZ else w.mem
  (if r.1 = NULL then 1 else 0, { vmm := vmm1, mem := mem1, pa := r.2 })

/-- Everything `vmm_init` writes into the loaded VMCS, in program order:
`vmcs_write_vm_exec_controls`, `vmcs_write_vm_exit_controls`,
`vmcs_write_vm_entry_controls`, `vmcs_write_vm_host_state`,
`vmcs_write_vm_guest_state`. -/
def vmcs_writes (env : PageEnv) (vmm : Vmm) : List VmWrite :=
  vmcs_write_vm_exec_controls env vmm ++
  vmcs_write_vm_exit_controls vmm ++
  vmcs_write_vm_entry_controls vmm ++
  vmcs_write_vm_host_state vmm ++
  vmcs_write_vm_guest_state vmm

/-- Append executed VMX instructions to the trace. -/
def Machine.exec (m : Machine) (evs : List VmxEvent) : Machine :=
  { m with trace := m.trace ++ evs }

/-- The function `launch_vm`: `vmlaunch` with the guest registers loaded; the
returned `int` is 1 when the instruction reports failure. -/
def launch_vm (P : Platform) (m : Machine) : Nat × Machine :=
  (if P.vmlaunch_fails then 1 else 0, m.exec [VmxEvent.vmlaunch (!P.vmlaunch_fails)])

/-- The label `free_vmcs` of `vmm_init` and the `return 1` after it. -/
def free_vmcs (m : Machine) : Nat × Machine :=
  (1, { m with w := release_vmcs m.w })

/-- The label `free_host` of `vmm_init`, falling through to `free_vmcs`. -/
def free_host (m : Machine) : Nat × Machine :=
  let p := (m.w.vmm.host_state.rsp + (U64 - VM_EXIT_STACK_SIZE)) % U64
  free_vmcs { m with w := { m.w with pa := kfree m.w.pa p } }

/-- The label `free_msr` of `vmm_init`, falling through to `free_host`. -/
def free_msr (m : Machine) : Nat × Machine :=
  free_host { m with w := { m.w with pa := release_page m.w.pa m.w.vmm.msr_bitmap } }

/-- The label `free_vmxoff` of `vmm_init`, falling through to `free_msr`. -/
def free_vmxoff (m : Machine) : Nat × Machine :=
  free_msr (m.exec [VmxEvent.vmxoff])

/-- The first part of `vmm_init`, up to and including
`init_vm_exit_handlers(vmm)`: either the function has returned 1 (left, with
the machine after the teardown), or it is about to execute `__vmxon` (right,
with the machine at that point). -/
def vmm_init_prologue (env : PageEnv) (P : Platform) (m0 : Machine) : Machine ⊕ Machine :=
  let w1 := { m0.w with vmm := vmm_read_vmx_msrs P m0.w.vmm }
  let r := alloc_vmcs w1
  if r.1 ≠ 0 then Sum.inl { m0 with w := r.2 }
  else
    let vmm := r.2.vmm
    let rev_id := (vmm.vmx_msr.getD (VMM_IDX MSR_VMX_BASIC) 0 &&& 0x7fffffff) % 2 ^ 32
    let mem1 := write32 r.2.mem vmm.vmcs rev_id
    let mem2 := write32 mem1 vmm.vmx_on rev_id
    let cr0 := (m0.cr0 ||| vmm.vmx_msr.getD (VMM_IDX MSR_VMX_CR0_FIXED0) 0) &&&
                 vmm.vmx_msr.getD (VMM_IDX MSR_VMX_CR0_FIXED1) 0
    let cr4 := ((m0.cr4 ||| CR4_VMXE) ||| vmm.vmx_msr.getD (VMM_IDX MSR_VMX_CR4_FIXED0) 0) &&&
                 vmm.vmx_msr.getD (VMM_IDX MSR_VMX_CR4_FIXED1) 0
    let m2 : Machine := { m0 with w := { r.2 with mem := mem2 }, cr0 := cr0, cr4 := cr4 }
    let r1 := vmcs_get_host_state P m2
    if r1.1 ≠ 0 then Sum.inl (free_vmcs r1.2).2
    else
      let m3 : Machine := { r1.2 with w := host_set_stack_ctx P r1.2.w }
      let r2 := setup_ept env m3.w
      if r2.1 ≠ 0 then Sum.inl (free_host { m3 with w := r2.2 }).2
      else
        let r3 := init_msr_bitmap r2.2
        if r3.1 ≠ 0 then Sum.inl (free_host { m3 with w := r3.2 }).2
        else
          Sum.inr { m3 with w := P.init_vm_exit_handlers (P.setup_guest r3.2) }

/-- The second part of `vmm_init`, from `__vmxon` to the end: the returned
`int` and the machine after the call. -/
def vmm_init_vmx (env : PageEnv) (P : Platform) (m : Machine) : Nat × Machine :=
  let m1 := m.exec [VmxEvent.vmxon (virt_to_phys env m.w.vmm.vmx_on) (!P.vmxon_fails)]
  if P.vmxon_fails then free_msr m1
  else
    let vmcs_paddr := virt_to_phys env m.w.vmm.vmcs
    let m2 := m1.exec [VmxEvent.vmclear vmcs_paddr (!P.vmclear_fails)]
    if P.vmclear_fails then free_vmxoff m2
    else
      let m3 := m2.exec [VmxEvent.vmptrld vmcs_paddr (!P.vmptrld_fails)]
      if P.vmptrld_fails then free_vmxoff m3
      else
        let m4 := m3.exec ((vmcs_writes env m.w.vmm).map (fun fv => VmxEvent.vmwrite fv.1 fv.2))
        let r := launch_vm P m4
        if r.1 ≠ 0 then free_vmxoff r.2
        else (0, r.2)

/-- The function `vmm_init`: the returned `int` and the machine after the
call. -/
def vmm_init (env : PageEnv) (P : Platform) (m0 : Machine) : Nat × Machine :=
  match vmm_init_prologue env P m0 with
  | Sum.inl mf => (1, mf)
  | Sum.inr m => vmm_init_vmx env P m

/-! ## Analysis of the builder: side conditions and derived notions -/

/-- Side conditions under which one page directory is filled: at most 512 page
tables, the directory page and the `n` page-table pages lie in the address
space and do not overlap, and the host range does not wrap. -/
structure PdCtx (cur_pd pt n S G : Nat) : Prop where
  hn : n ≤ 512
  hG : G < 18446744073709551616
  hpd : cur_pd + 4096 ≤ 18446744073709551616
  hptb : pt + n * 4096 ≤ 18446744073709551616
  hsep : cur_pd + 4096 ≤ pt ∨ pt + n * 4096 ≤ cur_pd
  hS : S + n * 2097152 < 18446744073709551616

/-- Loop invariant of the page-directory loop at index `j`: the running
`host_start` and `guest_start` are `j` steps of 2 MiB past `S` and `G`. -/
def PdInv (S G j : Nat) (s : LoopSt) : Prop :=
  s.host_start = S + j * 2097152 ∧
  s.guest_start = (G + j * 2097152) % 18446744073709551616

/-- Two blocks of 4 KiB pages, `na` pages at `a` and `nb` pages at `b`, do not
overlap. -/
def sep (a na b nb : Nat) : Prop := a + na * 4096 ≤ b ∨ b + nb * 4096 ≤ a

/-- A block of `n` pages at host-virtual `p` as the page allocator hands it
out: not `NULL`, page aligned, inside the 64-bit address space, and with
host-physical addresses below `2 ^ 52` (frame numbers fit the 40-bit `paddr`
field). -/
structure BlockOk (env : PageEnv) (p n : Nat) : Prop where
  nonnull : p ≠ NULL
  aligned : p % 4096 = 0
  inside : p + n * 4096 ≤ 18446744073709551616
  phys : virt_to_phys env p + n * 4096 ≤ 4503599627370496

/-- An environment and an allocator that answers the four requests of
`ept_setup_range` with the well-formed, pairwise disjoint blocks `p1` (PML4),
`p2` (PDPT), `p3` (page directory) and `p4` (`n` page tables).  The linear map
keeps page alignment; `pg_present` holds of entries with the low bit set and
fails on the zero entry, which both readings of the macro agree on. -/
structure AllocCtx (env : PageEnv) (w : World) (p1 p2 p3 p4 n : Nat) : Prop where
  hoff : env.phys_offset % 4096 = 0
  hpg1 : ∀ e, e % 2 = 1 → env.pg_present e = true
  hpg0 : env.pg_present 0 = false
  hscript : ∃ rest, w.pa.script = p1 :: p2 :: p3 :: p4 :: rest
  b1 : BlockOk env p1 1
  b2 : BlockOk env p2 1
  b3 : BlockOk env p3 1
  b4 : BlockOk env p4 n
  s12 : sep p1 1 p2 1
  s13 : sep p1 1 p3 1
  s14 : sep p1 1 p4 n
  s23 : sep p2 1 p3 1
  s24 : sep p2 1 p4 n
  s34 : sep p3 1 p4 n

/-- The setting in which `ept_setup_range env w S E G` is analysed: an
allocator as in `AllocCtx`, a range of at most 1 GiB (one page directory) with
`n` page tables, a PDPT index that the builder accepts, and a host range whose
2 MiB chunks do not wrap around `2 ^ 64`. -/
structure BuildCtx (env : PageEnv) (w : World) (S E G p1 p2 p3 p4 n : Nat)
    extends AllocCtx env w p1 p2 p3 p4 n : Prop where
  hsz : mmap_size S E ≤ 1073741824
  hn : n = needed_paging_structs (mmap_size S E) (MB 2)
  hG : G < 18446744073709551616
  hpud : G / 1073741824 % 512 + 1 < 512
  hSw : S + n * 2097152 < 18446744073709551616

/-- Memory just before the page-directory loop of an accepted single-directory
build: the PML4 entry is written, the directory and the page tables are
zeroed, and the PDPT entry is written. -/
def pre_loop_mem (env : PageEnv) (w : World) (G p1 p2 p3 p4 n : Nat) : Mem :=
  let m1 := write64 w.mem (p1 + 8 * (G / 549755813888 % 512))
              (ept_init_default (w.mem (p1 + 8 * (G / 549755813888 % 512)))
                (virt_to_phys env p2))
  let m3 := memset0 (memset0 m1 p3 4096) p4 (n * 4096)
  write64 m3 (p2 + 8 * (G / 1073741824 % 512))
    (ept_init_default (m3 (p2 + 8 * (G / 1073741824 % 512))) (virt_to_phys env p3))

/-- Host-virtual address of the EPT PML4 that `ept_translate` derives from
`vmm->eptp`. -/
def ept_root (env : PageEnv) (vmm : Vmm) : Nat :=
  phys_to_virt env ((F_EPTP_PML4.get vmm.eptp <<< PAGE_SHIFT) % U64)

/-- The PML4 entry that the EPT walk of `addr` reads. -/
def walk_pml4e (env : PageEnv) (m : Mem) (vmm : Vmm) (addr : Nat) : Nat :=
  m (slot (ept_root env vmm) (pgd_offset addr))

/-- The PDPT entry that the EPT walk of `addr` reads when the PML4 entry is
present. -/
def walk_pdpte (env : PageEnv) (m : Mem) (vmm : Vmm) (addr : Nat) : Nat :=
  m (slot (phys_to_virt env (walk_pml4e env m vmm addr &&& PAGE_MASK)) (pud_offset addr))

/-- The page-directory entry that the EPT walk of `addr` reads when the two
entries above it are present. -/
def walk_pde (env : PageEnv) (m : Mem) (vmm : Vmm) (addr : Nat) : Nat :=
  m (slot (phys_to_virt env (walk_pdpte env m vmm addr &&& PAGE_MASK)) (pmd_offset addr))

/-- The page-table entry (the leaf) that the EPT walk of `addr` reads when the
three entries above it are present. -/
def walk_pte (env : PageEnv) (m : Mem) (vmm : Vmm) (addr : Nat) : Nat :=
  m (slot (phys_to_virt env (walk_pde env m vmm addr &&& PAGE_MASK)) (pte_offset addr))

/-- Memory after an accepted single-directory build. -/
def built_mem (env : PageEnv) (w : World) (S G p1 p2 p3 p4 n : Nat) : Mem :=
  (ept_pd_loop env p3 p4 n 512 0
    { mem := pre_loop_mem env w G p1 p2 p3 p4 n, host_start := S, guest_start := G }).mem

/-- The guest PML4 entry that `gva_to_gpa` reads for `gva`: entry
`pgd_offset(gva)` of the table at `gpa_to_hva(cr3 & PAGE_MASK)`. -/
def guest_pml4e (env : PageEnv) (m : Mem) (vmm : Vmm) (gva : Nat) : Nat :=
  m (slot (gpa_to_hva env m vmm (vmm.guest_cr3 &&& PAGE_MASK)) (pgd_offset gva))

/-- The guest PDPT entry that `gva_to_gpa` reads for `gva` when the PML4 entry
is present. -/
def guest_pdpte (env : PageEnv) (m : Mem) (vmm : Vmm) (gva : Nat) : Nat :=
  m (slot (gpa_to_hva env m vmm (guest_pml4e env m vmm gva &&& PAGE_MASK)) (pud_offset gva))

/-- The guest page-directory entry that `gva_to_gpa` reads for `gva` when the
PDPT entry is present and not huge. -/
def guest_pde (env : PageEnv) (m : Mem) (vmm : Vmm) (gva : Nat) : Nat :=
  m (slot (gpa_to_hva env m vmm (guest_pdpte env m vmm gva &&& PAGE_MASK)) (pmd_offset gva))

/-! ## Concrete scenarios -/

/-- Modelled from the spec: the reading of `pg_present` that the spec gives for
the guest walk, which uses the same macro: "Present bit is the low bit of the
entry" (for an EPT entry, the `read` bit); the linear map has offset 0. -/
def env0 : PageEnv := { pg_present := fun e => e &&& 1 != 0, phys_offset := 0 }

/-- An allocator that will hand out four blocks, at 1 MiB, 1 MiB + 4 KiB,
1 MiB + 8 KiB and 2 MiB. -/
def pa4 : PageAlloc :=
  { script := [0x100000, 0x101000, 0x102000, 0x200000], live := [],
    alloc_calls := 0, release_calls := 0 }

/-- A world with zero-filled memory and the allocator `pa4`. -/
def w4 : World := { vmm := {}, mem := fun _ => 0, pa := pa4 }

/-- A world whose memory holds the stale word `0x105007` everywhere (a present
entry pointing to `0x105000`), with the allocator `pa4`. -/
def w_stale : World := { vmm := {}, mem := fun _ => 0x105007, pa := pa4 }

/-- An allocator that will hand out four blocks, the last with room for 513
page tables: 1 MiB, 1 MiB + 4 KiB, 1 MiB + 8 KiB (two pages) and 4 MiB. -/
def pa4big : PageAlloc :=
  { script := [0x100000, 0x101000, 0x102000, 0x400000], live := [],
    alloc_calls := 0, release_calls := 0 }

/-- A world with zero-filled memory and the allocator `pa4big`. -/
def w4big : World := { vmm := {}, mem := fun _ => 0, pa := pa4big }

/-- Modelled from the spec: the reading of `pg_present` that the spec gives for
the EPT walk, "an entry is present if any of R/W/X is set" (bits 0, 1, 2); the
linear map has offset 0. -/
def env_rwx : PageEnv := { pg_present := fun e => e &&& 7 != 0, phys_offset := 0 }

/-- Memory in which every 64-bit word is all ones. -/
def mem_ones : Mem := fun _ => U64 - 1

/-- Memory for the guest-walk scenarios, host-physical equal to host-virtual.
The guest tables: PML4 at `0x1000` with entry 0 = `0x2007`; PDPT at `0x2000`
with entry 0 = `0x3087` and entry 1 = `pdpt1`; a page directory at `0x4000`
with entry 0 = `pd0`; every other entry zero.  The EPT maps guest-physical
`[0, 2 MiB)` to itself: PML4 at `0x100000`, PDPT at `0x101000`, page directory
at `0x102000`, page table at `0x103000` whose entry `i` is the frame `i` with
the low bits `leaf_flags`. -/
def mem_walk (pdpt1 pd0 leaf_flags : Nat) : Mem := fun a =>
  if a = 0x1000 then 0x2007
  else if a = 0x2000 then 0x3087
  else if a = 0x2008 then pdpt1
  else if a = 0x4000 then pd0
  else if a = 0x100000 then 0x101007
  else if a = 0x101000 then 0x102007
  else if a = 0x102000 then 0x103007
  else if 0x103000 ≤ a ∧ a < 0x104000 ∧ a % 8 = 0 then
    (a - 0x103000) / 8 * 4096 + leaf_flags
  else 0

/-- Memory of the concrete guest walk: the guest PML4 entry 0 is `0x2007`, the
guest PDPT entry 0 is `0x3087`, every other guest entry is zero; the EPT leaves
are RWX, write-back, ignore-PAT (`0x77`). -/
def mem_guest : Mem := mem_walk 0 0 0x77


/-- Memory whose EPT leaves are write-only (`0x2`). -/
def mem_write_only : Mem := mem_walk 0 0 0x2

/-- The VMM record of the guest-walk scenario: EPTP for the PML4 at `0x100000`,
guest CR3 = `0x1000`. -/
def vmm_guest : Vmm := { eptp := 0x10001e, guest_cr3 := 0x1000 }

/-- A host whose linear map places physical memory in the upper half:
`phys_to_virt(p) = p + 0xffff800000000000`; `pg_present` is the low bit. -/
def env_hi : PageEnv :=
  { pg_present := fun e => e &&& 1 != 0, phys_offset := 0xffff800000000000 }

/-- A VMM whose EPT root is the page at host-physical `0x100000` and whose
guest CR3 is `0x1000`. -/
def vmm_unmapped : Vmm := { eptp := 0x10001e, guest_cr3 := 0x1000 }

/-- Host memory in which the word at host-virtual `0xffff800000000007` holds
`0x3087` (present, huge, frame `0x3000`) and every other word is zero.  Under
`env_hi` that word is entry 1 of a table at `phys_to_virt((paddr_t)-1)`; the
EPT PML4 page at host-physical `0x100000` is zero, so the EPT maps nothing. -/
def mem_at_sentinel : Mem := fun a => if a = 0xffff800000000007 then 0x3087 else 0

/-- Host memory in which the word at host-virtual 7 holds `0x3087` and every
other word is zero.  Under `env0` that word is entry 1 of a table at
`phys_to_virt((paddr_t)-1)`, which is `(hva_t)-1`. -/
def mem_at_top : Mem := fun a => if a = 7 then 0x3087 else 0

/-- A platform on which every MSR reads all ones, the callbacks `setup_guest`
and `init_vm_exit_handlers` change nothing, and the four VMX instructions fail
as the flags say. -/
def plat (vmxon_fails vmclear_fails vmptrld_fails vmlaunch_fails : Bool) : Platform :=
  { rdmsr := fun _ => 0xffffffffffffffff,
    selectors := { cs := 0x8, ds := 0x10, es := 0x10, ss := 0x10, tr := 0x28 },
    gdtr_base := 0x7000,
    idtr_base := 0x8000,
    tss := 0x9000,
    vm_exit_stub := 0x10000,
    vmm_ptr := 0x7ff0,
    setup_guest := fun w => w,
    init_vm_exit_handlers := fun w => w,
    vmxon_fails := vmxon_fails,
    vmclear_fails := vmclear_fails,
    vmptrld_fails := vmptrld_fails,
    vmlaunch_fails := vmlaunch_fails }

/-- The machine before `vmm_init`: zero-filled memory, nothing allocated, no
VMX instruction executed, and an allocator that answers with `script`. -/
def boot (script : List Nat) : Machine :=
  { w := { vmm := {}, mem := fun _ => 0,
           pa := { script := script, live := [], alloc_calls := 0, release_calls := 0 } },
    cr0 := 0x80000011, cr3 := 0x1000, cr4 := 0x20, trace := [] }

/-- An allocator script that serves all eight requests of `vmm_init` with
disjoint blocks: the two VMCS pages, the exit stack, 100 huge pages, the PML4,
the PDPT, the page directory, 100 page tables, the MSR bitmap. -/
def script_all : List Nat :=
  [0x100000, 0x110000, 0x40000000, 0x200000, 0x201000, 0x202000, 0x300000, 0x400000]

/-- A world whose memory holds the stale word `0xfff0000000000000` everywhere
(bits 52..63 set, read, write and execute clear), with the allocator `pa4`:
pages as the allocator may hand them out after earlier use. -/
def w_stale_hi : World := { vmm := {}, mem := fun _ => 0xfff0000000000000, pa := pa4 }

/-- Specification side of the guest walk, after the x86 layout that "the
guest's CR3 ... mask to a GPA" and "maps to GPA" refer to: the guest-physical
address of the next table, bits 12..51 of CR3 or of a guest entry. -/
def guest_table_gpa (e : Nat) : Nat := get_field e 12 40 * 4096

/-- Specification side of the guest walk: the guest-physical address that a
1 GiB page entry maps, bits 30..51 of the entry. -/
def guest_1g_gpa (e : Nat) : Nat := get_field e 30 22 * 1073741824

/-- Specification side of the guest walk: the guest-physical address that a
2 MiB page entry maps, bits 21..51 of the entry. -/
def guest_2m_gpa (e : Nat) : Nat := get_field e 21 31 * 2097152

/-- Specification side of the guest walk: entry `idx` of the guest table at
guest-physical `t`, read through the EPT: `ept_translate` gives the
host-physical address of the table, the linear map its host-virtual
address. -/
def guest_entry_via_ept (env : PageEnv) (m : Mem) (vmm : Vmm) (t idx : Nat) : Nat :=
  m (slot (phys_to_virt env (ept_translate env m vmm t)) idx)

/-- Memory for the guest-walk scenarios with an EPT that is not the identity:
it maps guest-physical `[0, 2 MiB)` to host-physical `[2 MiB, 4 MiB)` (PML4 at
`0x100000`, PDPT at `0x101000`, page directory at `0x102000`, page table at
`0x103000` whose entry `i` is the frame `0x200 + i`, RWX, write-back).  The
guest tables, at their host addresses: PML4 at guest-physical `0x1000` with
entry 0 = `0x2007`; PDPT at `0x2000` with entry 0 = `pdpt0` and entry 1 =
`0x4007`; page directory at `0x4000` with entry 0 = `pd0`; every other entry
zero. -/
def mem_shifted (pdpt0 pd0 : Nat) : Mem := fun a =>
  if a = 0x201000 then 0x2007
  else if a = 0x202000 then pdpt0
  else if a = 0x202008 then 0x4007
  else if a = 0x204000 then pd0
  else if a = 0x100000 then 0x101007
  else if a = 0x101000 then 0x102007
  else if a = 0x102000 then 0x103007
  else if 0x103000 ≤ a ∧ a < 0x104000 ∧ a % 8 = 0 then
    (a - 0x103000) / 8 * 4096 + 0x200000 + 0x77
  else 0

/-- Memory with an identity-mapped EPT over guest-physical `[0, 2 MiB)` in
which no entry has more than one permission: the PML4 entry is execute-only
(`0x101004`), the PDPT entry write-only (`0x102002`), the page-directory entry
read-only (`0x103001`); leaf 0 has read, write and execute clear (`0x0`, frame
0), every other leaf `i` is the frame `i`, execute-only (`0x4`). -/
def mem_single_perm : Mem := fun a =>
  if a = 0x100000 then 0x101004
  else if a = 0x101000 then 0x102002
  else if a = 0x102000 then 0x103001
  else if 0x103000 < a ∧ a < 0x104000 ∧ a % 8 = 0 then
    (a - 0x103000) / 8 * 4096 + 0x4
  else 0

/-! # Theorems -/

/-! ## Words, masks and indices -/

/-- The mask `PAGE_MASK` as a number: `0xfffffffffffff000`. -/
theorem PAGE_MASK_val : PAGE_MASK = 18446744073709547520 := by decide

/-- The complement of `PAGE_MASK` is `0xfff`. -/
theorem not64_PAGE_MASK : not64 PAGE_MASK = 4095 := by decide

/-- The complement of `PMD_MASK` is 2 MiB - 1. -/
theorem not64_PMD_MASK : not64 PMD_MASK = 2097151 := by decide

/-- The complement of `PUD_MASK` is 1 GiB - 1. -/
theorem not64_PUD_MASK : not64 PUD_MASK = 1073741823 := by decide

/-- The PML4 index in arithmetic form. -/
theorem pgd_offset_eq (a : Nat) : pgd_offset a = a / 549755813888 % 512 := by
  unfold pgd_offset
  rw [Nat.shiftRight_eq_div_pow, show (511 : Nat) = 2 ^ 9 - 1 by norm_num,
    Nat.and_pow_two_sub_one_eq_mod]

/-- The PDPT index in arithmetic form. -/
theorem pud_offset_eq (a : Nat) : pud_offset a = a / 1073741824 % 512 := by
  unfold pud_offset
  rw [Nat.shiftRight_eq_div_pow, show (511 : Nat) = 2 ^ 9 - 1 by norm_num,
    Nat.and_pow_two_sub_one_eq_mod]

/-- The page-directory index in arithmetic form. -/
theorem pmd_offset_eq (a : Nat) : pmd_offset a = a / 2097152 % 512 := by
  unfold pmd_offset
  rw [Nat.shiftRight_eq_div_pow, show (511 : Nat) = 2 ^ 9 - 1 by norm_num,
    Nat.and_pow_two_sub_one_eq_mod]

/-- The page-table index in arithmetic form. -/
theorem pte_offset_eq (a : Nat) : pte_offset a = a / 4096 % 512 := by
  unfold pte_offset
  rw [Nat.shiftRight_eq_div_pow, show (511 : Nat) = 2 ^ 9 - 1 by norm_num,
    Nat.and_pow_two_sub_one_eq_mod]

/-- Masking with `2 ^ k - 1` keeps the `k` low bits. -/
theorem and_low_mask (x k : Nat) : x &&& (2 ^ k - 1) = x % 2 ^ k :=
  Nat.and_pow_two_sub_one_eq_mod x k

/-- Masking with the complement of `2 ^ k - 1` inside a 64-bit word clears the
`k` low bits. -/
theorem and_high_mask (x k : Nat) (hk : k ≤ 64) :
    x &&& (2 ^ 64 - 1 - (2 ^ k - 1)) = x % 2 ^ 64 / 2 ^ k * 2 ^ k := by
  apply Nat.eq_of_testBit_eq
  intro i
  have hm : (2 ^ 64 - 1 - (2 ^ k - 1)) = 2 ^ 64 - ((2 ^ k - 1) + 1) := by omega
  have hlt : 2 ^ k - 1 < 2 ^ 64 := by
    have : 2 ^ k ≤ 2 ^ 64 := Nat.pow_le_pow_right (by norm_num) hk
    have : 0 < 2 ^ k := Nat.pow_pos (by norm_num)
    omega
  rw [Nat.testBit_and, hm, Nat.testBit_two_pow_sub_succ hlt, Nat.testBit_two_pow_sub_one,
    ← Nat.shiftLeft_eq, ← Nat.shiftRight_eq_div_pow, Nat.testBit_shiftLeft,
    Nat.testBit_shiftRight, Nat.testBit_mod_two_pow]
  by_cases h1 : i < 64 <;> by_cases h2 : i < k <;> simp [h1, h2]
  · have h3 : k + (i - k) = i := by omega
    have h4 : k ≤ i := by omega
    simp [h3, h4, h1]
  · intro h3 h4; omega

/-- Masking with `PAGE_MASK` clears the 12 low bits of the 64-bit word. -/
theorem and_PAGE_MASK (x : Nat) : x &&& PAGE_MASK = x % 18446744073709551616 / 4096 * 4096 := by
  have h := and_high_mask x 12 (by norm_num)
  rw [PAGE_MASK_val]
  norm_num at h
  exact h

/-- Masking with `0xfff` keeps the 12 low bits. -/
theorem and_4095 (x : Nat) : x &&& 4095 = x % 4096 := by
  have h := and_low_mask x 12
  norm_num at h
  exact h

/-! ## Size rejection and the empty range -/

/-- The size of an empty range is 0. -/
theorem mmap_size_self (S : Nat) : mmap_size S S = 0 := by
  unfold mmap_size U64
  have := Nat.mod_lt S (show 18446744073709551616 > 0 by norm_num)
  omega

/-- For `S ≤ E` below `2 ^ 64` the `u64` difference is `E - S`. -/
theorem mmap_size_eq_sub (S E : Nat) (hE : E < U64) (hle : S ≤ E) :
    mmap_size S E = E - S := by
  unfold mmap_size; unfold U64 at *
  omega

/-- A size of 0 needs one paging structure: the `n == 0` guard of `needed_paging_structs`. -/
theorem needed_paging_structs_zero (u : Nat) : needed_paging_structs 0 u = 1 := by
  simp [needed_paging_structs, Nat.zero_div]

/-- C7. Size rejection: whenever the `u64` difference `host_end - host_start`
exceeds 512 GiB, `ept_setup_range` returns 1 and leaves the whole world as it
was: no call of the page allocator (neither counter moves) and `vmm->eptp`
untouched. -/
theorem ept_setup_range_oversize_rejected (env : PageEnv) (w : World) (S E G : Nat)
    (h : GB 512 < mmap_size S E) :
    ept_setup_range env w S E G = (1, w) ∧
    (ept_setup_range env w S E G).2.pa.alloc_calls = w.pa.alloc_calls ∧
    (ept_setup_range env w S E G).2.pa.release_calls = w.pa.release_calls ∧
    (ept_setup_range env w S E G).2.vmm.eptp = w.vmm.eptp := by
  have h1 : ept_setup_range env w S E G = (1, w) := by
    unfold ept_setup_range
    simp only [gt_iff_lt, h, if_true]
  simp [h1]

/-- Witness for C7: a range of 513 GiB. -/
theorem ept_setup_range_oversize_rejected_witness :
    mmap_size 0x200000000 (0x200000000 + GB 513) = GB 513 ∧
    ept_setup_range env0 w4 0x200000000 (0x200000000 + GB 513) 0 = (1, w4) :=
  ⟨by decide, (ept_setup_range_oversize_rejected env0 w4 _ _ 0 (by decide)).1⟩

/-- C8 as stated fails: the empty range `[0x200000000, 0x200000000)` at guest 0
is accepted; four pages stay allocated and `vmm->eptp` is overwritten. -/
theorem ept_setup_range_empty_accepted :
    (ept_setup_range env0 w4 0x200000000 0x200000000 0).1 = 0 ∧
    (ept_setup_range env0 w4 0x200000000 0x200000000 0).2.pa.live =
      [(ResKind.page, 0x200000, 1), (ResKind.page, 0x102000, 1),
       (ResKind.page, 0x101000, 1), (ResKind.page, 0x100000, 1)] ∧
    (ept_setup_range env0 w4 0x200000000 0x200000000 0).2.pa.release_calls = 0 ∧
    (ept_setup_range env0 w4 0x200000000 0x200000000 0).2.vmm.eptp = 0x10001e ∧
    w4.vmm.eptp = 0 := by decide

/-- C8, amended. An empty range is handled like any range below 2 MiB: one page
directory and one page table are needed.  When the four allocations succeed and
`pud_offset(guest_start) + 1 < 512`, `ept_setup_range` returns 0, the four
blocks of one page each stay allocated, nothing is released and `vmm->eptp` is
set for the new PML4. -/
theorem ept_setup_range_empty (env : PageEnv) (w : World) (S G p1 p2 p3 p4 : Nat)
    (rest : List Nat)
    (hscript : w.pa.script = p1 :: p2 :: p3 :: p4 :: rest)
    (h1 : p1 ≠ NULL) (h2 : p2 ≠ NULL) (h3 : p3 ≠ NULL) (h4 : p4 ≠ NULL)
    (hG : pud_offset G + 1 < EPT_PTRS_PER_TABLE) :
    (ept_setup_range env w S S G).1 = 0 ∧
    (ept_setup_range env w S S G).2.pa.live =
      (ResKind.page, p4, 1) :: (ResKind.page, p3, 1) :: (ResKind.page, p2, 1) ::
        (ResKind.page, p1, 1) :: w.pa.live ∧
    (ept_setup_range env w S S G).2.pa.alloc_calls = w.pa.alloc_calls + 4 ∧
    (ept_setup_range env w S S G).2.pa.release_calls = w.pa.release_calls ∧
    (ept_setup_range env w S S G).2.vmm.eptp = setup_eptp env p1 := by
  have hpd : needed_paging_structs 0 (GB 1) = 1 := needed_paging_structs_zero _
  have hpt : needed_paging_structs 0 (MB 2) = 1 := needed_paging_structs_zero _
  have hG2 : ¬ (pud_offset G + 1 ≥ EPT_PTRS_PER_TABLE) := by omega
  have h512 : ¬ (0 > GB 512) := by decide
  simp [ept_setup_range, mmap_size_self, hpd, hpt, hG2, h512, alloc_page, alloc_pages,
    alloc_block, hscript, h1, h2, h3, h4]

/-- Witness for the amended C8. -/
theorem ept_setup_range_empty_witness :
    (ept_setup_range env0 w4 0x200000000 0x200000000 0).2.pa.alloc_calls = 4 :=
  (ept_setup_range_empty env0 w4 0x200000000 0 0x100000 0x101000 0x102000 0x200000 []
    rfl (by decide) (by decide) (by decide) (by decide) (by decide)).2.2.1

/-! ## Entry words -/

/-- The word written by `ept_init_default`: RWX, the old bits 3..11, the new frame number, the old bits 52..63. -/
theorem ept_init_default_eq (e paddr : Nat) :
    ept_init_default e paddr =
      7 + e % 4096 / 8 * 8 + paddr / 4096 % 1099511627776 * 4096
        + e / 4503599627370496 * 4503599627370496 := by
  simp only [ept_init_default, ept_set_pte_rwe, FieldPos.set, F_READ, F_WRITE, F_KERN_EXEC,
    F_PADDR, set_field, PAGE_SHIFT, Nat.shiftRight_eq_div_pow]
  norm_num
  omega

/-- The word written by the loop body of `ept_init_pt`: `0x77`, the old bits 7..11, the new frame number, the old bits 52..63. -/
theorem ept_init_pte_eq (e host : Nat) :
    ept_init_pte e host =
      119 + e % 4096 / 128 * 128 + host / 4096 % 1099511627776 * 4096
        + e / 4503599627370496 * 4503599627370496 := by
  simp only [ept_init_pte, ept_set_pte_rwe, FieldPos.set, F_READ, F_WRITE, F_KERN_EXEC,
    F_PADDR, F_MEMORY_TYPE, F_IGNORE_PAT, EPT_MEMORY_TYPE_WB, set_field, PAGE_SHIFT,
    Nat.shiftRight_eq_div_pow]
  norm_num
  omega

/-- The EPTP written by `setup_eptp`: write-back, walk length 3, no dirty flag, and the frame number of the PML4. -/
theorem setup_eptp_eq (env : PageEnv) (p : Nat) :
    setup_eptp env p = 30 + virt_to_phys env p / 4096 % 1099511627776 * 4096 := by
  simp only [setup_eptp, FieldPos.set, F_EPTP_TYPE, F_EPTP_WALK, F_EPTP_DIRTY, F_EPTP_PML4,
    EPT_MEMORY_TYPE_WB, set_field, PAGE_SHIFT, Nat.shiftRight_eq_div_pow]
  norm_num

/-! ## Memory and the page-table loop -/

/-- Reading back the word just written. -/
theorem write64_same (m : Mem) (a v : Nat) : write64 m a v a = v := by
  simp [write64]

/-- A store leaves the other words alone. -/
theorem write64_other (m : Mem) (a v x : Nat) (h : x ≠ a) : write64 m a v x = m x := by
  simp [write64, h]

/-- Inside the range, `memset` leaves zero. -/
theorem memset0_in (m : Mem) (p n x : Nat) (h1 : p ≤ x) (h2 : x < p + n) :
    memset0 m p n x = 0 := by
  simp [memset0, h1, h2]

/-- Outside the range, `memset` changes nothing. -/
theorem memset0_out (m : Mem) (p n x : Nat) (h : x < p ∨ p + n ≤ x) :
    memset0 m p n x = m x := by
  have : ¬ (p ≤ x ∧ x < p + n) := by omega
  simp [memset0, this]

/-- Entry addresses that stay below `2 ^ 64` do not wrap. -/
theorem slot_eq (base idx : Nat) (h : base + 8 * idx < U64) : slot base idx = base + 8 * idx := by
  unfold slot; exact Nat.mod_eq_of_lt h

/-- Frame of the page-table fill: a word outside the table is not written. -/
theorem ept_init_pt_loop_frame (pt : Nat) (hpt : pt + 4096 ≤ U64) (x : Nat)
    (hx : x < pt ∨ pt + 4096 ≤ x) :
    ∀ (fuel off host : Nat) (m : Mem), ept_init_pt_loop pt fuel off host m x = m x := by
  intro fuel
  induction fuel with
  | zero => intro off host m; rfl
  | succ fuel ih =>
    intro off host m
    unfold ept_init_pt_loop
    by_cases hc : off < EPT_PTRS_PER_TABLE
    · simp only [hc, if_true]
      rw [ih]
      apply write64_other
      unfold EPT_PTRS_PER_TABLE at hc
      rw [slot_eq _ _ (by unfold U64 at *; omega)]
      omega
    · simp only [hc, if_false]

/-- Frame of the page-table fill inside the table: entries below the running
index are not written. -/
theorem ept_init_pt_loop_frame_slot (pt : Nat) (hpt : pt + 4096 ≤ U64) :
    ∀ (fuel off host : Nat) (m : Mem) (k : Nat), k < off → off ≤ 512 →
      ept_init_pt_loop pt fuel off host m (pt + 8 * k) = m (pt + 8 * k) := by
  intro fuel
  induction fuel with
  | zero => intro off host m k _ _; rfl
  | succ fuel ih =>
    intro off host m k h1 h2
    unfold ept_init_pt_loop
    by_cases hc : off < EPT_PTRS_PER_TABLE
    · simp only [hc, if_true]
      unfold EPT_PTRS_PER_TABLE at hc
      rw [ih _ _ _ _ (by omega) (by omega)]
      apply write64_other
      rw [slot_eq _ _ (by unfold U64 at *; omega)]
      omega
    · simp only [hc, if_false]

/-- Effect of the page-table fill on entry `k`, when the loop starts at entry
`off ≤ k` with enough iterations left. -/
theorem ept_init_pt_loop_value (pt : Nat) (hpt : pt + 4096 ≤ U64) (k : Nat) (hk : k < 512) :
    ∀ (fuel off host : Nat) (m : Mem), off ≤ k → 512 ≤ off + fuel →
      host + (512 - off) * 4096 ≤ U64 →
      ept_init_pt_loop pt fuel off host m (pt + 8 * k)
        = ept_init_pte (m (pt + 8 * k)) (host + (k - off) * 4096) := by
  intro fuel
  induction fuel with
  | zero => intro off host m h1 h2; omega
  | succ fuel ih =>
    intro off host m h1 h2 h3
    unfold ept_init_pt_loop
    have hc : off < EPT_PTRS_PER_TABLE := by unfold EPT_PTRS_PER_TABLE; omega
    simp only [hc, if_true]
    have hs : slot pt off = pt + 8 * off := slot_eq _ _ (by unfold U64 at *; omega)
    have hP : PAGE_SIZE = 4096 := by decide
    rw [hs, hP]
    by_cases hk0 : k = off
    · subst hk0
      rw [ept_init_pt_loop_frame_slot pt hpt _ _ _ _ _ (by omega) (by omega)]
      simp [write64_same]
    · have hh : (host + 4096) % U64 = host + 4096 := by
        apply Nat.mod_eq_of_lt; unfold U64 at *; omega
      rw [hh, ih (off + 1) (host + 4096) _ (by omega) (by omega) (by omega)]
      rw [write64_other _ _ _ _ (by omega)]
      have e : host + 4096 + (k - (off + 1)) * 4096 = host + (k - off) * 4096 := by omega
      rw [e]

/-- The macro value `MB(2)`. -/
theorem MB_2 : MB 2 = 2097152 := by decide

/-- The page size as a number. -/
theorem PAGE_SIZE_val : PAGE_SIZE = 4096 := by decide

/-- The table size as a number. -/
theorem EPT_PTRS_val : EPT_PTRS_PER_TABLE = 512 := by decide

/-- The function `ept_init_pt` leaves words outside the table alone. -/
theorem ept_init_pt_frame (m : Mem) (pt host guest x : Nat) (hpt : pt + 4096 ≤ U64)
    (hx : x < pt ∨ pt + 4096 ≤ x) : ept_init_pt m pt host guest x = m x :=
  ept_init_pt_loop_frame pt hpt x hx _ _ _ _

/-- The function `ept_init_pt` fills every entry from the PT offset of `guest`
upwards with successive frames. -/
theorem ept_init_pt_value (m : Mem) (pt host guest k : Nat) (hpt : pt + 4096 ≤ U64)
    (hk : k < 512) (ht : guest / 4096 % 512 ≤ k)
    (hh : host + (512 - guest / 4096 % 512) * 4096 ≤ U64) :
    ept_init_pt m pt host guest (pt + 8 * k)
      = ept_init_pte (m (pt + 8 * k)) (host + (k - guest / 4096 % 512) * 4096) := by
  unfold ept_init_pt
  rw [pte_offset_eq, EPT_PTRS_val]
  exact ept_init_pt_loop_value pt hpt k hk _ _ _ _ ht (by omega) hh

/-! ## The page-directory loop -/

/-- Frame of the page-directory loop: outside the directory page, and outside
the page tables `j .. n - 1`, nothing is written. -/
theorem ept_pd_loop_frame (env : PageEnv) (cur_pd pt n x : Nat)
    (hpd : cur_pd + 4096 ≤ U64) (hptb : pt + n * 4096 ≤ U64)
    (hx1 : x < cur_pd ∨ cur_pd + 4096 ≤ x) :
    ∀ (fuel j : Nat) (s : LoopSt), (x < pt + j * 4096 ∨ pt + n * 4096 ≤ x) →
      (ept_pd_loop env cur_pd pt n fuel j s).mem x = s.mem x := by
  intro fuel
  induction fuel with
  | zero => intro j s _; rfl
  | succ fuel ih =>
    intro j s hx2
    unfold ept_pd_loop
    by_cases hc : j < EPT_PTRS_PER_TABLE ∧ j < n
    · simp only [hc, and_self, if_true]
      rw [EPT_PTRS_val] at hc
      rw [ih _ _ (by omega)]
      simp only [PAGE_SIZE_val]
      have hpj : (pt + j * 4096) % U64 = pt + j * 4096 :=
        Nat.mod_eq_of_lt (by unfold U64 at *; omega)
      rw [hpj, ept_init_pt_frame _ _ _ _ _ (by unfold U64 at *; omega) (by omega)]
      apply write64_other
      have hlt : pmd_offset s.guest_start < 512 := by rw [pmd_offset_eq]; omega
      rw [slot_eq _ _ (by unfold U64 at *; omega)]
      omega
    · simp only [hc, if_false]

/-- One round of the page-directory loop, with the running values spelled
out. -/
theorem ept_pd_loop_step (env : PageEnv) (cur_pd pt n S G : Nat)
    (H : PdCtx cur_pd pt n S G) (fuel j : Nat) (s : LoopSt)
    (hinv : PdInv S G j s) (hj : j < n) :
    ept_pd_loop env cur_pd pt n (fuel + 1) j s =
      ept_pd_loop env cur_pd pt n fuel (j + 1)
        { mem := ept_init_pt
            (write64 s.mem
              (cur_pd + 8 * ((G + j * 2097152) % 18446744073709551616 / 2097152 % 512))
              (ept_init_default
                (s.mem
                  (cur_pd + 8 * ((G + j * 2097152) % 18446744073709551616 / 2097152 % 512)))
                (virt_to_phys env (pt + j * 4096))))
            (pt + j * 4096) (S + j * 2097152) ((G + j * 2097152) % 18446744073709551616),
          host_start := S + (j + 1) * 2097152,
          guest_start := (G + (j + 1) * 2097152) % 18446744073709551616 } := by
  obtain ⟨hn, hG, hpd, hptb, hsep, hS⟩ := H
  obtain ⟨hh, hg⟩ := hinv
  have hc : j < EPT_PTRS_PER_TABLE ∧ j < n := by rw [EPT_PTRS_val]; omega
  have hslot : slot cur_pd (pmd_offset s.guest_start) =
      cur_pd + 8 * ((G + j * 2097152) % 18446744073709551616 / 2097152 % 512) := by
    rw [pmd_offset_eq, hg]
    exact slot_eq _ _ (by unfold U64; omega)
  have hpj : (pt + j * 4096) % U64 = pt + j * 4096 :=
    Nat.mod_eq_of_lt (by unfold U64; omega)
  have hh2 : (S + j * 2097152 + 2097152) % U64 = S + (j + 1) * 2097152 := by
    unfold U64; omega
  have hg3 : ((G + j * 2097152) % 18446744073709551616 + 2097152) % U64 =
      (G + (j + 1) * 2097152) % 18446744073709551616 := by
    unfold U64; omega
  rw [ept_pd_loop]
  simp only [hc, and_self, if_true, PAGE_SIZE_val, MB_2, hslot, hpj]
  rw [hh, hg, hh2, hg3]

/-- The invariant is kept by one round. -/
theorem PdInv_next (S G j : Nat) (m : Mem) :
    PdInv S G (j + 1)
      (LoopSt.mk m (S + (j + 1) * 2097152) ((G + (j + 1) * 2097152) % 18446744073709551616)) :=
  ⟨rfl, rfl⟩

/-- Frame of the page-directory loop inside the directory page, when the PD
indices do not wrap: the slots before `pmd_offset G + j` and from
`pmd_offset G + n` on are not written. -/
theorem ept_pd_loop_frame_pd (env : PageEnv) (cur_pd pt n S G : Nat)
    (H : PdCtx cur_pd pt n S G) (hcn : G / 2097152 % 512 + n ≤ 512) (i : Nat)
    (hi : i < 512) :
    ∀ (fuel j : Nat) (s : LoopSt), PdInv S G j s →
      (i < G / 2097152 % 512 + j ∨ G / 2097152 % 512 + n ≤ i) →
      (ept_pd_loop env cur_pd pt n fuel j s).mem (cur_pd + 8 * i) = s.mem (cur_pd + 8 * i) := by
  intro fuel
  induction fuel with
  | zero => intro j s _ _; rfl
  | succ fuel ih =>
    intro j s hinv hx
    by_cases hj : j < n
    · rw [ept_pd_loop_step env cur_pd pt n S G H fuel j s hinv hj,
        ih _ _ (PdInv_next S G j _) (by omega)]
      obtain ⟨hn, hG, hpd, hptb, hsep, hS⟩ := H
      have hq : (G + j * 2097152) % 18446744073709551616 / 2097152 % 512
          = G / 2097152 % 512 + j := by omega
      simp only [hq]
      rw [ept_init_pt_frame _ _ _ _ _ (by unfold U64; omega) (by omega)]
      exact write64_other _ _ _ _ (by omega)
    · unfold ept_pd_loop
      have hc : ¬ (j < EPT_PTRS_PER_TABLE ∧ j < n) := by omega
      simp only [hc, if_false]

/-- Value of the page-directory entries installed by the loop, when the PD
indices do not wrap. -/
theorem ept_pd_loop_value_pd (env : PageEnv) (cur_pd pt n S G : Nat)
    (H : PdCtx cur_pd pt n S G) (hcn : G / 2097152 % 512 + n ≤ 512) (j1 : Nat)
    (hj1 : j1 < n) :
    ∀ (fuel j : Nat) (s : LoopSt), PdInv S G j s → j ≤ j1 → n ≤ j + fuel →
      (ept_pd_loop env cur_pd pt n fuel j s).mem (cur_pd + 8 * (G / 2097152 % 512 + j1))
        = ept_init_default (s.mem (cur_pd + 8 * (G / 2097152 % 512 + j1)))
            (virt_to_phys env (pt + j1 * 4096)) := by
  intro fuel
  induction fuel with
  | zero => intro j s _ h1 h2; omega
  | succ fuel ih =>
    intro j s hinv h1 h2
    have hj : j < n := by omega
    rw [ept_pd_loop_step env cur_pd pt n S G H fuel j s hinv hj]
    have H2 := H
    obtain ⟨hn, hG, hpd, hptb, hsep, hS⟩ := H2
    have hq : (G + j * 2097152) % 18446744073709551616 / 2097152 % 512
        = G / 2097152 % 512 + j := by omega
    simp only [hq]
    by_cases hjj : j1 = j
    · subst hjj
      rw [ept_pd_loop_frame_pd env cur_pd pt n S G H hcn (G / 2097152 % 512 + j1) (by omega)
        _ _ _ (PdInv_next S G j1 _) (by omega)]
      simp only []
      rw [ept_init_pt_frame _ _ _ _ _ (by unfold U64; omega) (by omega), write64_same]
    · rw [ih _ _ (PdInv_next S G j _) (by omega) (by omega)]
      simp only []
      rw [ept_init_pt_frame _ _ _ _ _ (by unfold U64; omega) (by omega),
        write64_other _ _ _ _ (by omega)]

/-- Value of the page-table entries installed by the loop: entry `k` of table
`j1` holds the frame `S + j1 * 2 MiB + (k - pte_offset G) * 4 KiB`. -/
theorem ept_pd_loop_value_pt (env : PageEnv) (cur_pd pt n S G : Nat)
    (H : PdCtx cur_pd pt n S G) (j1 k : Nat) (hj1 : j1 < n) (hk : k < 512)
    (ht : G / 4096 % 512 ≤ k) :
    ∀ (fuel j : Nat) (s : LoopSt), PdInv S G j s → j ≤ j1 → n ≤ j + fuel →
      (ept_pd_loop env cur_pd pt n fuel j s).mem (pt + j1 * 4096 + 8 * k)
        = ept_init_pte (s.mem (pt + j1 * 4096 + 8 * k))
            (S + j1 * 2097152 + (k - G / 4096 % 512) * 4096) := by
  intro fuel
  induction fuel with
  | zero => intro j s _ h1 h2; omega
  | succ fuel ih =>
    intro j s hinv h1 h2
    have hj : j < n := by omega
    rw [ept_pd_loop_step env cur_pd pt n S G H fuel j s hinv hj]
    have H2 := H
    obtain ⟨hn, hG, hpd, hptb, hsep, hS⟩ := H2
    by_cases hjj : j1 = j
    · subst hjj
      rw [ept_pd_loop_frame env cur_pd pt n _ (by unfold U64; omega) (by unfold U64; omega)
        (by omega) _ _ _ (by omega)]
      simp only []
      have ht2 : (G + j1 * 2097152) % 18446744073709551616 / 4096 % 512 = G / 4096 % 512 := by
        omega
      rw [ept_init_pt_value _ _ _ _ k (by unfold U64; omega) hk (by omega)
        (by unfold U64; omega), write64_other _ _ _ _ (by omega), ht2]
    · rw [ih _ _ (PdInv_next S G j _) (by omega) (by omega)]
      simp only []
      rw [ept_init_pt_frame _ _ _ _ _ (by unfold U64; omega) (by omega),
        write64_other _ _ _ _ (by omega)]

/-- The macro value `GB(1)`. -/
theorem GB_1 : GB 1 = 1073741824 := by decide

/-- The macro value `GB(512)`. -/
theorem GB_512 : GB 512 = 549755813888 := by decide

/-! ## The accepted path of the builder -/

/-- A range of at most 1 GiB needs one page directory. -/
theorem needed_pd_one (sz : Nat) (h : sz ≤ 1073741824) :
    needed_paging_structs sz (GB 1) = 1 := by
  unfold needed_paging_structs
  rw [GB_1]
  by_cases h0 : sz / 1073741824 = 0
  · simp [h0]
  · have h1 : sz = 1073741824 := by omega
    subst h1
    decide

/-- Bounds on the number of page tables: `n` tables cover the size, and no more
than 512 are needed for at most 1 GiB. -/
theorem needed_pt_bounds (sz : Nat) (h : sz ≤ 1073741824) :
    1 ≤ needed_paging_structs sz (MB 2) ∧ needed_paging_structs sz (MB 2) ≤ 512 ∧
    sz ≤ needed_paging_structs sz (MB 2) * 2097152 := by
  unfold needed_paging_structs
  rw [MB_2]
  by_cases h0 : sz / 2097152 = 0
  · simp only [h0, if_true]; omega
  · by_cases h1 : sz % 2097152 ≠ 0
    · simp only [h0, h1, if_false, if_true, ne_eq, not_false_eq_true]; omega
    · simp only [h0, h1, if_false]; omega

/-- The accepted path of `ept_setup_range`, for one page directory. -/
theorem ept_setup_range_ok (env : PageEnv) (w : World) (S E G p1 p2 p3 p4 n : Nat)
    (H : BuildCtx env w S E G p1 p2 p3 p4 n) :
    ept_setup_range env w S E G =
      (0, { vmm := { w.vmm with eptp := setup_eptp env p1 },
            mem := (ept_pd_loop env p3 p4 n 512 0
                     { mem := pre_loop_mem env w G p1 p2 p3 p4 n,
                       host_start := S, guest_start := G }).mem,
            pa := (alloc_pages (alloc_pages (alloc_page (alloc_page w.pa).2).2 1).2 n).2 }) := by
  obtain ⟨rest, hscript⟩ := H.hscript
  have hpd := needed_pd_one _ H.hsz
  have hn := H.hn
  have h512 : ¬ (mmap_size S E > GB 512) := by
    have := H.hsz; rw [GB_512]; omega
  have hpud : ¬ (pud_offset G + 1 ≥ 512) := by
    have := H.hpud; rw [pud_offset_eq]; omega
  have e1 : slot p1 (pgd_offset G) = p1 + 8 * (G / 549755813888 % 512) := by
    rw [pgd_offset_eq]; apply slot_eq; have := H.b1.inside; unfold U64; omega
  have e2 : slot p2 (pud_offset G) = p2 + 8 * (G / 1073741824 % 512) := by
    rw [pud_offset_eq]; apply slot_eq; have := H.b2.inside; unfold U64; omega
  have e3 : slot (p2 + 8 * (G / 1073741824 % 512)) 0 = p2 + 8 * (G / 1073741824 % 512) := by
    apply slot_eq; have := H.b2.inside; unfold U64; omega
  have e4 : (p3 + 0 * 4096) % U64 = p3 := by
    rw [Nat.zero_mul, Nat.add_zero]; apply Nat.mod_eq_of_lt
    have := H.b3.inside; unfold U64; omega
  have n1 := H.b1.nonnull
  have n2 := H.b2.nonnull
  have n3 := H.b3.nonnull
  have n4 := H.b4.nonnull
  unfold ept_setup_range
  simp only [h512, if_false, alloc_page, alloc_pages, alloc_block, hscript, n1, n2, n3, n4,
    hpd, ← hn, hpud, e1, e2, ept_pdpt_loop, Nat.lt_one_iff, if_true, e3, e4, pre_loop_mem,
    PAGE_SIZE_val, Nat.one_mul, EPT_PTRS_val]

/-! ## The EPT walk -/

/-- The walk of `ept_translate`, level by level: the result is the sentinel as
soon as one of the four entries fails `pg_present`, and otherwise the leaf with
its 12 low bits cleared plus the 12 low bits of the address. -/
theorem ept_translate_eq (env : PageEnv) (m : Mem) (vmm : Vmm) (addr : Nat) :
    ept_translate env m vmm addr =
      if env.pg_present (walk_pml4e env m vmm addr) = true ∧
         env.pg_present (walk_pdpte env m vmm addr) = true ∧
         env.pg_present (walk_pde env m vmm addr) = true ∧
         env.pg_present (walk_pte env m vmm addr) = true
      then (walk_pte env m vmm addr &&& PAGE_MASK) + addr % 4096
      else SENTINEL := by
  simp only [ept_translate, walk_pte, walk_pde, walk_pdpte, walk_pml4e, ept_root,
    not64_PAGE_MASK, and_4095, Bool.not_eq_true']
  split_ifs <;> simp_all

/-- The linear map and its inverse cancel on 64-bit addresses. -/
theorem phys_to_virt_virt_to_phys (env : PageEnv) (p : Nat) (h : p < 18446744073709551616) :
    phys_to_virt env (virt_to_phys env p) = p := by
  unfold phys_to_virt virt_to_phys U64
  omega

/-- A page-aligned linear map sends page-aligned addresses to page-aligned addresses. -/
theorem virt_to_phys_aligned (env : PageEnv) (p : Nat) (ho : env.phys_offset % 4096 = 0)
    (hp : p % 4096 = 0) : virt_to_phys env p % 4096 = 0 := by
  unfold virt_to_phys U64
  omega

/-- The linear map is additive as long as the physical address does not wrap. -/
theorem virt_to_phys_add (env : PageEnv) (p d : Nat)
    (h : virt_to_phys env p + d < 18446744073709551616) :
    virt_to_phys env (p + d) = virt_to_phys env p + d := by
  unfold virt_to_phys U64 at *
  omega

/-- An interior entry written by `ept_init_default` over a slot whose stale
bits 52..63 are clear decodes to the address stored. -/
theorem ept_init_default_addr (e pa : Nat) (he : e < 4503599627370496)
    (hpa : pa % 4096 = 0) (hlt : pa < 4503599627370496) :
    ept_init_default e pa &&& PAGE_MASK = pa := by
  rw [and_PAGE_MASK, ept_init_default_eq]
  omega

/-- An entry written by `ept_init_default` has its low bit set. -/
theorem ept_init_default_odd (e pa : Nat) : ept_init_default e pa % 2 = 1 := by
  rw [ept_init_default_eq]
  omega

/-- A leaf written by `ept_init_pt` over a zeroed slot is `0x77` plus the
frame address. -/
theorem ept_init_pte_zero (h : Nat) (hal : h % 4096 = 0) (hlt : h < 4503599627370496) :
    ept_init_pte 0 h = 119 + h := by
  rw [ept_init_pte_eq]
  omega

/-- A leaf written over a zeroed slot decodes to the frame address stored. -/
theorem ept_init_pte_addr (h : Nat) (hal : h % 4096 = 0) (hlt : h < 4503599627370496) :
    ept_init_pte 0 h &&& PAGE_MASK = h := by
  rw [and_PAGE_MASK, ept_init_pte_zero h hal hlt]
  omega

/-- A leaf written by `ept_init_pt` has its low bit set. -/
theorem ept_init_pte_odd (e h : Nat) : ept_init_pte e h % 2 = 1 := by
  rw [ept_init_pte_eq]
  omega

/-- The EPTP written by `setup_eptp` leads `ept_translate` back to the PML4
page. -/
theorem ept_root_setup_eptp (env : PageEnv) (vmm : Vmm) (p : Nat)
    (ho : env.phys_offset % 4096 = 0) (hb : BlockOk env p 1) :
    ept_root env { vmm with eptp := setup_eptp env p } = p := by
  obtain ⟨_, hal, hin, hph⟩ := hb
  have ha := virt_to_phys_aligned env p ho hal
  have e : (F_EPTP_PML4.get (setup_eptp env p) <<< PAGE_SHIFT) % U64 = virt_to_phys env p := by
    rw [setup_eptp_eq]
    simp only [FieldPos.get, F_EPTP_PML4, get_field, PAGE_SHIFT, Nat.shiftLeft_eq, U64]
    norm_num
    omega
  unfold ept_root
  simp only [e]
  exact phys_to_virt_virt_to_phys env p (by omega)

/-! ## Memory after an accepted build -/

/-- An accepted range of at most 1 GiB needs between 1 and 512 page tables. -/
theorem BuildCtx.n_le {env : PageEnv} {w : World} {S E G p1 p2 p3 p4 n : Nat}
    (H : BuildCtx env w S E G p1 p2 p3 p4 n) : 1 ≤ n ∧ n ≤ 512 := by
  have h := needed_pt_bounds _ H.hsz
  rw [← H.hn] at h
  exact ⟨h.1, h.2.1⟩

/-- The side conditions of the page-directory loop hold in the analysed setting. -/
theorem BuildCtx.pdctx {env : PageEnv} {w : World} {S E G p1 p2 p3 p4 n : Nat}
    (H : BuildCtx env w S E G p1 p2 p3 p4 n) : PdCtx p3 p4 n S G := by
  have hn := H.n_le
  have h3 := H.b3.inside
  have h4 := H.b4.inside
  have hs := H.s34
  have hS := H.hSw
  unfold sep at hs
  exact ⟨hn.2, H.hG, by omega, h4, by omega, by omega⟩

/-- The invariant holds when the loop starts. -/
theorem PdInv_zero (S G : Nat) (m : Mem) (hG : G < 18446744073709551616) :
    PdInv S G 0 (LoopSt.mk m S G) := by
  constructor
  · simp
  · simp only [Nat.zero_mul, Nat.add_zero]; omega

/-- Before the loop the page directory is zero. -/
theorem pre_loop_mem_pd {env : PageEnv} {w : World} {S E G p1 p2 p3 p4 n : Nat}
    (H : BuildCtx env w S E G p1 p2 p3 p4 n) (x : Nat) (h1 : p3 ≤ x) (h2 : x < p3 + 4096) :
    pre_loop_mem env w G p1 p2 p3 p4 n x = 0 := by
  have s23 := H.s23
  have s34 := H.s34
  unfold sep at s23 s34
  unfold pre_loop_mem
  rw [write64_other _ _ _ _ (by omega), memset0_out _ _ _ _ (by omega),
    memset0_in _ _ _ _ h1 h2]

/-- Before the loop the page tables are zero. -/
theorem pre_loop_mem_pt {env : PageEnv} {w : World} {S E G p1 p2 p3 p4 n : Nat}
    (H : BuildCtx env w S E G p1 p2 p3 p4 n) (x : Nat) (h1 : p4 ≤ x)
    (h2 : x < p4 + n * 4096) :
    pre_loop_mem env w G p1 p2 p3 p4 n x = 0 := by
  have s24 := H.s24
  unfold sep at s24
  unfold pre_loop_mem
  rw [write64_other _ _ _ _ (by omega), memset0_in _ _ _ _ h1 h2]

/-- The PML4 page after the build: the entry for `G` is installed over the old
contents of its slot, every other slot keeps its old contents. -/
theorem built_mem_pml4 {env : PageEnv} {w : World} {S E G p1 p2 p3 p4 n : Nat}
    (H : BuildCtx env w S E G p1 p2 p3 p4 n) (i : Nat) (hi : i < 512) :
    built_mem env w S G p1 p2 p3 p4 n (p1 + 8 * i) =
      if i = G / 549755813888 % 512 then
        ept_init_default (w.mem (p1 + 8 * i)) (virt_to_phys env p2)
      else w.mem (p1 + 8 * i) := by
  have C := H.pdctx
  have s12 := H.s12
  have s13 := H.s13
  have s14 := H.s14
  unfold sep at s12 s13 s14
  unfold built_mem
  rw [ept_pd_loop_frame env p3 p4 n _ (by unfold U64; exact C.hpd)
    (by unfold U64; exact C.hptb) (by omega) _ _ _ (by omega)]
  simp only [pre_loop_mem]
  rw [write64_other _ _ _ _ (by omega), memset0_out _ _ _ _ (by omega),
    memset0_out _ _ _ _ (by omega)]
  by_cases h : i = G / 549755813888 % 512
  · subst h; simp [write64_same]
  · rw [write64_other _ _ _ _ (by omega)]; simp [h]

/-- The PDPT page after the build: the entry for `G` is installed over the old
contents of its slot, every other slot keeps its old contents. -/
theorem built_mem_pdpt {env : PageEnv} {w : World} {S E G p1 p2 p3 p4 n : Nat}
    (H : BuildCtx env w S E G p1 p2 p3 p4 n) (i : Nat) (hi : i < 512) :
    built_mem env w S G p1 p2 p3 p4 n (p2 + 8 * i) =
      if i = G / 1073741824 % 512 then
        ept_init_default (w.mem (p2 + 8 * i)) (virt_to_phys env p3)
      else w.mem (p2 + 8 * i) := by
  have C := H.pdctx
  have s12 := H.s12
  have s23 := H.s23
  have s24 := H.s24
  unfold sep at s12 s23 s24
  unfold built_mem
  rw [ept_pd_loop_frame env p3 p4 n _ (by unfold U64; exact C.hpd)
    (by unfold U64; exact C.hptb) (by omega) _ _ _ (by omega)]
  simp only [pre_loop_mem]
  have hold : ∀ y, p2 ≤ y → y < p2 + 4096 →
      memset0 (memset0 (write64 w.mem (p1 + 8 * (G / 549755813888 % 512))
        (ept_init_default (w.mem (p1 + 8 * (G / 549755813888 % 512))) (virt_to_phys env p2)))
        p3 4096) p4 (n * 4096) y = w.mem y := by
    intro y hy1 hy2
    rw [memset0_out _ _ _ _ (by omega), memset0_out _ _ _ _ (by omega),
      write64_other _ _ _ _ (by omega)]
  by_cases h : i = G / 1073741824 % 512
  · subst h
    rw [write64_same, hold _ (by omega) (by omega)]
    simp
  · rw [write64_other _ _ _ _ (by omega), hold _ (by omega) (by omega)]
    simp [h]

/-- The page directory after the build: slot `pmd_offset G + j` points to page
table `j`. -/
theorem built_mem_pd_in {env : PageEnv} {w : World} {S E G p1 p2 p3 p4 n : Nat}
    (H : BuildCtx env w S E G p1 p2 p3 p4 n) (hcn : G / 2097152 % 512 + n ≤ 512)
    (j : Nat) (hj : j < n) :
    built_mem env w S G p1 p2 p3 p4 n (p3 + 8 * (G / 2097152 % 512 + j)) =
      ept_init_default 0 (virt_to_phys env (p4 + j * 4096)) := by
  have C := H.pdctx
  unfold built_mem
  rw [ept_pd_loop_value_pd env p3 p4 n S G C hcn j hj 512 0 _ (PdInv_zero S G _ C.hG)
    (by omega) (by have := C.hn; omega)]
  simp only []
  rw [pre_loop_mem_pd H _ (by omega) (by omega)]

/-- The page directory after the build: every other slot is zero. -/
theorem built_mem_pd_out {env : PageEnv} {w : World} {S E G p1 p2 p3 p4 n : Nat}
    (H : BuildCtx env w S E G p1 p2 p3 p4 n) (hcn : G / 2097152 % 512 + n ≤ 512)
    (i : Nat) (hi : i < 512)
    (ho : i < G / 2097152 % 512 ∨ G / 2097152 % 512 + n ≤ i) :
    built_mem env w S G p1 p2 p3 p4 n (p3 + 8 * i) = 0 := by
  have C := H.pdctx
  unfold built_mem
  rw [ept_pd_loop_frame_pd env p3 p4 n S G C hcn i hi 512 0 _ (PdInv_zero S G _ C.hG)
    (by omega)]
  simp only []
  rw [pre_loop_mem_pd H _ (by omega) (by omega)]

/-- The page tables after the build: entry `k` of table `j`, from the PT offset
of `G` on, is the leaf for the frame `S + j * 2 MiB + (k - pte_offset G) * 4 KiB`. -/
theorem built_mem_pt {env : PageEnv} {w : World} {S E G p1 p2 p3 p4 n : Nat}
    (H : BuildCtx env w S E G p1 p2 p3 p4 n) (j k : Nat) (hj : j < n) (hk : k < 512)
    (ht : G / 4096 % 512 ≤ k) :
    built_mem env w S G p1 p2 p3 p4 n (p4 + j * 4096 + 8 * k) =
      ept_init_pte 0 (S + j * 2097152 + (k - G / 4096 % 512) * 4096) := by
  have C := H.pdctx
  unfold built_mem
  rw [ept_pd_loop_value_pt env p3 p4 n S G C j k hj hk ht 512 0 _ (PdInv_zero S G _ C.hG)
    (by omega) (by have := C.hn; omega)]
  simp only []
  rw [pre_loop_mem_pt H _ (by omega) (by omega)]

/-- The result of an accepted single-directory build, in terms of
`built_mem`. -/
theorem ept_setup_range_built {env : PageEnv} {w : World} {S E G p1 p2 p3 p4 n : Nat}
    (H : BuildCtx env w S E G p1 p2 p3 p4 n) :
    (ept_setup_range env w S E G).1 = 0 ∧
    (ept_setup_range env w S E G).2.mem = built_mem env w S G p1 p2 p3 p4 n ∧
    (ept_setup_range env w S E G).2.vmm = { w.vmm with eptp := setup_eptp env p1 } := by
  rw [ept_setup_range_ok env w S E G p1 p2 p3 p4 n H]
  exact ⟨rfl, rfl, rfl⟩

/-! ## The walk after an accepted build -/

/-- After the build, the walk of any address reads its PML4 entry in the new
PML4 page. -/
theorem walk_pml4e_built {env : PageEnv} {w : World} {S E G p1 p2 p3 p4 n : Nat}
    (H : BuildCtx env w S E G p1 p2 p3 p4 n) (x : Nat) :
    walk_pml4e env (built_mem env w S G p1 p2 p3 p4 n)
        { w.vmm with eptp := setup_eptp env p1 } x
      = built_mem env w S G p1 p2 p3 p4 n (p1 + 8 * (x / 549755813888 % 512)) := by
  unfold walk_pml4e
  rw [ept_root_setup_eptp env w.vmm p1 H.hoff H.b1, pgd_offset_eq,
    slot_eq _ _ (by have := H.b1.inside; unfold U64; omega)]

/-- After the build, an address with the PML4 index of `G` reads its PDPT entry
in the new PDPT page. -/
theorem walk_pdpte_built {env : PageEnv} {w : World} {S E G p1 p2 p3 p4 n : Nat}
    (H : BuildCtx env w S E G p1 p2 p3 p4 n)
    (hc1 : w.mem (p1 + 8 * (G / 549755813888 % 512)) < 4503599627370496)
    (x : Nat) (hx1 : x / 549755813888 % 512 = G / 549755813888 % 512) :
    walk_pdpte env (built_mem env w S G p1 p2 p3 p4 n)
        { w.vmm with eptp := setup_eptp env p1 } x
      = built_mem env w S G p1 p2 p3 p4 n (p2 + 8 * (x / 1073741824 % 512)) := by
  unfold walk_pdpte
  have hb := H.b2
  rw [walk_pml4e_built H, hx1, built_mem_pml4 H _ (by omega), if_pos rfl,
    ept_init_default_addr _ _ hc1 (virt_to_phys_aligned env p2 H.hoff hb.aligned)
      (by have := hb.phys; omega),
    phys_to_virt_virt_to_phys env p2 (by have := hb.inside; omega), pud_offset_eq,
    slot_eq _ _ (by have := hb.inside; unfold U64; omega)]

/-- After the build, an address with the PML4 and PDPT indices of `G` reads its
page-directory entry in the new page directory. -/
theorem walk_pde_built {env : PageEnv} {w : World} {S E G p1 p2 p3 p4 n : Nat}
    (H : BuildCtx env w S E G p1 p2 p3 p4 n)
    (hc1 : w.mem (p1 + 8 * (G / 549755813888 % 512)) < 4503599627370496)
    (hc2 : w.mem (p2 + 8 * (G / 1073741824 % 512)) < 4503599627370496)
    (x : Nat) (hx1 : x / 549755813888 % 512 = G / 549755813888 % 512)
    (hx2 : x / 1073741824 % 512 = G / 1073741824 % 512) :
    walk_pde env (built_mem env w S G p1 p2 p3 p4 n)
        { w.vmm with eptp := setup_eptp env p1 } x
      = built_mem env w S G p1 p2 p3 p4 n (p3 + 8 * (x / 2097152 % 512)) := by
  unfold walk_pde
  have hb := H.b3
  rw [walk_pdpte_built H hc1 x hx1, hx2, built_mem_pdpt H _ (by omega), if_pos rfl,
    ept_init_default_addr _ _ hc2 (virt_to_phys_aligned env p3 H.hoff hb.aligned)
      (by have := hb.phys; omega),
    phys_to_virt_virt_to_phys env p3 (by have := hb.inside; omega), pmd_offset_eq,
    slot_eq _ _ (by have := hb.inside; unfold U64; omega)]

/-- After the build, an address whose upper indices select page table `j`
reads its leaf in that table. -/
theorem walk_pte_built {env : PageEnv} {w : World} {S E G p1 p2 p3 p4 n : Nat}
    (H : BuildCtx env w S E G p1 p2 p3 p4 n)
    (hc1 : w.mem (p1 + 8 * (G / 549755813888 % 512)) < 4503599627370496)
    (hc2 : w.mem (p2 + 8 * (G / 1073741824 % 512)) < 4503599627370496)
    (hcn : G / 2097152 % 512 + n ≤ 512)
    (x j : Nat) (hj : j < n) (hx1 : x / 549755813888 % 512 = G / 549755813888 % 512)
    (hx2 : x / 1073741824 % 512 = G / 1073741824 % 512)
    (hx3 : x / 2097152 % 512 = G / 2097152 % 512 + j) :
    walk_pte env (built_mem env w S G p1 p2 p3 p4 n)
        { w.vmm with eptp := setup_eptp env p1 } x
      = built_mem env w S G p1 p2 p3 p4 n (p4 + j * 4096 + 8 * (x / 4096 % 512)) := by
  unfold walk_pte
  have hb := H.b4
  have hv : virt_to_phys env (p4 + j * 4096) = virt_to_phys env p4 + j * 4096 :=
    virt_to_phys_add env p4 _ (by have := hb.phys; omega)
  have ha := virt_to_phys_aligned env p4 H.hoff hb.aligned
  rw [walk_pde_built H hc1 hc2 x hx1 hx2, hx3, built_mem_pd_in H hcn j hj,
    ept_init_default_addr _ _ (by norm_num) (by rw [hv]; omega)
      (by rw [hv]; have := hb.phys; omega),
    phys_to_virt_virt_to_phys env _ (by have := hb.inside; omega), pte_offset_eq,
    slot_eq _ _ (by have := hb.inside; unfold U64; omega)]

/-- What an accepted single-directory build maps, for a page-aligned host range
below `2 ^ 52` and PD indices that do not wrap: for each of the `n` page tables
`j`, the guest addresses `G + j * 2 MiB + r` with `r` below
`(512 - pte_offset G) * 4 KiB` translate to `S + j * 2 MiB + r`. -/
theorem ept_translate_built {env : PageEnv} {w : World} {S E G p1 p2 p3 p4 n : Nat}
    (H : BuildCtx env w S E G p1 p2 p3 p4 n)
    (hc1 : w.mem (p1 + 8 * (G / 549755813888 % 512)) < 4503599627370496)
    (hc2 : w.mem (p2 + 8 * (G / 1073741824 % 512)) < 4503599627370496)
    (hcn : G / 2097152 % 512 + n ≤ 512) (hGal : G % 4096 = 0)
    (hS : S % 4096 = 0) (hSn : S + n * 2097152 ≤ 4503599627370496)
    (j r : Nat) (hj : j < n) (hr : r < (512 - G / 4096 % 512) * 4096) :
    ept_translate env (built_mem env w S G p1 p2 p3 p4 n)
        { w.vmm with eptp := setup_eptp env p1 } (G + j * 2097152 + r)
      = S + j * 2097152 + r := by
  have C := H.pdctx
  obtain ⟨hn, hG, -, -, -, -⟩ := C
  have hx1 : (G + j * 2097152 + r) / 549755813888 % 512 = G / 549755813888 % 512 := by omega
  have hx2 : (G + j * 2097152 + r) / 1073741824 % 512 = G / 1073741824 % 512 := by omega
  have hx3 : (G + j * 2097152 + r) / 2097152 % 512 = G / 2097152 % 512 + j := by omega
  have hx4 : (G + j * 2097152 + r) / 4096 % 512 = G / 4096 % 512 + r / 4096 := by omega
  have e1 := walk_pml4e_built H (G + j * 2097152 + r)
  rw [hx1, built_mem_pml4 H _ (by omega), if_pos rfl] at e1
  have e2 := walk_pdpte_built H hc1 _ hx1
  rw [hx2, built_mem_pdpt H _ (by omega), if_pos rfl] at e2
  have e3 := walk_pde_built H hc1 hc2 _ hx1 hx2
  rw [hx3, built_mem_pd_in H hcn j hj] at e3
  have e4 := walk_pte_built H hc1 hc2 hcn _ j hj hx1 hx2 hx3
  rw [hx4, built_mem_pt H j _ hj (by omega) (by omega)] at e4
  rw [ept_translate_eq, e1, e2, e3, e4]
  have q1 := H.hpg1 _ (ept_init_default_odd (w.mem (p1 + 8 * (G / 549755813888 % 512)))
    (virt_to_phys env p2))
  have q2 := H.hpg1 _ (ept_init_default_odd (w.mem (p2 + 8 * (G / 1073741824 % 512)))
    (virt_to_phys env p3))
  have q3 := H.hpg1 _ (ept_init_default_odd 0 (virt_to_phys env (p4 + j * 4096)))
  have q4 := H.hpg1 _ (ept_init_pte_odd 0
    (S + j * 2097152 + (G / 4096 % 512 + r / 4096 - G / 4096 % 512) * 4096))
  rw [if_pos ⟨q1, q2, q3, q4⟩, ept_init_pte_addr _ (by omega) (by omega)]
  omega

/-! ## The configuration of `setup_ept` on clean table pages -/

/-- The fields of the leaves written by `ept_init_pt`. -/
theorem ept_init_pte_fields (e h : Nat) :
    F_READ.get (ept_init_pte e h) = 1 ∧ F_WRITE.get (ept_init_pte e h) = 1 ∧
    F_KERN_EXEC.get (ept_init_pte e h) = 1 ∧
    F_MEMORY_TYPE.get (ept_init_pte e h) = EPT_MEMORY_TYPE_WB ∧
    F_IGNORE_PAT.get (ept_init_pte e h) = 1 := by
  rw [ept_init_pte_eq]
  simp only [FieldPos.get, F_READ, F_WRITE, F_KERN_EXEC, F_MEMORY_TYPE, F_IGNORE_PAT,
    EPT_MEMORY_TYPE_WB, get_field]
  norm_num
  omega

/-- The low-bit reading of `pg_present` accepts every entry with the low bit set. -/
theorem env0_present_odd (e : Nat) (h : e % 2 = 1) : env0.pg_present e = true := by
  simp [env0, Nat.and_one_is_mod, h]

/-- The allocator state after the four successful requests. -/
theorem ept_setup_range_pa {env : PageEnv} {w : World} {S E G p1 p2 p3 p4 n : Nat}
    (H : BuildCtx env w S E G p1 p2 p3 p4 n) :
    (ept_setup_range env w S E G).2.pa.live =
      (ResKind.page, p4, n) :: (ResKind.page, p3, 1) :: (ResKind.page, p2, 1) ::
        (ResKind.page, p1, 1) :: w.pa.live ∧
    (ept_setup_range env w S E G).2.pa.alloc_calls = w.pa.alloc_calls + 4 ∧
    (ept_setup_range env w S E G).2.pa.release_calls = w.pa.release_calls := by
  rw [ept_setup_range_ok env w S E G p1 p2 p3 p4 n H]
  obtain ⟨rest, hscript⟩ := H.hscript
  have n1 := H.b1.nonnull
  have n2 := H.b2.nonnull
  have n3 := H.b3.nonnull
  have n4 := H.b4.nonnull
  simp [alloc_page, alloc_pages, alloc_block, hscript, n1, n2, n3, n4]

/-- The configuration of `setup_ept` satisfies the side conditions of the
analysis. -/
theorem setup_ept_ctx {env : PageEnv} {w : World} {S p1 p2 p3 p4 : Nat}
    (A : AllocCtx env w p1 p2 p3 p4 100)
    (hSn : S + 100 * 2097152 ≤ 4503599627370496) :
    BuildCtx env w S (S + 100 * HUGE_PAGE_SIZE) 0 p1 p2 p3 p4 100 := by
  have hH : HUGE_PAGE_SIZE = 2097152 := by decide
  have hm : mmap_size S (S + 100 * HUGE_PAGE_SIZE) = 209715200 := by
    rw [mmap_size_eq_sub _ _ (by rw [hH]; unfold U64; omega) (by omega), hH]; omega
  exact { A with
    hsz := by rw [hm]; norm_num
    hn := by rw [hm]; decide
    hG := by norm_num
    hpud := by norm_num
    hSw := by omega }

/-- The configuration of `setup_ept` on table pages without stale upper bits:
100 huge pages starting at the page-aligned host-physical `S` (below
`2 ^ 52`), mapped at guest-physical 0, with an allocator that answers the four
requests with well-formed disjoint blocks whose PML4 and PDPT slot 0 carry no
stale bits above bit 51 (the builder does not clear them).  Then
`ept_setup_range` returns 0; it holds one PML4 page, one PDPT page, a single
page-directory page and 100 page-table pages; the first 100 entries of the page
directory are present and entries 100..511 are zero, hence not present; and
every guest-physical `g` below `0xC800000` translates to `S + g`. -/
theorem setup_ept_range_maps (env : PageEnv) (w : World) (S p1 p2 p3 p4 : Nat)
    (A : AllocCtx env w p1 p2 p3 p4 100)
    (hS : S % 4096 = 0) (hSn : S + 100 * 2097152 ≤ 4503599627370496)
    (hc1 : w.mem p1 < 4503599627370496) (hc2 : w.mem p2 < 4503599627370496) :
    (ept_setup_range env w S (S + 100 * HUGE_PAGE_SIZE) 0).1 = 0 ∧
    (ept_setup_range env w S (S + 100 * HUGE_PAGE_SIZE) 0).2.pa.live =
      (ResKind.page, p4, 100) :: (ResKind.page, p3, 1) :: (ResKind.page, p2, 1) ::
        (ResKind.page, p1, 1) :: w.pa.live ∧
    (∀ i, i < 100 → env.pg_present
      ((ept_setup_range env w S (S + 100 * HUGE_PAGE_SIZE) 0).2.mem (p3 + 8 * i)) = true) ∧
    (∀ i, 100 ≤ i → i < 512 →
      (ept_setup_range env w S (S + 100 * HUGE_PAGE_SIZE) 0).2.mem (p3 + 8 * i) = 0 ∧
      env.pg_present
        ((ept_setup_range env w S (S + 100 * HUGE_PAGE_SIZE) 0).2.mem (p3 + 8 * i)) = false) ∧
    (∀ g, g < 0xC800000 →
      ept_translate env (ept_setup_range env w S (S + 100 * HUGE_PAGE_SIZE) 0).2.mem
        (ept_setup_range env w S (S + 100 * HUGE_PAGE_SIZE) 0).2.vmm g = S + g) := by
  have H := setup_ept_ctx (S := S) A hSn
  obtain ⟨hr, hm, hv⟩ := ept_setup_range_built H
  have hcn : 0 / 2097152 % 512 + 100 ≤ 512 := by norm_num
  refine ⟨hr, (ept_setup_range_pa H).1, ?_, ?_, ?_⟩
  · intro i hi
    have e := built_mem_pd_in H hcn i hi
    simp only [Nat.zero_div, Nat.zero_mod, Nat.zero_add] at e
    rw [hm, e]
    exact A.hpg1 _ (ept_init_default_odd _ _)
  · intro i h1 h2
    have e := built_mem_pd_out H hcn i h2 (by omega)
    rw [hm, e]
    exact ⟨rfl, A.hpg0⟩
  · intro g hg
    have e := ept_translate_built H (by simpa using hc1) (by simpa using hc2) hcn
      (by norm_num) hS hSn (g / 2097152) (g % 2097152) (by omega) (by omega)
    rw [hm, hv]
    have hg2 : 0 + g / 2097152 * 2097152 + g % 2097152 = g := by omega
    rw [hg2] at e
    rw [e]
    omega

/-- The host range `[0x200000000, 0x20C800000)` over zero-filled memory, where
`ept_translate(0x00123000)` is `0x200123000`. -/
theorem setup_ept_range_maps_witness :
    ept_translate env0 (ept_setup_range env0 w4 0x200000000 (0x200000000 + 100 * HUGE_PAGE_SIZE) 0).2.mem
      (ept_setup_range env0 w4 0x200000000 (0x200000000 + 100 * HUGE_PAGE_SIZE) 0).2.vmm
      0x00123000 = 0x200000000 + 0x00123000 :=
  (setup_ept_range_maps env0 w4 0x200000000 0x100000 0x101000 0x102000 0x200000
    { hoff := by decide
      hpg1 := env0_present_odd
      hpg0 := by decide
      hscript := ⟨[], rfl⟩
      b1 := ⟨by decide, by decide, by decide, by decide⟩
      b2 := ⟨by decide, by decide, by decide, by decide⟩
      b3 := ⟨by decide, by decide, by decide, by decide⟩
      b4 := ⟨by decide, by decide, by decide, by decide⟩
      s12 := by unfold sep; decide
      s13 := by unfold sep; decide
      s14 := by unfold sep; decide
      s23 := by unfold sep; decide
      s24 := by unfold sep; decide
      s34 := by unfold sep; decide }
    (by decide) (by decide) (by decide) (by decide)).2.2.2.2 0x00123000 (by decide)

/-! ## Out-of-range addresses (C3) and leaf permissions (C10) -/

/-- The blocks of `pa4`, with `n ≤ 512` page tables, are well formed for
`env0`. -/
theorem alloc_ctx_w4 (n : Nat) (hn : n ≤ 512) :
    AllocCtx env0 w4 0x100000 0x101000 0x102000 0x200000 n := by
  have hv : virt_to_phys env0 0x200000 = 0x200000 := by decide
  exact
    { hoff := by decide
      hpg1 := env0_present_odd
      hpg0 := by decide
      hscript := ⟨[], rfl⟩
      b1 := ⟨by decide, by decide, by decide, by decide⟩
      b2 := ⟨by decide, by decide, by decide, by decide⟩
      b3 := ⟨by decide, by decide, by decide, by decide⟩
      b4 := ⟨by decide, by decide, by omega, by rw [hv]; omega⟩
      s12 := by unfold sep; omega
      s13 := by unfold sep; omega
      s14 := by unfold sep; omega
      s23 := by unfold sep; omega
      s24 := by unfold sep; omega
      s34 := by unfold sep; omega }

/-- A PDPT entry that is not present ends the walk with the sentinel. -/
theorem ept_translate_np2 (env : PageEnv) (m : Mem) (vmm : Vmm) (x : Nat)
    (h : env.pg_present (walk_pdpte env m vmm x) = false) :
    ept_translate env m vmm x = SENTINEL := by
  rw [ept_translate_eq, if_neg]
  simp [h]

/-- The side conditions hold for the 4 KiB range `[0x200000000, 0x200001000)`
at guest 0 in the world `w4`. -/
theorem build_ctx_small :
    BuildCtx env0 w4 0x200000000 0x200001000 0 0x100000 0x101000 0x102000 0x200000 1 :=
  { alloc_ctx_w4 1 (by norm_num) with
    hsz := by decide
    hn := by decide
    hG := by norm_num
    hpud := by norm_num
    hSw := by norm_num }

/-- C10, amended. For an accepted range of at most 1 GiB at a `guest_start`
whose PT offset is zero: every one of the 512 entries of each of the
`needed_pt` page tables has read, write and execute set, memory type 6 and
ignore-PAT 1. -/
theorem ept_leaf_permissions (env : PageEnv) (w : World) (S E G p1 p2 p3 p4 n : Nat)
    (H : BuildCtx env w S E G p1 p2 p3 p4 n) (ht : pte_offset G = 0)
    (j k : Nat) (hj : j < n) (hk : k < EPT_PTRS_PER_TABLE) :
    (ept_setup_range env w S E G).1 = 0 ∧
    n = needed_paging_structs (mmap_size S E) (MB 2) ∧
    F_READ.get ((ept_setup_range env w S E G).2.mem (p4 + j * PAGE_SIZE + 8 * k)) = 1 ∧
    F_WRITE.get ((ept_setup_range env w S E G).2.mem (p4 + j * PAGE_SIZE + 8 * k)) = 1 ∧
    F_KERN_EXEC.get ((ept_setup_range env w S E G).2.mem (p4 + j * PAGE_SIZE + 8 * k)) = 1 ∧
    F_MEMORY_TYPE.get ((ept_setup_range env w S E G).2.mem (p4 + j * PAGE_SIZE + 8 * k))
      = EPT_MEMORY_TYPE_WB ∧
    F_IGNORE_PAT.get ((ept_setup_range env w S E G).2.mem (p4 + j * PAGE_SIZE + 8 * k)) = 1 := by
  obtain ⟨hr, hm, -⟩ := ept_setup_range_built H
  rw [pte_offset_eq] at ht
  rw [EPT_PTRS_val] at hk
  rw [hm, PAGE_SIZE_val, built_mem_pt H j k hj hk (by omega)]
  exact ⟨hr, H.hn, ept_init_pte_fields _ _⟩

/-- Witness for the amended C10: the first leaf of the 4 KiB build at guest
0. -/
theorem ept_leaf_permissions_witness :
    F_MEMORY_TYPE.get
      ((ept_setup_range env0 w4 0x200000000 0x200001000 0).2.mem
        (0x200000 + 0 * PAGE_SIZE + 8 * 0)) = EPT_MEMORY_TYPE_WB :=
  (ept_leaf_permissions env0 w4 0x200000000 0x200001000 0 0x100000 0x101000 0x102000
    0x200000 1 build_ctx_small (by decide) 0 0 (by norm_num) (by decide)).2.2.2.2.2.1

/-- C10 as stated fails: for the 4 KiB range `[0x200000000, 0x200001000)` at
guest `0x1ff000` (PT offset 511) the build is accepted and entry 0 of its one
page table, at `0x200000`, stays zero: read is clear and the memory type is
0. -/
theorem ept_leaf_below_offset_empty :
    (ept_setup_range env0 w4 0x200000000 0x200001000 0x1ff000).1 = 0 ∧
    (ept_setup_range env0 w4 0x200000000 0x200001000 0x1ff000).2.pa.live =
      [(ResKind.page, 0x200000, 1), (ResKind.page, 0x102000, 1),
       (ResKind.page, 0x101000, 1), (ResKind.page, 0x100000, 1)] ∧
    (ept_setup_range env0 w4 0x200000000 0x200001000 0x1ff000).2.mem (0x200000 + 8 * 0) = 0 ∧
    F_READ.get
      ((ept_setup_range env0 w4 0x200000000 0x200001000 0x1ff000).2.mem (0x200000 + 8 * 0)) = 0 ∧
    F_MEMORY_TYPE.get
      ((ept_setup_range env0 w4 0x200000000 0x200001000 0x1ff000).2.mem (0x200000 + 8 * 0)) = 0 := by
  decide

set_option maxRecDepth 100000

/-! ## Coverage beyond one aligned page directory (C1) -/

/-- C1 fails on the code (two accepted builds over zero-filled memory).
(a) The 8 KiB range `[0x200000000, 0x200002000)` at guest `0x1ff000` (PT offset
511): the second page, `G + 0x1000`, should translate to `0x200001000` and
translates to the sentinel, because only the page table of the first 2 MiB
chunk is set up.
(b) The range of 1 GiB + 2 MiB `[0x200000000, 0x240200000)` at the same guest
address: `G` itself should translate to `0x200000000` and translates to
`0x240000000`, because the second page directory reuses page table 0 and
overwrites its entries. -/
theorem ept_setup_range_miscovers :
    ((ept_setup_range env0 w4 0x200000000 0x200002000 0x1ff000).1 = 0 ∧
     ept_translate env0 (ept_setup_range env0 w4 0x200000000 0x200002000 0x1ff000).2.mem
       (ept_setup_range env0 w4 0x200000000 0x200002000 0x1ff000).2.vmm
       (0x1ff000 + 0x1000) = SENTINEL) ∧
    ((ept_setup_range env0 w4big 0x200000000 0x240200000 0x1ff000).1 = 0 ∧
     ept_translate env0 (ept_setup_range env0 w4big 0x200000000 0x240200000 0x1ff000).2.mem
       (ept_setup_range env0 w4big 0x200000000 0x240200000 0x1ff000).2.vmm
       0x1ff000 = 0x240000000) := by
  constructor
  · decide
  · decide

/-! ## Control-field adjustment (C4) -/

/-- The bits of the 64-bit complement. -/
theorem testBit_not64 (x i : Nat) :
    (not64 x).testBit i = (decide (i < 64) && !x.testBit i) := by
  have h : not64 x = 2 ^ 64 - (x % 2 ^ 64 + 1) := by
    unfold not64 U64
    have := Nat.mod_lt x (show 2 ^ 64 > 0 by norm_num)
    norm_num
    omega
  rw [h, Nat.testBit_two_pow_sub_succ (Nat.mod_lt x (by norm_num)), Nat.testBit_mod_two_pow]
  by_cases hi : i < 64 <;> simp [hi]

/-- C4 as stated fails: for the capability word 1 (bit 0 must be 1 and may not
be 1) and request 0 the adjusted value is 0, which misses the must-be-1
bit. -/
theorem adjust_vm_control_misses_must :
    adjust_vm_control 0 1 = 0 ∧ must_be_1 1 &&& not64 (adjust_vm_control 0 1) = 1 := by
  decide

/-- C4, amended. For every request `r` and capability word `m`: adjusting
twice is adjusting once; no bit outside may-be-1 is set; the must-be-1 bits
missing from the result are exactly those that are not may-be-1 bits, so none
is missing when must-be-1 is contained in may-be-1.  For `r = 0`, must-be-1
`0x16` and may-be-1 `0xff` the result is `0x16`.  The value that
`vmcs_write_control` writes is the adjusted one, with the capability word taken
from the MSR table. -/
theorem adjust_vm_control_props (r m : Nat) :
    (∀ (vmm : Vmm) (field ctl_msr : Nat),
      vmcs_write_control vmm field r ctl_msr
        = (field, adjust_vm_control r (vmm.vmx_msr.getD (VMM_IDX ctl_msr) 0))) ∧
    adjust_vm_control (adjust_vm_control r m) m = adjust_vm_control r m ∧
    not64 (may_be_1 m) &&& adjust_vm_control r m = 0 ∧
    must_be_1 m &&& not64 (adjust_vm_control r m) = must_be_1 m &&& not64 (may_be_1 m) ∧
    (must_be_1 m &&& not64 (may_be_1 m) = 0 →
      must_be_1 m &&& not64 (adjust_vm_control r m) = 0) ∧
    adjust_vm_control 0 (0x16 ||| (0xff <<< 32)) = 0x16 := by
  have h3 : must_be_1 m &&& not64 (adjust_vm_control r m)
      = must_be_1 m &&& not64 (may_be_1 m) := by
    unfold adjust_vm_control
    apply Nat.eq_of_testBit_eq
    intro i
    simp only [Nat.testBit_and, Nat.testBit_or, testBit_not64]
    cases r.testBit i <;> cases (must_be_1 m).testBit i <;>
      cases (may_be_1 m).testBit i <;> simp
  refine ⟨fun _ _ _ => rfl, ?_, ?_, h3, ?_, by decide⟩
  · unfold adjust_vm_control
    apply Nat.eq_of_testBit_eq
    intro i
    simp only [Nat.testBit_and, Nat.testBit_or]
    cases r.testBit i <;> cases (must_be_1 m).testBit i <;>
      cases (may_be_1 m).testBit i <;> rfl
  · unfold adjust_vm_control
    apply Nat.eq_of_testBit_eq
    intro i
    simp only [Nat.testBit_and, Nat.testBit_or, testBit_not64, Nat.zero_testBit]
    cases r.testBit i <;> cases (must_be_1 m).testBit i <;>
      cases (may_be_1 m).testBit i <;> simp
  · intro h
    rw [h3, h]

/-- Witness for the amended C4: the capability word with must-be-1 `0x16` and
may-be-1 `0xff`, whose must-be-1 bits are all may-be-1 bits. -/
theorem adjust_vm_control_props_witness :
    must_be_1 (0x16 ||| (0xff <<< 32)) &&&
      not64 (adjust_vm_control 0 (0x16 ||| (0xff <<< 32))) = 0 :=
  (adjust_vm_control_props 0 (0x16 ||| (0xff <<< 32))).2.2.2.2.1 (by decide)

/-! ## The guest walk (C5, C6) -/

/-- The guest walk, level by level down to the page directory. -/
theorem gva_to_gpa_eq (env : PageEnv) (m : Mem) (vmm : Vmm) (gva : Nat) :
    gva_to_gpa env m vmm gva =
      if env.pg_present (guest_pml4e env m vmm gva) = false then SENTINEL
      else if env.pg_present (guest_pdpte env m vmm gva) = false then SENTINEL
      else if pg_huge_page (guest_pdpte env m vmm gva) = true then
        ((guest_pdpte env m vmm gva &&& PAGE_MASK) + gva % 1073741824) % U64
      else if env.pg_present (guest_pde env m vmm gva) = false then SENTINEL
      else if pg_huge_page (guest_pde env m vmm gva) = true then
        ((guest_pde env m vmm gva &&& PAGE_MASK) + gva % 2097152) % U64
      else
        if env.pg_present (m (slot (gpa_to_hva env m vmm
            (guest_pde env m vmm gva &&& PAGE_MASK)) (pte_offset gva))) = false
        then SENTINEL
        else ((m (slot (gpa_to_hva env m vmm (guest_pde env m vmm gva &&& PAGE_MASK))
                (pte_offset gva)) &&& PAGE_MASK) + gva % 4096) % U64 := by
  have a30 : ∀ x : Nat, x &&& 1073741823 = x % 1073741824 := by
    intro x; have h := and_low_mask x 30; norm_num at h; exact h
  have a21 : ∀ x : Nat, x &&& 2097151 = x % 2097152 := by
    intro x; have h := and_low_mask x 21; norm_num at h; exact h
  simp only [gva_to_gpa, guest_pde, guest_pdpte, guest_pml4e, not64_PUD_MASK, not64_PMD_MASK,
    not64_PAGE_MASK, and_4095, a30, a21, Bool.not_eq_true']

/-- The guest entries read for `V + D` are those read for `V` when `D` stays
inside the 1 GiB region of `V`. -/
theorem guest_entries_1g (env : PageEnv) (m : Mem) (vmm : Vmm) (V D : Nat)
    (hV : V % 1073741824 = 0) (hD : D < 1073741824) :
    guest_pml4e env m vmm (V + D) = guest_pml4e env m vmm V ∧
    guest_pdpte env m vmm (V + D) = guest_pdpte env m vmm V := by
  have h1 : pgd_offset (V + D) = pgd_offset V := by
    rw [pgd_offset_eq, pgd_offset_eq]; omega
  have h2 : pud_offset (V + D) = pud_offset V := by
    rw [pud_offset_eq, pud_offset_eq]; omega
  have e1 : guest_pml4e env m vmm (V + D) = guest_pml4e env m vmm V := by
    unfold guest_pml4e; rw [h1]
  refine ⟨e1, ?_⟩
  unfold guest_pdpte
  rw [e1, h2]

/-- The guest entries read for `V + D` are those read for `V` when `D` stays
inside the 2 MiB region of `V`. -/
theorem guest_entries_2m (env : PageEnv) (m : Mem) (vmm : Vmm) (V D : Nat)
    (hV : V % 2097152 = 0) (hD : D < 2097152) :
    guest_pml4e env m vmm (V + D) = guest_pml4e env m vmm V ∧
    guest_pdpte env m vmm (V + D) = guest_pdpte env m vmm V ∧
    guest_pde env m vmm (V + D) = guest_pde env m vmm V := by
  have h1 : pgd_offset (V + D) = pgd_offset V := by
    rw [pgd_offset_eq, pgd_offset_eq]; omega
  have h2 : pud_offset (V + D) = pud_offset V := by
    rw [pud_offset_eq, pud_offset_eq]; omega
  have h3 : pmd_offset (V + D) = pmd_offset V := by
    rw [pmd_offset_eq, pmd_offset_eq]; omega
  have e1 : guest_pml4e env m vmm (V + D) = guest_pml4e env m vmm V := by
    unfold guest_pml4e; rw [h1]
  have e2 : guest_pdpte env m vmm (V + D) = guest_pdpte env m vmm V := by
    unfold guest_pdpte; rw [e1, h2]
  refine ⟨e1, e2, ?_⟩
  unfold guest_pde
  rw [e2, h3]

/-- The EPT walk uses bits 0..47 of the address only. -/
theorem ept_translate_mod48 (env : PageEnv) (m : Mem) (vmm : Vmm) (a : Nat) :
    ept_translate env m vmm (a % 281474976710656) = ept_translate env m vmm a := by
  have h1 : pgd_offset (a % 281474976710656) = pgd_offset a := by
    rw [pgd_offset_eq, pgd_offset_eq]; omega
  have h2 : pud_offset (a % 281474976710656) = pud_offset a := by
    rw [pud_offset_eq, pud_offset_eq]; omega
  have h3 : pmd_offset (a % 281474976710656) = pmd_offset a := by
    rw [pmd_offset_eq, pmd_offset_eq]; omega
  have h4 : pte_offset (a % 281474976710656) = pte_offset a := by
    rw [pte_offset_eq, pte_offset_eq]; omega
  have h5 : a % 281474976710656 % 4096 = a % 4096 := by omega
  rw [ept_translate_eq, ept_translate_eq]
  simp only [walk_pte, walk_pde, walk_pdpte, walk_pml4e, h1, h2, h3, h4, h5]

/-- What `gpa_to_hva` returns for the address part of CR3 or of a guest entry,
as the code extracts it with `PAGE_MASK`: the host-virtual address of the
table at the guest-physical address in bits 12..51, found through the EPT. -/
theorem gpa_to_hva_table (env : PageEnv) (m : Mem) (vmm : Vmm) (e : Nat) :
    gpa_to_hva env m vmm (e &&& PAGE_MASK)
      = phys_to_virt env (ept_translate env m vmm (guest_table_gpa e)) := by
  unfold gpa_to_hva
  rw [← ept_translate_mod48 env m vmm (e &&& PAGE_MASK),
    ← ept_translate_mod48 env m vmm (guest_table_gpa e)]
  have h : (e &&& PAGE_MASK) % 281474976710656 = guest_table_gpa e % 281474976710656 := by
    rw [and_PAGE_MASK]
    unfold guest_table_gpa get_field
    norm_num
    omega
  rw [h]

/-- The guest entries that `gva_to_gpa` reads are the entries of the guest
tables read through the EPT. -/
theorem guest_entries_via_ept (env : PageEnv) (m : Mem) (vmm : Vmm) (gva : Nat) :
    guest_pml4e env m vmm gva
      = guest_entry_via_ept env m vmm (guest_table_gpa vmm.guest_cr3) (pgd_offset gva) ∧
    guest_pdpte env m vmm gva
      = guest_entry_via_ept env m vmm (guest_table_gpa (guest_pml4e env m vmm gva))
          (pud_offset gva) ∧
    guest_pde env m vmm gva
      = guest_entry_via_ept env m vmm (guest_table_gpa (guest_pdpte env m vmm gva))
          (pmd_offset gva) := by
  refine ⟨?_, ?_, ?_⟩
  · unfold guest_pml4e guest_entry_via_ept
    rw [gpa_to_hva_table]
  · unfold guest_pdpte guest_entry_via_ept
    rw [gpa_to_hva_table]
  · unfold guest_pde guest_entry_via_ept
    rw [gpa_to_hva_table]

/-- The huge-page test of the code is the test of bit 7. -/
theorem pg_huge_page_bit (e : Nat) : pg_huge_page e = true ↔ get_field e 7 1 = 1 := by
  unfold pg_huge_page get_field
  have h : e &&& 128 = e / 128 % 2 * 128 := by
    have := Nat.and_two_pow e 7
    rw [Nat.testBit_to_div_mod] at this
    norm_num at this ⊢
    rw [this]
    by_cases hb : e / 128 % 2 = 1
    · simp [hb]
    · have : e / 128 % 2 = 0 := by omega
      simp [this]
  rw [h]
  simp only [bne_iff_ne, ne_eq]
  norm_num

/-- C5 as stated fails: the walk takes the address of a huge page from the
entry with only its 12 low bits masked out.  (a) A 1 GiB page at
guest-virtual 0 that maps guest-physical `0x40000000` with the execute-disable
bit set, PDPT entry `0x8000000040000087`: `gva_to_gpa(0x123)` is
`0x8000000040000123`, not `0x40000123`.  (b) A 2 MiB page at guest-virtual
1 GiB that maps guest-physical `0x600000` with the PAT bit (bit 12) set,
page-directory entry `0x601087`: `gva_to_gpa(0x40001234)` is `0x602234`, not
`0x601234`. -/
theorem gva_to_gpa_huge_keeps_flag_bits :
    (guest_entry_via_ept env0 (mem_shifted 0x8000000040000087 0) vmm_guest
        (guest_table_gpa 0x2007) (pud_offset 0) = 0x8000000040000087 ∧
     guest_1g_gpa 0x8000000040000087 = 0x40000000 ∧
     gva_to_gpa env0 (mem_shifted 0x8000000040000087 0) vmm_guest (0 + 0x123)
       = 0x8000000040000123 ∧
     (0x8000000040000123 : Nat) ≠ 0x40000000 + 0x123) ∧
    (guest_entry_via_ept env0 (mem_shifted 0x40000087 0x601087) vmm_guest
        (guest_table_gpa 0x4007) (pmd_offset 0x40000000) = 0x601087 ∧
     guest_2m_gpa 0x601087 = 0x600000 ∧
     gva_to_gpa env0 (mem_shifted 0x40000087 0x601087) vmm_guest (0x40000000 + 0x1234)
       = 0x602234 ∧
     (0x602234 : Nat) ≠ 0x600000 + 0x1234) := by
  decide

/-- C5, amended. Guest-walk huge pages, with the guest tables read through the
EPT and the addresses taken from the architectural fields of the entries.  Let
`pg_present` accept every entry whose low bit is set.  (1) Let `V` be 1 GiB
aligned, let the guest PML4 at the guest-physical address in bits 12..51 of
CR3 be mapped by the EPT, let its entry `e4` for `V` have the present bit set,
let the PDPT at the guest-physical address in bits 12..51 of `e4` be mapped by
the EPT, and let its entry `e3` for `V` have the present bit and the
huge-page bit set, bits 12..29 clear and bits 52 and above clear.  Then
`gva_to_gpa(V + D) = P + D` for every `D` below 1 GiB, where `P` is bits
30..51 of `e3`.  (2) Likewise for 2 MiB: `V` is 2 MiB aligned, `e3` is present
with the huge-page bit clear, the page directory it points to is mapped by the
EPT, and its entry `e2` for `V` has the present bit and the huge-page bit set,
bits 12..20 clear and bits 52 and above clear; then
`gva_to_gpa(V + D) = P + D` for every `D` below 2 MiB, where `P` is bits
21..51 of `e2`. -/
theorem gva_to_gpa_huge (env : PageEnv) (m : Mem) (vmm : Vmm) (V : Nat)
    (hpg : ∀ e, e % 2 = 1 → env.pg_present e = true) :
    (∀ e4 e3 : Nat, V % 1073741824 = 0 →
      ept_translate env m vmm (guest_table_gpa vmm.guest_cr3) ≠ SENTINEL →
      guest_entry_via_ept env m vmm (guest_table_gpa vmm.guest_cr3) (pgd_offset V) = e4 →
      e4 % 2 = 1 →
      ept_translate env m vmm (guest_table_gpa e4) ≠ SENTINEL →
      guest_entry_via_ept env m vmm (guest_table_gpa e4) (pud_offset V) = e3 →
      e3 % 2 = 1 → get_field e3 7 1 = 1 →
      get_field e3 12 18 = 0 → e3 < 4503599627370496 →
      ∀ D, D < 1073741824 → gva_to_gpa env m vmm (V + D) = guest_1g_gpa e3 + D) ∧
    (∀ e4 e3 e2 : Nat, V % 2097152 = 0 →
      ept_translate env m vmm (guest_table_gpa vmm.guest_cr3) ≠ SENTINEL →
      guest_entry_via_ept env m vmm (guest_table_gpa vmm.guest_cr3) (pgd_offset V) = e4 →
      e4 % 2 = 1 →
      ept_translate env m vmm (guest_table_gpa e4) ≠ SENTINEL →
      guest_entry_via_ept env m vmm (guest_table_gpa e4) (pud_offset V) = e3 →
      e3 % 2 = 1 → get_field e3 7 1 = 0 →
      ept_translate env m vmm (guest_table_gpa e3) ≠ SENTINEL →
      guest_entry_via_ept env m vmm (guest_table_gpa e3) (pmd_offset V) = e2 →
      e2 % 2 = 1 → get_field e2 7 1 = 1 →
      get_field e2 12 9 = 0 → e2 < 4503599627370496 →
      ∀ D, D < 2097152 → gva_to_gpa env m vmm (V + D) = guest_2m_gpa e2 + D) := by
  obtain ⟨g1, g2, g3⟩ := guest_entries_via_ept env m vmm V
  constructor
  · intro e4 e3 hV _ h4 p4 _ h3 p3 b3 z3 u3 D hD
    obtain ⟨e1, e2⟩ := guest_entries_1g env m vmm V D hV hD
    have q4 : guest_pml4e env m vmm V = e4 := by rw [g1, h4]
    have q3 : guest_pdpte env m vmm V = e3 := by rw [g2, q4, h3]
    have hh : pg_huge_page e3 = true := (pg_huge_page_bit e3).2 b3
    rw [gva_to_gpa_eq, e1, e2, q4, q3, hpg e4 p4, hpg e3 p3, hh, and_PAGE_MASK e3]
    have hmod : (V + D) % 1073741824 = D := by omega
    simp only [hmod, Bool.true_eq_false, if_false, if_true]
    unfold guest_1g_gpa
    unfold get_field at z3 ⊢
    unfold U64
    norm_num at z3 ⊢
    omega
  · intro e4 e3 e2 hV _ h4 p4 _ h3 p3 b3 _ h2 p2 b2 z2 u2 D hD
    obtain ⟨e1, e2', e3'⟩ := guest_entries_2m env m vmm V D hV hD
    have q4 : guest_pml4e env m vmm V = e4 := by rw [g1, h4]
    have q3 : guest_pdpte env m vmm V = e3 := by rw [g2, q4, h3]
    have q2 : guest_pde env m vmm V = e2 := by rw [g3, q3, h2]
    have hh3 : pg_huge_page e3 = false := by
      cases hc : pg_huge_page e3
      · rfl
      · have := (pg_huge_page_bit e3).1 hc
        omega
    have hh2 : pg_huge_page e2 = true := (pg_huge_page_bit e2).2 b2
    rw [gva_to_gpa_eq, e1, e2', e3', q4, q3, q2, hpg e4 p4, hpg e3 p3, hpg e2 p2, hh3, hh2,
      and_PAGE_MASK e2]
    have hmod : (V + D) % 2097152 = D := by omega
    simp only [hmod, Bool.true_eq_false, Bool.false_eq_true, if_false, if_true]
    unfold guest_2m_gpa
    unfold get_field at z2 ⊢
    unfold U64
    norm_num at z2 ⊢
    omega

/-- Witness for the amended C5, with an EPT that moves the guest tables by
2 MiB: a 1 GiB page at guest-virtual 0 that maps guest-physical `0x40000000`
(PDPT entry `0x40000087`) and a 2 MiB page at guest-virtual 1 GiB that maps
guest-physical `0x600000` (page-directory entry `0x600087`). -/
theorem gva_to_gpa_huge_witness :
    gva_to_gpa env0 (mem_shifted 0x40000087 0x600087) vmm_guest (0 + 0x123)
      = guest_1g_gpa 0x40000087 + 0x123 ∧
    gva_to_gpa env0 (mem_shifted 0x40000087 0x600087) vmm_guest (0x40000000 + 0x1234)
      = guest_2m_gpa 0x600087 + 0x1234 :=
  ⟨(gva_to_gpa_huge env0 (mem_shifted 0x40000087 0x600087) vmm_guest 0
      env0_present_odd).1 0x2007 0x40000087 (by decide) (by decide) (by decide) (by decide)
      (by decide) (by decide) (by decide) (by decide) (by decide) (by decide) 0x123
      (by decide),
   (gva_to_gpa_huge env0 (mem_shifted 0x40000087 0x600087) vmm_guest 0x40000000
      env0_present_odd).2 0x2007 0x4007 0x600087 (by decide) (by decide) (by decide)
      (by decide) (by decide) (by decide) (by decide) (by decide) (by decide) (by decide)
      (by decide) (by decide) (by decide) (by decide) 0x1234 (by decide)⟩

/-- C6 as stated fails: in the scenario (guest CR3 = `0x1000`, guest PML4[0] =
`0x2007`, guest PDPT[0] = `0x3087`, the other guest entries zero, the guest
tables identity-mapped by the EPT) the walk of `0x40000123` reads guest PDPT
entry 1, which is zero, and returns the sentinel, not `0x3000123`. -/
theorem gva_to_gpa_scenario_sentinel :
    vmm_guest.guest_cr3 = 0x1000 ∧
    ept_translate env0 mem_guest vmm_guest 0x1000 = 0x1000 ∧
    ept_translate env0 mem_guest vmm_guest 0x2000 = 0x2000 ∧
    guest_pml4e env0 mem_guest vmm_guest 0x40000123 = 0x2007 ∧
    pud_offset 0x40000123 = 1 ∧
    guest_pdpte env0 mem_guest vmm_guest 0x40000123 = 0 ∧
    gva_to_gpa env0 mem_guest vmm_guest 0x40000123 = SENTINEL ∧
    SENTINEL ≠ 0x3000123 := by
  decide

/-- C6, amended. With guest CR3 = `0x1000`, guest PML4[0] = `0x2007`, guest
PDPT[0] = `0x3087` and guest PDPT[1] = 0, the tables being read through the
EPT: `gva_to_gpa(0x40000123)` is the sentinel, and the 1 GiB page of PDPT[0]
covers guest-virtual `[0, 1 GiB)`, where `gva_to_gpa(0x123) = 0x3123`. -/
theorem gva_to_gpa_scenario (env : PageEnv) (m : Mem) (vmm : Vmm)
    (hp0 : env.pg_present 0 = false) (hp1 : env.pg_present 0x2007 = true)
    (hp2 : env.pg_present 0x3087 = true) (hcr3 : vmm.guest_cr3 = 0x1000)
    (h1 : m (slot (gpa_to_hva env m vmm 0x1000) 0) = 0x2007)
    (h2 : m (slot (gpa_to_hva env m vmm 0x2000) 0) = 0x3087)
    (h3 : m (slot (gpa_to_hva env m vmm 0x2000) 1) = 0) :
    gva_to_gpa env m vmm 0x40000123 = SENTINEL ∧
    gva_to_gpa env m vmm 0x123 = 0x3123 := by
  have c1 : (0x1000 : Nat) &&& PAGE_MASK = 0x1000 := by decide
  have c2 : (0x2007 : Nat) &&& PAGE_MASK = 0x2000 := by decide
  have c3 : (0x3087 : Nat) &&& PAGE_MASK = 0x3000 := by decide
  have o1 : pgd_offset 0x40000123 = 0 := by decide
  have o2 : pud_offset 0x40000123 = 1 := by decide
  have o3 : pgd_offset 0x123 = 0 := by decide
  have o4 : pud_offset 0x123 = 0 := by decide
  have g1 : guest_pml4e env m vmm 0x40000123 = 0x2007 := by
    unfold guest_pml4e; rw [hcr3, c1, o1, h1]
  have g2 : guest_pdpte env m vmm 0x40000123 = 0 := by
    unfold guest_pdpte; rw [g1, c2, o2, h3]
  have g3 : guest_pml4e env m vmm 0x123 = 0x2007 := by
    unfold guest_pml4e; rw [hcr3, c1, o3, h1]
  have g4 : guest_pdpte env m vmm 0x123 = 0x3087 := by
    unfold guest_pdpte; rw [g3, c2, o4, h2]
  constructor
  · rw [gva_to_gpa_eq, g1, g2, hp1, hp0]
    simp
  · have hh : pg_huge_page 0x3087 = true := by decide
    rw [gva_to_gpa_eq, g3, g4, hp1, hp2, hh, c3]
    simp [U64]

/-- Witness for the amended C6. -/
theorem gva_to_gpa_scenario_witness :
    gva_to_gpa env0 mem_guest vmm_guest 0x40000123 = SENTINEL ∧
    gva_to_gpa env0 mem_guest vmm_guest 0x123 = 0x3123 :=
  gva_to_gpa_scenario env0 mem_guest vmm_guest (by decide) (by decide) (by decide)
    (by decide) (by decide) (by decide) (by decide)

/-! ## Present semantics of the EPT walk (C9) -/

/-- C9 as stated fails, under either reading of `pg_present`: in a hierarchy
whose entries are all ones, every entry on the walk of `0xfff` has read, write
and execute set and is present, and `ept_translate` still returns the
sentinel, the leaf's frame `0xfffffffffffff000` plus the offset `0xfff`. -/
theorem ept_translate_sentinel_while_present :
    (F_READ.get (walk_pml4e env_rwx mem_ones vmm_guest 0xfff) = 1 ∧
     F_WRITE.get (walk_pml4e env_rwx mem_ones vmm_guest 0xfff) = 1 ∧
     F_KERN_EXEC.get (walk_pml4e env_rwx mem_ones vmm_guest 0xfff) = 1 ∧
     walk_pml4e env_rwx mem_ones vmm_guest 0xfff = U64 - 1 ∧
     walk_pdpte env_rwx mem_ones vmm_guest 0xfff = U64 - 1 ∧
     walk_pde env_rwx mem_ones vmm_guest 0xfff = U64 - 1 ∧
     walk_pte env_rwx mem_ones vmm_guest 0xfff = U64 - 1 ∧
     env_rwx.pg_present (U64 - 1) = true ∧
     ept_translate env_rwx mem_ones vmm_guest 0xfff = SENTINEL) ∧
    (walk_pml4e env0 mem_ones vmm_guest 0xfff = U64 - 1 ∧
     walk_pdpte env0 mem_ones vmm_guest 0xfff = U64 - 1 ∧
     walk_pde env0 mem_ones vmm_guest 0xfff = U64 - 1 ∧
     walk_pte env0 mem_ones vmm_guest 0xfff = U64 - 1 ∧
     env0.pg_present (U64 - 1) = true ∧
     ept_translate env0 mem_ones vmm_guest 0xfff = SENTINEL) := by
  decide

/-- The any-of-R/W/X reading of `pg_present` in terms of the three permission
fields. -/
theorem env_rwx_present (e : Nat) :
    env_rwx.pg_present e = true ↔
      (F_READ.get e = 1 ∨ F_WRITE.get e = 1 ∨ F_KERN_EXEC.get e = 1) := by
  have h : e &&& 7 = e % 8 := by
    have := and_low_mask e 3
    norm_num at this
    exact this
  simp only [env_rwx, FieldPos.get, F_READ, F_WRITE, F_KERN_EXEC, get_field, h, bne_iff_ne,
    ne_eq]
  norm_num
  omega

/-- C9, amended. Let `pg_present` be the present test that the spec gives for
the EPT walk: an entry is present when read, write or execute is set.  Then
for every hierarchy and address `a`: if one of the four entries on the walk has
read, write and execute all clear, `ept_translate` returns the sentinel; if
each of the four has at least one of them set (write-only and execute-only
entries included), it returns the leaf with its 12 low bits masked out plus
the 12 low bits of `a`; hence it returns the sentinel exactly when one of the
four entries has all three clear, or the leaf's frame is `0xfffffffffffff000`
and the 12 low bits of `a` are all set. -/
theorem ept_translate_present_semantics (env : PageEnv) (m : Mem) (vmm : Vmm) (a : Nat)
    (hrwx : ∀ e, env.pg_present e = true ↔
      (F_READ.get e = 1 ∨ F_WRITE.get e = 1 ∨ F_KERN_EXEC.get e = 1)) :
    ((∃ e ∈ [walk_pml4e env m vmm a, walk_pdpte env m vmm a, walk_pde env m vmm a,
               walk_pte env m vmm a],
        F_READ.get e = 0 ∧ F_WRITE.get e = 0 ∧ F_KERN_EXEC.get e = 0) →
      ept_translate env m vmm a = SENTINEL) ∧
    ((∀ e ∈ [walk_pml4e env m vmm a, walk_pdpte env m vmm a, walk_pde env m vmm a,
               walk_pte env m vmm a],
        F_READ.get e = 1 ∨ F_WRITE.get e = 1 ∨ F_KERN_EXEC.get e = 1) →
      ept_translate env m vmm a
        = (walk_pte env m vmm a &&& PAGE_MASK) + (a &&& (PAGE_SIZE - 1))) ∧
    (ept_translate env m vmm a = SENTINEL ↔
      ((∃ e ∈ [walk_pml4e env m vmm a, walk_pdpte env m vmm a, walk_pde env m vmm a,
                 walk_pte env m vmm a],
          F_READ.get e = 0 ∧ F_WRITE.get e = 0 ∧ F_KERN_EXEC.get e = 0) ∨
       (walk_pte env m vmm a &&& PAGE_MASK = PAGE_MASK ∧
        a &&& (PAGE_SIZE - 1) = PAGE_SIZE - 1))) := by
  have hclear : ∀ e, (F_READ.get e = 0 ∧ F_WRITE.get e = 0 ∧ F_KERN_EXEC.get e = 0) ↔
      env.pg_present e = false := by
    intro e
    have h := hrwx e
    have b1 : F_READ.get e = 0 ∨ F_READ.get e = 1 := by
      simp only [FieldPos.get, F_READ, get_field]; omega
    have b2 : F_WRITE.get e = 0 ∨ F_WRITE.get e = 1 := by
      simp only [FieldPos.get, F_WRITE, get_field]; omega
    have b3 : F_KERN_EXEC.get e = 0 ∨ F_KERN_EXEC.get e = 1 := by
      simp only [FieldPos.get, F_KERN_EXEC, get_field]; omega
    cases hp : env.pg_present e
    · have hn : ¬ (F_READ.get e = 1 ∨ F_WRITE.get e = 1 ∨ F_KERN_EXEC.get e = 1) := by
        rw [← h, hp]; simp
      constructor
      · intro _; rfl
      · intro _; omega
    · have hy := h.1 hp
      constructor
      · intro hc; omega
      · intro hc; exact absurd hc (by simp)
  have hex : (∃ e ∈ [walk_pml4e env m vmm a, walk_pdpte env m vmm a, walk_pde env m vmm a,
                 walk_pte env m vmm a],
          F_READ.get e = 0 ∧ F_WRITE.get e = 0 ∧ F_KERN_EXEC.get e = 0) ↔
      ¬ (env.pg_present (walk_pml4e env m vmm a) = true ∧
         env.pg_present (walk_pdpte env m vmm a) = true ∧
         env.pg_present (walk_pde env m vmm a) = true ∧
         env.pg_present (walk_pte env m vmm a) = true) := by
    simp only [List.mem_cons, List.mem_singleton, List.not_mem_nil, or_false, exists_eq_or_imp,
      exists_eq_left, hclear]
    cases env.pg_present (walk_pml4e env m vmm a) <;>
      cases env.pg_present (walk_pdpte env m vmm a) <;>
      cases env.pg_present (walk_pde env m vmm a) <;>
      cases env.pg_present (walk_pte env m vmm a) <;> simp
  have hall : (∀ e ∈ [walk_pml4e env m vmm a, walk_pdpte env m vmm a, walk_pde env m vmm a,
                 walk_pte env m vmm a],
          F_READ.get e = 1 ∨ F_WRITE.get e = 1 ∨ F_KERN_EXEC.get e = 1) ↔
      (env.pg_present (walk_pml4e env m vmm a) = true ∧
       env.pg_present (walk_pdpte env m vmm a) = true ∧
       env.pg_present (walk_pde env m vmm a) = true ∧
       env.pg_present (walk_pte env m vmm a) = true) := by
    simp only [List.mem_cons, List.mem_singleton, List.not_mem_nil, or_false,
      forall_eq_or_imp, forall_eq, ← hrwx]
  have hlow : a &&& (PAGE_SIZE - 1) = a % 4096 := by
    rw [PAGE_SIZE_val]; exact and_4095 a
  have hle : walk_pte env m vmm a &&& PAGE_MASK ≤ 18446744073709547520 := by
    have := @Nat.and_le_right (walk_pte env m vmm a) PAGE_MASK
    rw [PAGE_MASK_val] at this ⊢
    exact this
  rw [hex, hall, hlow, ept_translate_eq]
  by_cases h : env.pg_present (walk_pml4e env m vmm a) = true ∧
      env.pg_present (walk_pdpte env m vmm a) = true ∧
      env.pg_present (walk_pde env m vmm a) = true ∧
      env.pg_present (walk_pte env m vmm a) = true
  · simp only [h, and_self, if_true, not_true_eq_false, false_or, false_implies, true_and,
      forall_const, true_implies]
    rw [PAGE_SIZE_val, PAGE_MASK_val] at *
    unfold SENTINEL U64
    constructor
    · intro h1; omega
    · intro h1; omega
  · simp [h]

/-- Witness for the amended C9, in the hierarchy of `mem_single_perm`: `0x1234`
is reached through an execute-only, a write-only and a read-only entry and has
an execute-only leaf, and translates to itself; `0x234` has a leaf with read,
write and execute clear and translates to the sentinel. -/
theorem ept_translate_present_semantics_witness :
    ept_translate env_rwx mem_single_perm vmm_guest 0x1234
      = (walk_pte env_rwx mem_single_perm vmm_guest 0x1234 &&& PAGE_MASK)
          + (0x1234 &&& (PAGE_SIZE - 1)) ∧
    ept_translate env_rwx mem_single_perm vmm_guest 0x1234 = 0x1234 ∧
    ept_translate env_rwx mem_single_perm vmm_guest 0x234 = SENTINEL :=
  ⟨(ept_translate_present_semantics env_rwx mem_single_perm vmm_guest 0x1234
      env_rwx_present).2.1 (by decide),
   by decide,
   (ept_translate_present_semantics env_rwx mem_single_perm vmm_guest 0x234
      env_rwx_present).1 (by decide)⟩

/-! ## Stale table pages (C2) and the two readings of the present test -/

/-- The any-of-R/W/X reading of `pg_present` accepts every entry with the low
bit set. -/
theorem env_rwx_present_odd (e : Nat) (h : e % 2 = 1) : env_rwx.pg_present e = true := by
  have h7 : e &&& 7 = e % 8 := by
    have := and_low_mask e 3
    norm_num at this
    exact this
  simp only [env_rwx, h7, bne_iff_ne, ne_eq]
  omega

/-- The blocks of `pa4` are well formed for every environment whose linear map
has offset 0 and whose present test accepts entries with the low bit set and
rejects the zero entry, whatever memory holds. -/
theorem alloc_ctx_pa4 (env : PageEnv) (w : World) (he : env.phys_offset = 0)
    (hpg1 : ∀ e, e % 2 = 1 → env.pg_present e = true) (hpg0 : env.pg_present 0 = false)
    (hw : w.pa = pa4) (n : Nat) (hn : n ≤ 512) :
    AllocCtx env w 0x100000 0x101000 0x102000 0x200000 n := by
  have hv : ∀ p, p < 18446744073709551616 → virt_to_phys env p = p := by
    intro p hp
    unfold virt_to_phys U64
    rw [he]
    omega
  exact
    { hoff := by rw [he]
      hpg1 := hpg1
      hpg0 := hpg0
      hscript := ⟨[], by rw [hw]; rfl⟩
      b1 := ⟨by decide, by decide, by decide, by rw [hv _ (by norm_num)]; norm_num⟩
      b2 := ⟨by decide, by decide, by decide, by rw [hv _ (by norm_num)]; norm_num⟩
      b3 := ⟨by decide, by decide, by decide, by rw [hv _ (by norm_num)]; norm_num⟩
      b4 := ⟨by decide, by decide, by omega, by rw [hv _ (by norm_num)]; omega⟩
      s12 := by unfold sep; omega
      s13 := by unfold sep; omega
      s14 := by unfold sep; omega
      s23 := by unfold sep; omega
      s24 := by unfold sep; omega
      s34 := by unfold sep; omega }

/-- Frame of an accepted single-directory build: a word outside the four table
blocks keeps its old contents. -/
theorem built_mem_outside {env : PageEnv} {w : World} {S E G p1 p2 p3 p4 n : Nat}
    (H : BuildCtx env w S E G p1 p2 p3 p4 n) (x : Nat)
    (h1 : x < p1 ∨ p1 + 4096 ≤ x) (h2 : x < p2 ∨ p2 + 4096 ≤ x)
    (h3 : x < p3 ∨ p3 + 4096 ≤ x) (h4 : x < p4 ∨ p4 + n * 4096 ≤ x) :
    built_mem env w S G p1 p2 p3 p4 n x = w.mem x := by
  have C := H.pdctx
  unfold built_mem
  rw [ept_pd_loop_frame env p3 p4 n _ (by unfold U64; exact C.hpd)
    (by unfold U64; exact C.hptb) h3 _ _ _ (by omega)]
  simp only [pre_loop_mem]
  rw [write64_other _ _ _ _ (by omega), memset0_out _ _ _ _ (by omega),
    memset0_out _ _ _ _ (by omega), write64_other _ _ _ _ (by omega)]

/-- The configuration of `setup_ept` over the host range
`[0x200000000, 0x20C800000)`, in a world with the allocator `pa4`. -/
theorem build_ctx_200m (env : PageEnv) (w : World) (he : env.phys_offset = 0)
    (hpg1 : ∀ e, e % 2 = 1 → env.pg_present e = true) (hpg0 : env.pg_present 0 = false)
    (hw : w.pa = pa4) :
    BuildCtx env w 0x200000000 0x20C800000 0 0x100000 0x101000 0x102000 0x200000 100 :=
  setup_ept_ctx (S := 0x200000000) (alloc_ctx_pa4 env w he hpg1 hpg0 hw 100 (by norm_num))
    (by norm_num)

/-- The configuration of `setup_ept` over memory that holds the stale word
`0xfff0000000000000` everywhere, for a present test that rejects that word:
the build returns 0, PML4 entry 0 keeps the stale bits 52..63, the PDPT entry
of the walk of `0x00123000` is read outside the PDPT page, and the walk
returns the sentinel. -/
theorem stale_pml4_walk (env : PageEnv) (he : env.phys_offset = 0)
    (hpg1 : ∀ e, e % 2 = 1 → env.pg_present e = true) (hpg0 : env.pg_present 0 = false)
    (hst : env.pg_present 0xfff0000000000000 = false) :
    (ept_setup_range env w_stale_hi 0x200000000 0x20C800000 0).1 = 0 ∧
    (ept_setup_range env w_stale_hi 0x200000000 0x20C800000 0).2.mem 0x100000
      = 0xfff0000000101007 ∧
    walk_pml4e env (ept_setup_range env w_stale_hi 0x200000000 0x20C800000 0).2.mem
      (ept_setup_range env w_stale_hi 0x200000000 0x20C800000 0).2.vmm 0x00123000
      = 0xfff0000000101007 ∧
    walk_pdpte env (ept_setup_range env w_stale_hi 0x200000000 0x20C800000 0).2.mem
      (ept_setup_range env w_stale_hi 0x200000000 0x20C800000 0).2.vmm 0x00123000
      = w_stale_hi.mem 0xfff0000000101000 ∧
    ept_translate env (ept_setup_range env w_stale_hi 0x200000000 0x20C800000 0).2.mem
      (ept_setup_range env w_stale_hi 0x200000000 0x20C800000 0).2.vmm 0x00123000
      = SENTINEL := by
  have H := build_ctx_200m env w_stale_hi he hpg1 hpg0 rfl
  obtain ⟨hr, hm, hv⟩ := ept_setup_range_built H
  have hvp : virt_to_phys env 0x101000 = 0x101000 := by
    unfold virt_to_phys U64
    rw [he]
  have e1 : built_mem env w_stale_hi 0x200000000 0 0x100000 0x101000 0x102000 0x200000 100
      0x100000 = 0xfff0000000101007 := by
    have h := built_mem_pml4 H 0 (by norm_num)
    rw [if_pos (by norm_num)] at h
    rw [show (0x100000 : Nat) = 0x100000 + 8 * 0 from rfl, h, hvp]
    decide
  have w1 : walk_pml4e env
      (built_mem env w_stale_hi 0x200000000 0 0x100000 0x101000 0x102000 0x200000 100)
      { w_stale_hi.vmm with eptp := setup_eptp env 0x100000 } 0x00123000
      = 0xfff0000000101007 := by
    rw [walk_pml4e_built H 0x00123000,
      show (0x100000 : Nat) + 8 * (0x00123000 / 549755813888 % 512) = 0x100000 from by norm_num,
      e1]
  have hsl : slot (phys_to_virt env (0xfff0000000101007 &&& PAGE_MASK))
      (pud_offset 0x00123000) = 0xfff0000000101000 := by
    unfold phys_to_virt
    rw [he]
    decide
  have w2 : walk_pdpte env
      (built_mem env w_stale_hi 0x200000000 0 0x100000 0x101000 0x102000 0x200000 100)
      { w_stale_hi.vmm with eptp := setup_eptp env 0x100000 } 0x00123000
      = w_stale_hi.mem 0xfff0000000101000 := by
    unfold walk_pdpte
    rw [w1, hsl]
    exact built_mem_outside H _ (by norm_num) (by norm_num) (by norm_num) (by norm_num)
  refine ⟨hr, ?_, ?_, ?_, ?_⟩
  · rw [hm, e1]
  · rw [hm, hv, w1]
  · rw [hm, hv, w2]
  · rw [hm, hv]
    apply ept_translate_np2
    rw [w2]
    exact hst

/-- The configuration of `setup_ept` over zero-filled memory maps
`0x00123000` to `0x200123000`. -/
theorem clean_pml4_walk (env : PageEnv) (he : env.phys_offset = 0)
    (hpg1 : ∀ e, e % 2 = 1 → env.pg_present e = true) (hpg0 : env.pg_present 0 = false) :
    ept_translate env (ept_setup_range env w4 0x200000000 0x20C800000 0).2.mem
      (ept_setup_range env w4 0x200000000 0x20C800000 0).2.vmm 0x00123000
      = 0x200123000 := by
  have H0 := build_ctx_200m env w4 he hpg1 hpg0 rfl
  obtain ⟨-, hm0, hv0⟩ := ept_setup_range_built H0
  rw [hm0, hv0]
  have h := ept_translate_built H0 (by decide) (by decide) (by norm_num) (by norm_num)
    (by norm_num) (by norm_num) 0 0x123000 (by norm_num) (by norm_num)
  simpa using h

/-- C2 fails on the code when the allocator hands out a PML4 page with stale
contents, because `ept_setup_range` zeroes the page directory and the page
tables but not the PML4 and PDPT pages.  For the configuration of `setup_ept`
over the host range `[0x200000000, 0x20C800000)` at guest 0, with every word of
memory holding `0xfff0000000000000` beforehand: the build returns 0; the
bit-field stores of `ept_init_default` keep bits 52..63 of the old word, so
PML4 entry 0 becomes `0xfff0000000101007`; the walk of `0x00123000` masks it to
`0xfff0000000101000`, reads its PDPT entry there instead of in the PDPT page at
`0x101000`, finds read, write and execute clear and returns the sentinel, not
`0x200123000`.  Over zero-filled memory the same build maps that address.  The
same holds under the any-of-R/W/X reading of `pg_present`. -/
theorem setup_ept_range_stale_unmapped :
    ((ept_setup_range env0 w_stale_hi 0x200000000 0x20C800000 0).1 = 0 ∧
     (ept_setup_range env0 w_stale_hi 0x200000000 0x20C800000 0).2.mem 0x100000
       = 0xfff0000000101007 ∧
     walk_pml4e env0 (ept_setup_range env0 w_stale_hi 0x200000000 0x20C800000 0).2.mem
       (ept_setup_range env0 w_stale_hi 0x200000000 0x20C800000 0).2.vmm 0x00123000
       = 0xfff0000000101007 ∧
     walk_pdpte env0 (ept_setup_range env0 w_stale_hi 0x200000000 0x20C800000 0).2.mem
       (ept_setup_range env0 w_stale_hi 0x200000000 0x20C800000 0).2.vmm 0x00123000
       = w_stale_hi.mem 0xfff0000000101000 ∧
     ept_translate env0 (ept_setup_range env0 w_stale_hi 0x200000000 0x20C800000 0).2.mem
       (ept_setup_range env0 w_stale_hi 0x200000000 0x20C800000 0).2.vmm 0x00123000
       = SENTINEL) ∧
    ept_translate env0 (ept_setup_range env0 w4 0x200000000 0x20C800000 0).2.mem
      (ept_setup_range env0 w4 0x200000000 0x20C800000 0).2.vmm 0x00123000
      = 0x200123000 ∧
    (0x200123000 : Nat) ≠ SENTINEL ∧
    (ept_setup_range env_rwx w_stale_hi 0x200000000 0x20C800000 0).1 = 0 ∧
    ept_translate env_rwx (ept_setup_range env_rwx w_stale_hi 0x200000000 0x20C800000 0).2.mem
      (ept_setup_range env_rwx w_stale_hi 0x200000000 0x20C800000 0).2.vmm 0x00123000
      = SENTINEL ∧
    ept_translate env_rwx (ept_setup_range env_rwx w4 0x200000000 0x20C800000 0).2.mem
      (ept_setup_range env_rwx w4 0x200000000 0x20C800000 0).2.vmm 0x00123000
      = 0x200123000 := by
  have h0 := stale_pml4_walk env0 rfl env0_present_odd (by decide) (by decide)
  have h1 := stale_pml4_walk env_rwx rfl env_rwx_present_odd (by decide) (by decide)
  exact ⟨h0, clean_pml4_walk env0 rfl env0_present_odd (by decide), by decide, h1.1,
    h1.2.2.2.2, clean_pml4_walk env_rwx rfl env_rwx_present_odd (by decide)⟩

/-- The reliance of the out-of-range sentinel on zeroed PML4 and PDPT pages:
the 4 KiB range `[0x200000000, 0x200001000)` at guest `0x3ffff000` is accepted
and maps `G`; over zero-filled pages `G + (E - S) = 0x40000000` translates to
the sentinel, while over pages with stale contents the PDPT entry 1 that the
builder never wrote is followed and the result is `0x105000`. -/
theorem ept_translate_stale_pdpt :
    (ept_setup_range env0 w_stale 0x200000000 0x200001000 0x3ffff000).1 = 0 ∧
    ept_translate env0 (ept_setup_range env0 w_stale 0x200000000 0x200001000 0x3ffff000).2.mem
      (ept_setup_range env0 w_stale 0x200000000 0x200001000 0x3ffff000).2.vmm
      0x3ffff000 = 0x200000000 ∧
    ept_translate env0 (ept_setup_range env0 w_stale 0x200000000 0x200001000 0x3ffff000).2.mem
      (ept_setup_range env0 w_stale 0x200000000 0x200001000 0x3ffff000).2.vmm
      (0x3ffff000 + (0x200001000 - 0x200000000)) = 0x105000 ∧
    ept_translate env0 (ept_setup_range env0 w4 0x200000000 0x200001000 0x3ffff000).2.mem
      (ept_setup_range env0 w4 0x200000000 0x200001000 0x3ffff000).2.vmm
      (0x3ffff000 + (0x200001000 - 0x200000000)) = SENTINEL := by
  decide

/-- What the present test decides for a write-only leaf: with the low-bit
reading of `pg_present` the walk of `0x1234` returns the sentinel, with the
any-of-R/W/X reading it returns `0x1234`. -/
theorem ept_translate_write_only_leaf :
    walk_pte env0 mem_write_only vmm_guest 0x1234 = 0x1002 ∧
    ept_translate env0 mem_write_only vmm_guest 0x1234 = SENTINEL ∧
    ept_translate env_rwx mem_write_only vmm_guest 0x1234 = 0x1234 := by
  decide

/-! ## The control regions and the revision identifier (C11) -/

/-- The `u64` difference of `S` and `S + d`, taken on `u64`, is `d`. -/
theorem mmap_size_add (S d : Nat) (hd : d < U64) :
    mmap_size S ((S + d) % U64) = d := by
  unfold mmap_size; unfold U64 at *
  omega

/-- The build that `setup_ept` asks for, 100 huge pages at guest-physical 0,
with an allocator that answers the four requests with blocks inside the
address space: it is accepted, and nothing outside the four blocks is
written. -/
theorem ept_setup_range_200m (env : PageEnv) (w : World) (S p1 p2 p3 p4 : Nat)
    (rest : List Nat)
    (hscript : w.pa.script = p1 :: p2 :: p3 :: p4 :: rest)
    (n1 : p1 ≠ NULL) (n2 : p2 ≠ NULL) (n3 : p3 ≠ NULL) (n4 : p4 ≠ NULL)
    (i1 : p1 + 4096 ≤ 18446744073709551616) (i2 : p2 + 4096 ≤ 18446744073709551616)
    (i3 : p3 + 4096 ≤ 18446744073709551616)
    (i4 : p4 + 100 * 4096 ≤ 18446744073709551616) :
    (ept_setup_range env w S ((S + 100 * HUGE_PAGE_SIZE) % U64) 0).1 = 0 ∧
    (ept_setup_range env w S ((S + 100 * HUGE_PAGE_SIZE) % U64) 0).2.pa =
      { script := rest,
        live := (ResKind.page, p4, 100) :: (ResKind.page, p3, 1) :: (ResKind.page, p2, 1) ::
                  (ResKind.page, p1, 1) :: w.pa.live,
        alloc_calls := w.pa.alloc_calls + 4,
        release_calls := w.pa.release_calls } ∧
    (ept_setup_range env w S ((S + 100 * HUGE_PAGE_SIZE) % U64) 0).2.vmm =
      { w.vmm with eptp := setup_eptp env p1 } ∧
    ∀ x, (x < p1 ∨ p1 + 4096 ≤ x) → (x < p2 ∨ p2 + 4096 ≤ x) →
      (x < p3 ∨ p3 + 4096 ≤ x) → (x < p4 ∨ p4 + 100 * 4096 ≤ x) →
      (ept_setup_range env w S ((S + 100 * HUGE_PAGE_SIZE) % U64) 0).2.mem x = w.mem x := by
  have hm : mmap_size S ((S + 100 * HUGE_PAGE_SIZE) % U64) = 209715200 :=
    mmap_size_add S _ (by decide)
  have hpd : needed_paging_structs 209715200 (GB 1) = 1 := by decide
  have hpt : needed_paging_structs 209715200 (MB 2) = 100 := by decide
  have h512 : ¬ (209715200 > GB 512) := by decide
  have hpud : ¬ (0 + 1 ≥ 512) := by decide
  have hpg : pgd_offset 0 = 0 := by decide
  have hpu : pud_offset 0 = 0 := by decide
  have e1 : slot p1 0 = p1 := by
    rw [slot_eq _ _ (by unfold U64; omega)]; omega
  have e2 : slot p2 0 = p2 := by
    rw [slot_eq _ _ (by unfold U64; omega)]; omega
  have e4 : (p3 + 0 * 4096) % U64 = p3 := by
    rw [Nat.zero_mul, Nat.add_zero]; apply Nat.mod_eq_of_lt
    unfold U64; omega
  have key : ept_setup_range env w S ((S + 100 * HUGE_PAGE_SIZE) % U64) 0 =
      (0, { vmm := { w.vmm with eptp := setup_eptp env p1 },
            mem := (ept_pd_loop env p3 p4 100 512 0
                     { mem := pre_loop_mem env w 0 p1 p2 p3 p4 100,
                       host_start := S, guest_start := 0 }).mem,
            pa := (alloc_pages (alloc_pages (alloc_page (alloc_page w.pa).2).2 1).2 100).2 }) := by
    unfold ept_setup_range
    simp only [hm, h512, if_false, alloc_page, alloc_pages, alloc_block, hscript, n1, n2, n3, n4,
      hpd, hpt, hpud, hpg, hpu, e1, e2, ept_pdpt_loop, Nat.lt_one_iff, if_true, e4, pre_loop_mem,
      PAGE_SIZE_val, Nat.one_mul, EPT_PTRS_val, Nat.zero_div, Nat.zero_mod, Nat.mul_zero,
      Nat.add_zero]
  rw [key]
  refine ⟨rfl, ?_, rfl, ?_⟩
  · simp [alloc_page, alloc_pages, alloc_block, hscript, n1, n2, n3, n4]
  · intro x h1 h2 h3 h4
    simp only []
    rw [ept_pd_loop_frame env p3 p4 100 x (by unfold U64; omega) (by unfold U64; omega) h3
      512 0 _ (by omega)]
    simp only [pre_loop_mem, Nat.zero_div, Nat.zero_mod, Nat.mul_zero, Nat.add_zero]
    rw [write64_other _ _ _ _ (by omega), memset0_out _ _ _ _ (by omega),
      memset0_out _ _ _ _ (by omega), write64_other _ _ _ _ (by omega)]

/-- The accepted path of `setup_ept`: the allocator state afterwards, the
fields of the VMM record it leaves alone, and the frame: nothing outside the
four table blocks is written. -/
theorem setup_ept_ok (env : PageEnv) (w : World) (h p1 p2 p3 p4 : Nat) (rest : List Nat)
    (hscript : w.pa.script = h :: p1 :: p2 :: p3 :: p4 :: rest)
    (nh : h ≠ NULL) (n1 : p1 ≠ NULL) (n2 : p2 ≠ NULL) (n3 : p3 ≠ NULL) (n4 : p4 ≠ NULL)
    (i1 : p1 + 4096 ≤ 18446744073709551616) (i2 : p2 + 4096 ≤ 18446744073709551616)
    (i3 : p3 + 4096 ≤ 18446744073709551616)
    (i4 : p4 + 100 * 4096 ≤ 18446744073709551616) :
    (setup_ept env w).1 = 0 ∧
    (setup_ept env w).2.pa =
      { script := rest,
        live := (ResKind.page, p4, 100) :: (ResKind.page, p3, 1) :: (ResKind.page, p2, 1) ::
                  (ResKind.page, p1, 1) :: (ResKind.huge, h, 100) :: w.pa.live,
        alloc_calls := w.pa.alloc_calls + 5,
        release_calls := w.pa.release_calls } ∧
    (setup_ept env w).2.vmm.vmx_on = w.vmm.vmx_on ∧
    (setup_ept env w).2.vmm.vmcs = w.vmm.vmcs ∧
    (setup_ept env w).2.vmm.host_state = w.vmm.host_state ∧
    ∀ x, (x < p1 ∨ p1 + 4096 ≤ x) → (x < p2 ∨ p2 + 4096 ≤ x) →
      (x < p3 ∨ p3 + 4096 ≤ x) → (x < p4 ∨ p4 + 100 * 4096 ≤ x) →
      (setup_ept env w).2.mem x = w.mem x := by
  have hr1 : (alloc_huge_pages w.pa 100).1 = h := by
    simp [alloc_huge_pages, alloc_block, hscript, nh]
  have hr2 : (alloc_huge_pages w.pa 100).2 =
      { script := p1 :: p2 :: p3 :: p4 :: rest, live := (ResKind.huge, h, 100) :: w.pa.live,
        alloc_calls := w.pa.alloc_calls + 1, release_calls := w.pa.release_calls } := by
    simp [alloc_huge_pages, alloc_block, hscript, nh]
  obtain ⟨k1, k2, k3, k4⟩ := ept_setup_range_200m env
    { vmm := w.vmm, mem := w.mem, pa := (alloc_huge_pages w.pa 100).2 }
    (virt_to_phys env (alloc_huge_pages w.pa 100).1) p1 p2 p3 p4 rest
    (by rw [hr2]) n1 n2 n3 n4 i1 i2 i3 i4
  have hne : ¬ ((alloc_huge_pages w.pa 100).1 = NULL) := by rw [hr1]; exact nh
  unfold setup_ept
  simp only [hne, if_false, k1, ne_eq, not_true_eq_false]
  refine ⟨trivial, ?_, ?_, ?_, ?_, ?_⟩
  · rw [k2, hr2]
  · rw [k3]
  · rw [k3]
  · rw [k3]
  · intro x h1 h2 h3 h4
    exact k4 x h1 h2 h3 h4

/-- The accepted path of `alloc_vmcs`. -/
theorem alloc_vmcs_ok (w : World) (v : Nat) (rest : List Nat)
    (hscript : w.pa.script = v :: rest) (nv : v ≠ NULL)
    (iv : v + 8192 ≤ 18446744073709551616) :
    (alloc_vmcs w).1 = 0 ∧
    (alloc_vmcs w).2.pa =
      { script := rest, live := (ResKind.page, v, 2) :: w.pa.live,
        alloc_calls := w.pa.alloc_calls + 1, release_calls := w.pa.release_calls } ∧
    (alloc_vmcs w).2.vmm = { w.vmm with vmx_on := v, vmcs := v + 4096 } ∧
    (alloc_vmcs w).2.mem = memset0 w.mem v 8192 := by
  have hmod : (v + 4096) % U64 = v + 4096 := Nat.mod_eq_of_lt (by unfold U64; omega)
  simp [alloc_vmcs, alloc_pages, alloc_block, hscript, nv, VMCS_NB_PAGES, PAGE_SIZE_val, hmod]

/-- The accepted path of `vmcs_get_host_state`. -/
theorem vmcs_get_host_state_ok (P : Platform) (m : Machine) (s : Nat) (rest : List Nat)
    (hscript : m.w.pa.script = s :: rest) (ns : s ≠ NULL) :
    (vmcs_get_host_state P m).1 = 0 ∧
    (vmcs_get_host_state P m).2.w.pa =
      { script := rest, live := (ResKind.heap, s, 4096) :: m.w.pa.live,
        alloc_calls := m.w.pa.alloc_calls + 1, release_calls := m.w.pa.release_calls } ∧
    (vmcs_get_host_state P m).2.w.vmm.vmx_on = m.w.vmm.vmx_on ∧
    (vmcs_get_host_state P m).2.w.vmm.vmcs = m.w.vmm.vmcs ∧
    (vmcs_get_host_state P m).2.w.vmm.host_state.rsp = (s + 4064) % 18446744073709551616 ∧
    (vmcs_get_host_state P m).2.w.mem = m.w.mem ∧
    (vmcs_get_host_state P m).2.trace = m.trace := by
  have hst : VM_EXIT_STACK_SIZE = 4064 := by decide
  simp [vmcs_get_host_state, kmalloc, alloc_block, hscript, ns, PAGE_SIZE_val, hst, U64]

/-- The accepted path of `init_msr_bitmap`. -/
theorem init_msr_bitmap_ok (w : World) (b : Nat) (rest : List Nat)
    (hscript : w.pa.script = b :: rest) (nb : b ≠ NULL) :
    (init_msr_bitmap w).1 = 0 ∧
    (init_msr_bitmap w).2.pa =
      { script := rest, live := (ResKind.page, b, 1) :: w.pa.live,
        alloc_calls := w.pa.alloc_calls + 1, release_calls := w.pa.release_calls } ∧
    (init_msr_bitmap w).2.vmm = { w.vmm with msr_bitmap := b } ∧
    (init_msr_bitmap w).2.mem = memset0 w.mem b 4096 := by
  have hsz : MSR_ALL_BITMAP_SZ = 4096 := by decide
  simp [init_msr_bitmap, alloc_page, alloc_pages, alloc_block, hscript, nb, hsz]

/-- The revision identifier that `vmm_init` computes from the cached
VMX-basic MSR is the low 31 bits of the MSR. -/
theorem rev_id_eq (P : Platform) (vmm : Vmm) :
    ((vmm_read_vmx_msrs P vmm).vmx_msr.getD (VMM_IDX MSR_VMX_BASIC) 0 &&& 0x7fffffff) % 2 ^ 32 =
      P.rdmsr MSR_VMX_BASIC &&& 0x7fffffff := by
  have h0 : (vmm_read_vmx_msrs P vmm).vmx_msr.getD (VMM_IDX MSR_VMX_BASIC) 0 =
      P.rdmsr MSR_VMX_BASIC % U64 := rfl
  have hmask : (0x7fffffff : Nat) = 2 ^ 31 - 1 := by norm_num
  rw [h0, hmask, and_low_mask, and_low_mask]
  unfold U64
  omega

/-- The state in which `vmm_init` executes `__vmxon`, when the eight
allocations succeed with blocks that do not overlap the two VMCS pages and the
callbacks leave those pages and the two pointers alone: the two control
regions are the pages at `v` and `v + 4096`, their first word is the revision
identifier and every other word is zero. -/
theorem vmm_init_prologue_ok (env : PageEnv) (P : Platform) (m0 : Machine)
    (v s h p1 p2 p3 p4 b : Nat) (rest : List Nat)
    (hscript : m0.w.pa.script = v :: s :: h :: p1 :: p2 :: p3 :: p4 :: b :: rest)
    (nv : v ≠ NULL) (ns : s ≠ NULL) (nh : h ≠ NULL) (n1 : p1 ≠ NULL) (n2 : p2 ≠ NULL)
    (n3 : p3 ≠ NULL) (n4 : p4 ≠ NULL) (nb : b ≠ NULL)
    (iv : v + 8192 ≤ 18446744073709551616) (is : s + 4096 ≤ 18446744073709551616)
    (i1 : p1 + 4096 ≤ 18446744073709551616) (i2 : p2 + 4096 ≤ 18446744073709551616)
    (i3 : p3 + 4096 ≤ 18446744073709551616)
    (i4 : p4 + 100 * 4096 ≤ 18446744073709551616)
    (ds : s + 4096 ≤ v ∨ v + 8192 ≤ s)
    (d1 : p1 + 4096 ≤ v ∨ v + 8192 ≤ p1) (d2 : p2 + 4096 ≤ v ∨ v + 8192 ≤ p2)
    (d3 : p3 + 4096 ≤ v ∨ v + 8192 ≤ p3) (d4 : p4 + 100 * 4096 ≤ v ∨ v + 8192 ≤ p4)
    (db : b + 4096 ≤ v ∨ v + 8192 ≤ b)
    (hguest : ∀ w, (P.setup_guest w).vmm.vmx_on = w.vmm.vmx_on ∧
      (P.setup_guest w).vmm.vmcs = w.vmm.vmcs ∧
      ∀ x, v ≤ x → x < v + 8192 → (P.setup_guest w).mem x = w.mem x)
    (hexit : ∀ w, (P.init_vm_exit_handlers w).vmm.vmx_on = w.vmm.vmx_on ∧
      (P.init_vm_exit_handlers w).vmm.vmcs = w.vmm.vmcs ∧
      ∀ x, v ≤ x → x < v + 8192 → (P.init_vm_exit_handlers w).mem x = w.mem x) :
    ∃ m, vmm_init_prologue env P m0 = Sum.inr m ∧
      m.w.vmm.vmx_on = v ∧ m.w.vmm.vmcs = v + 4096 ∧
      ∀ x, v ≤ x → x < v + 8192 →
        m.w.mem x = if x = v ∨ x = v + 4096
          then set_field 0 0 32 (P.rdmsr MSR_VMX_BASIC &&& 0x7fffffff) else 0 := by
  have hrsp : (s + 4064) % 18446744073709551616 = s + 4064 := by omega
  have q0 : v ≠ v + 4096 := by omega
  have q1 : v ≤ v ∧ v < v + 8192 := by omega
  have q2 : v ≤ v + 4096 ∧ v + 4096 < v + 8192 := by omega
  have qs : ∀ x, v ≤ x → x < v + 8192 → x ≠ s + 4064 := by intro x _ _; omega
  have qp1 : ∀ x, v ≤ x → x < v + 8192 → (x < p1 ∨ p1 + 4096 ≤ x) := by intro x _ _; omega
  have qp2 : ∀ x, v ≤ x → x < v + 8192 → (x < p2 ∨ p2 + 4096 ≤ x) := by intro x _ _; omega
  have qp3 : ∀ x, v ≤ x → x < v + 8192 → (x < p3 ∨ p3 + 4096 ≤ x) := by intro x _ _; omega
  have qp4 : ∀ x, v ≤ x → x < v + 8192 → (x < p4 ∨ p4 + 100 * 4096 ≤ x) := by
    intro x _ _; omega
  have qb : ∀ x, v ≤ x → x < v + 8192 → (x < b ∨ b + 4096 ≤ x) := by intro x _ _; omega
  unfold vmm_init_prologue
  lift_lets
  extract_lets s0 w1 r vmm rev_id mem1 mem2 cr0 cr4 s1 m2 r1 s2 m3 r2 r3
  -- the MSR cache
  have hw1s : w1.pa.script = v :: s :: h :: p1 :: p2 :: p3 :: p4 :: b :: rest := hscript
  have hw1m : w1.vmm.vmx_msr = (vmm_read_vmx_msrs P m0.w.vmm).vmx_msr := rfl
  clear_value w1 s0
  -- alloc_vmcs
  have A : r.1 = 0 ∧ r.2.pa.script = s :: h :: p1 :: p2 :: p3 :: p4 :: b :: rest ∧
      r.2.vmm.vmx_on = v ∧ r.2.vmm.vmcs = v + 4096 ∧ r.2.vmm.vmx_msr = w1.vmm.vmx_msr ∧
      ∀ y, v ≤ y → y < v + 8192 → r.2.mem y = 0 := by
    obtain ⟨a1, a2, a3, a4⟩ := alloc_vmcs_ok w1 v _ hw1s nv iv
    refine ⟨a1, by rw [a2], by rw [a3], by rw [a3], by rw [a3], ?_⟩
    intro y hy1 hy2
    show (alloc_vmcs w1).2.mem y = 0
    rw [a4, memset0_in _ _ _ _ hy1 hy2]
  clear_value r
  obtain ⟨a1, a2, a3, a4, a5, a6⟩ := A
  -- the stamp
  have hvon : vmm.vmx_on = v := a3
  have hvcs : vmm.vmcs = v + 4096 := a4
  have hrev : rev_id = P.rdmsr MSR_VMX_BASIC &&& 0x7fffffff := by
    show (vmm.vmx_msr.getD (VMM_IDX MSR_VMX_BASIC) 0 &&& 0x7fffffff) % 2 ^ 32 = _
    rw [show vmm.vmx_msr = (vmm_read_vmx_msrs P m0.w.vmm).vmx_msr from a5.trans hw1m]
    exact rev_id_eq P m0.w.vmm
  have hmem2 : ∀ x, v ≤ x → x < v + 8192 →
      mem2 x = if x = v ∨ x = v + 4096 then set_field 0 0 32 rev_id else 0 := by
    intro x hx1 hx2
    show write32 (write32 r.2.mem vmm.vmcs rev_id) vmm.vmx_on rev_id x = _
    rw [hvon, hvcs]
    unfold write32
    by_cases e1 : x = v
    · subst e1
      rw [write64_same, write64_other _ _ _ _ q0, a6 _ q1.1 q1.2]
      simp
    · rw [write64_other _ _ _ _ e1]
      by_cases e2 : x = v + 4096
      · subst e2
        rw [write64_same, a6 _ q2.1 q2.2]
        simp
      · rw [write64_other _ _ _ _ e2, a6 _ hx1 hx2]
        simp [e1, e2]
  have hm2 : m2.w.pa.script = s :: h :: p1 :: p2 :: p3 :: p4 :: b :: rest ∧
      m2.w.vmm.vmx_on = v ∧ m2.w.vmm.vmcs = v + 4096 ∧ m2.w.mem = mem2 :=
    ⟨a2, a3, a4, rfl⟩
  clear_value vmm rev_id mem1 mem2 cr0 cr4 m2 s1
  obtain ⟨g1, g2, g3, g4⟩ := hm2
  -- vmcs_get_host_state, host_set_stack_ctx
  have B : r1.1 = 0 ∧ r1.2.w.pa.script = h :: p1 :: p2 :: p3 :: p4 :: b :: rest ∧
      r1.2.w.vmm.vmx_on = v ∧ r1.2.w.vmm.vmcs = v + 4096 ∧
      r1.2.w.vmm.host_state.rsp = s + 4064 ∧ r1.2.w.mem = mem2 := by
    obtain ⟨b1, b2, b3, b4, b5, b6, -⟩ := vmcs_get_host_state_ok P m2 s _ g1 ns
    exact ⟨b1, by rw [b2], b3.trans g2, b4.trans g3, b5.trans hrsp, b6.trans g4⟩
  clear_value r1
  obtain ⟨b1, b2, b3, b4, b5, b6⟩ := B
  have hm3 : m3.w.pa.script = h :: p1 :: p2 :: p3 :: p4 :: b :: rest ∧
      m3.w.vmm.vmx_on = v ∧ m3.w.vmm.vmcs = v + 4096 ∧
      ∀ x, v ≤ x → x < v + 8192 → m3.w.mem x = mem2 x := by
    refine ⟨b2, b3, b4, ?_⟩
    intro x hx1 hx2
    show write64 r1.2.w.mem r1.2.w.vmm.host_state.rsp P.vmm_ptr x = _
    rw [b5, b6, write64_other _ _ _ _ (qs x hx1 hx2)]
  clear_value m3 s2
  obtain ⟨k1, k2, k3, k4⟩ := hm3
  -- setup_ept
  have E : r2.1 = 0 ∧ r2.2.pa.script = b :: rest ∧ r2.2.vmm.vmx_on = v ∧
      r2.2.vmm.vmcs = v + 4096 ∧ ∀ x, v ≤ x → x < v + 8192 → r2.2.mem x = mem2 x := by
    obtain ⟨e1, e2, e3, e4, -, e6⟩ := setup_ept_ok env m3.w h p1 p2 p3 p4 (b :: rest)
      k1 nh n1 n2 n3 n4 i1 i2 i3 i4
    refine ⟨e1, by rw [e2], e3.trans k2, e4.trans k3, ?_⟩
    intro x hx1 hx2
    exact (e6 x (qp1 x hx1 hx2) (qp2 x hx1 hx2) (qp3 x hx1 hx2) (qp4 x hx1 hx2)).trans
      (k4 x hx1 hx2)
  clear_value r2
  obtain ⟨e1, e2, e3, e4, e5⟩ := E
  -- init_msr_bitmap
  have F : r3.1 = 0 ∧ r3.2.vmm.vmx_on = v ∧ r3.2.vmm.vmcs = v + 4096 ∧
      ∀ x, v ≤ x → x < v + 8192 → r3.2.mem x = mem2 x := by
    obtain ⟨f1, -, f3, f4⟩ := init_msr_bitmap_ok r2.2 b rest e2 nb
    refine ⟨f1, by rw [f3]; exact e3, by rw [f3]; exact e4, ?_⟩
    intro x hx1 hx2
    show (init_msr_bitmap r2.2).2.mem x = _
    rw [f4, memset0_out _ _ _ _ (qb x hx1 hx2)]
    exact e5 x hx1 hx2
  clear_value r3
  obtain ⟨f1, f2, f3, f4⟩ := F
  have c1 : ¬ (r.1 ≠ 0) := by rw [a1]; simp
  have c2 : ¬ (r1.1 ≠ 0) := by rw [b1]; simp
  have c3 : ¬ (r2.1 ≠ 0) := by rw [e1]; simp
  have c4 : ¬ (r3.1 ≠ 0) := by rw [f1]; simp
  rw [if_neg c1, if_neg c2, if_neg c3, if_neg c4]
  refine ⟨_, rfl, ?_, ?_, ?_⟩
  · show (P.init_vm_exit_handlers (P.setup_guest r3.2)).vmm.vmx_on = v
    rw [(hexit _).1, (hguest _).1, f2]
  · show (P.init_vm_exit_handlers (P.setup_guest r3.2)).vmm.vmcs = v + 4096
    rw [(hexit _).2.1, (hguest _).2.1, f3]
  · intro x hx1 hx2
    show (P.init_vm_exit_handlers (P.setup_guest r3.2)).mem x = _
    rw [(hexit _).2.2 x hx1 hx2, (hguest _).2.2 x hx1 hx2, f4 x hx1 hx2, ← hrev]
    exact hmem2 x hx1 hx2

/-- C11. Revision-id stamp.  Let the eight allocations of `vmm_init` succeed
(`v`: the two VMCS pages, `s`: the exit stack, `h`: the guest memory, `p1` ..
`p4`: the EPT tables, `b`: the MSR bitmap) with blocks inside the address space
that do not overlap the two pages at `v`, and let `setup_guest` and
`init_vm_exit_handlers` leave those two pages and the pointers `vmx_on`, `vmcs`
alone.  Then, for every value of the VMX-basic MSR, `vmm_init` reaches
`__vmxon` in a machine `m` in which: `vmx_on` is `v` and `vmcs` is
`vmx_on + PAGE_SIZE`; the first 32-bit word of either region is
`vmx_basic & 0x7fffffff`, which is below `2 ^ 31`, so bit 31 of the word is
clear; the upper half of the first 64-bit word and every later word of either
page is zero. -/
theorem vmm_init_rev_id_stamp (env : PageEnv) (P : Platform) (m0 : Machine)
    (v s h p1 p2 p3 p4 b : Nat) (rest : List Nat)
    (hscript : m0.w.pa.script = v :: s :: h :: p1 :: p2 :: p3 :: p4 :: b :: rest)
    (nv : v ≠ NULL) (ns : s ≠ NULL) (nh : h ≠ NULL) (n1 : p1 ≠ NULL) (n2 : p2 ≠ NULL)
    (n3 : p3 ≠ NULL) (n4 : p4 ≠ NULL) (nb : b ≠ NULL)
    (iv : v + 8192 ≤ 18446744073709551616) (is : s + 4096 ≤ 18446744073709551616)
    (i1 : p1 + 4096 ≤ 18446744073709551616) (i2 : p2 + 4096 ≤ 18446744073709551616)
    (i3 : p3 + 4096 ≤ 18446744073709551616)
    (i4 : p4 + 100 * 4096 ≤ 18446744073709551616)
    (ds : s + 4096 ≤ v ∨ v + 8192 ≤ s)
    (d1 : p1 + 4096 ≤ v ∨ v + 8192 ≤ p1) (d2 : p2 + 4096 ≤ v ∨ v + 8192 ≤ p2)
    (d3 : p3 + 4096 ≤ v ∨ v + 8192 ≤ p3) (d4 : p4 + 100 * 4096 ≤ v ∨ v + 8192 ≤ p4)
    (db : b + 4096 ≤ v ∨ v + 8192 ≤ b)
    (hguest : ∀ w, (P.setup_guest w).vmm.vmx_on = w.vmm.vmx_on ∧
      (P.setup_guest w).vmm.vmcs = w.vmm.vmcs ∧
      ∀ x, v ≤ x → x < v + 8192 → (P.setup_guest w).mem x = w.mem x)
    (hexit : ∀ w, (P.init_vm_exit_handlers w).vmm.vmx_on = w.vmm.vmx_on ∧
      (P.init_vm_exit_handlers w).vmm.vmcs = w.vmm.vmcs ∧
      ∀ x, v ≤ x → x < v + 8192 → (P.init_vm_exit_handlers w).mem x = w.mem x) :
    ∃ m, vmm_init_prologue env P m0 = Sum.inr m ∧
      vmm_init env P m0 = vmm_init_vmx env P m ∧
      m.w.vmm.vmx_on = v ∧
      m.w.vmm.vmcs = m.w.vmm.vmx_on + PAGE_SIZE ∧
      get_field (m.w.mem m.w.vmm.vmx_on) 0 32 = P.rdmsr MSR_VMX_BASIC &&& 0x7fffffff ∧
      get_field (m.w.mem m.w.vmm.vmcs) 0 32 = P.rdmsr MSR_VMX_BASIC &&& 0x7fffffff ∧
      P.rdmsr MSR_VMX_BASIC &&& 0x7fffffff < 2 ^ 31 ∧
      get_field (m.w.mem m.w.vmm.vmx_on) 31 1 = 0 ∧
      get_field (m.w.mem m.w.vmm.vmcs) 31 1 = 0 ∧
      get_field (m.w.mem m.w.vmm.vmx_on) 32 32 = 0 ∧
      get_field (m.w.mem m.w.vmm.vmcs) 32 32 = 0 ∧
      (∀ x, m.w.vmm.vmx_on < x → x < m.w.vmm.vmx_on + PAGE_SIZE → m.w.mem x = 0) ∧
      (∀ x, m.w.vmm.vmcs < x → x < m.w.vmm.vmcs + PAGE_SIZE → m.w.mem x = 0) := by
  obtain ⟨m, hm, hon, hcs, hmem⟩ := vmm_init_prologue_ok env P m0 v s h p1 p2 p3 p4 b rest
    hscript nv ns nh n1 n2 n3 n4 nb iv is i1 i2 i3 i4 ds d1 d2 d3 d4 db hguest hexit
  have hR : P.rdmsr MSR_VMX_BASIC &&& 0x7fffffff < 2 ^ 31 := by
    have hmask : (0x7fffffff : Nat) = 2 ^ 31 - 1 := by norm_num
    rw [hmask, and_low_mask]
    exact Nat.mod_lt _ (by norm_num)
  generalize P.rdmsr MSR_VMX_BASIC &&& 0x7fffffff = R at hR hmem
  have hset : set_field 0 0 32 R = R := by
    unfold set_field
    norm_num at hR ⊢
    omega
  have g0 : get_field R 0 32 = R := by
    unfold get_field
    norm_num at hR ⊢
    omega
  have g31 : get_field R 31 1 = 0 := by
    unfold get_field
    norm_num at hR ⊢
    omega
  have g32 : get_field R 32 32 = 0 := by
    unfold get_field
    norm_num at hR ⊢
    omega
  have hv0 : m.w.mem v = R := by
    rw [hmem v (by omega) (by omega), if_pos (Or.inl rfl), hset]
  have hv1 : m.w.mem (v + 4096) = R := by
    rw [hmem (v + 4096) (by omega) (by omega), if_pos (Or.inr rfl), hset]
  refine ⟨m, hm, ?_, hon, ?_, ?_, ?_, hR, ?_, ?_, ?_, ?_, ?_, ?_⟩
  · unfold vmm_init; rw [hm]
  · rw [hcs, hon, PAGE_SIZE_val]
  · rw [hon, hv0, g0]
  · rw [hcs, hv1, g0]
  · rw [hon, hv0, g31]
  · rw [hcs, hv1, g31]
  · rw [hon, hv0, g32]
  · rw [hcs, hv1, g32]
  · intro x hx1 hx2
    rw [hon] at hx1 hx2
    rw [PAGE_SIZE_val] at hx2
    rw [hmem x (by omega) (by omega), if_neg (by omega)]
  · intro x hx1 hx2
    rw [hcs] at hx1 hx2
    rw [PAGE_SIZE_val] at hx2
    rw [hmem x (by omega) (by omega), if_neg (by omega)]

/-- Witness for C11: the platform `plat` (every MSR reads all ones, so the
revision identifier is `0x7fffffff`) and the allocator script `script_all`. -/
theorem vmm_init_rev_id_stamp_witness :
    ∃ m, vmm_init_prologue env0 (plat false false false false) (boot script_all) = Sum.inr m ∧
      vmm_init env0 (plat false false false false) (boot script_all) =
        vmm_init_vmx env0 (plat false false false false) m ∧
      m.w.vmm.vmx_on = 0x100000 ∧
      m.w.vmm.vmcs = m.w.vmm.vmx_on + PAGE_SIZE ∧
      get_field (m.w.mem m.w.vmm.vmx_on) 0 32 = 0x7fffffff ∧
      get_field (m.w.mem m.w.vmm.vmcs) 0 32 = 0x7fffffff ∧
      0x7fffffff < 2 ^ 31 ∧
      get_field (m.w.mem m.w.vmm.vmx_on) 31 1 = 0 ∧
      get_field (m.w.mem m.w.vmm.vmcs) 31 1 = 0 ∧
      get_field (m.w.mem m.w.vmm.vmx_on) 32 32 = 0 ∧
      get_field (m.w.mem m.w.vmm.vmcs) 32 32 = 0 ∧
      (∀ x, m.w.vmm.vmx_on < x → x < m.w.vmm.vmx_on + PAGE_SIZE → m.w.mem x = 0) ∧
      (∀ x, m.w.vmm.vmcs < x → x < m.w.vmm.vmcs + PAGE_SIZE → m.w.mem x = 0) :=
  vmm_init_rev_id_stamp env0 (plat false false false false) (boot script_all)
    0x100000 0x110000 0x40000000 0x200000 0x201000 0x202000 0x300000 0x400000 []
    rfl (by decide) (by decide) (by decide) (by decide) (by decide) (by decide) (by decide)
    (by decide) (by decide) (by decide) (by decide) (by decide) (by decide) (by decide)
    (by decide) (by decide) (by decide) (by decide) (by decide) (by decide)
    (fun _ => ⟨rfl, rfl, fun _ _ _ => rfl⟩) (fun _ => ⟨rfl, rfl, fun _ _ _ => rfl⟩)

/-! ## Teardown of `vmm_init` (C12) -/

/-- C12 as stated fails: the teardown of `vmm_init` releases the MSR bitmap, the
exit stack and the two VMCS pages, and never the EPT table pages or the guest
memory.  Evaluated from the machine `boot`, in which nothing is allocated, with
an allocator that serves the scripted blocks.  When `__vmxon` fails, when
`vmlaunch` fails, and when the allocation of the MSR bitmap fails, `vmm_init`
returns 1 and the four EPT blocks and the 100 huge pages are still allocated
(in the first case after eight allocations and three releases).  When the first
`alloc_page` of `ept_setup_range` fails, `setup_ept` returns 1 and the 100 huge
pages are still allocated.  When `alloc_huge_pages` fails, or `kmalloc` fails,
everything acquired before has been released. -/
theorem vmm_init_leaks_ept_and_guest_memory :
    (boot script_all).w.pa.live = [] ∧
    ((vmm_init env0 (plat true false false false) (boot script_all)).1 = 1 ∧
     (vmm_init env0 (plat true false false false) (boot script_all)).2.w.pa.live =
       [(ResKind.page, 0x300000, 100), (ResKind.page, 0x202000, 1), (ResKind.page, 0x201000, 1),
        (ResKind.page, 0x200000, 1), (ResKind.huge, 0x40000000, 100)] ∧
     (vmm_init env0 (plat true false false false) (boot script_all)).2.w.pa.alloc_calls = 8 ∧
     (vmm_init env0 (plat true false false false) (boot script_all)).2.w.pa.release_calls = 3) ∧
    ((vmm_init env0 (plat false false false true) (boot script_all)).1 = 1 ∧
     (vmm_init env0 (plat false false false true) (boot script_all)).2.w.pa.live =
       [(ResKind.page, 0x300000, 100), (ResKind.page, 0x202000, 1), (ResKind.page, 0x201000, 1),
        (ResKind.page, 0x200000, 1), (ResKind.huge, 0x40000000, 100)]) ∧
    ((vmm_init env0 (plat false false false false) (boot (script_all.take 7))).1 = 1 ∧
     (vmm_init env0 (plat false false false false) (boot (script_all.take 7))).2.w.pa.live =
       [(ResKind.page, 0x300000, 100), (ResKind.page, 0x202000, 1), (ResKind.page, 0x201000, 1),
        (ResKind.page, 0x200000, 1), (ResKind.huge, 0x40000000, 100)]) ∧
    ((vmm_init env0 (plat false false false false) (boot (script_all.take 3))).1 = 1 ∧
     (vmm_init env0 (plat false false false false) (boot (script_all.take 3))).2.w.pa.live =
       [(ResKind.huge, 0x40000000, 100)]) ∧
    ((vmm_init env0 (plat false false false false) (boot (script_all.take 2))).1 = 1 ∧
     (vmm_init env0 (plat false false false false) (boot (script_all.take 2))).2.w.pa.live = [] ∧
     (vmm_init env0 (plat false false false false) (boot (script_all.take 1))).1 = 1 ∧
     (vmm_init env0 (plat false false false false) (boot (script_all.take 1))).2.w.pa.live = []) := by
  decide

/-- The pointer that `free_host` passes to `kfree` is the pointer `kmalloc`
returned: `rsp - VM_EXIT_STACK_SIZE` undoes `ptr + VM_EXIT_STACK_SIZE` on
`u64`. -/
theorem free_host_pointer (P : Platform) (m : Machine) (s : Nat) (rest : List Nat)
    (hscript : m.w.pa.script = s :: rest) (ns : s ≠ NULL) (hs : s < 18446744073709551616) :
    ((vmcs_get_host_state P m).2.w.vmm.host_state.rsp + (U64 - VM_EXIT_STACK_SIZE)) % U64
      = s := by
  obtain ⟨-, -, -, -, h5, -, -⟩ := vmcs_get_host_state_ok P m s rest hscript ns
  have hst : VM_EXIT_STACK_SIZE = 4064 := by decide
  rw [h5, hst]
  unfold U64
  omega

/-- The allocator and the pointers of the VMM record at the point where
`vmm_init` executes `__vmxon`, when the eight allocations succeed and the
callbacks leave the allocator and the three pointers alone: all eight blocks
are live. -/
theorem vmm_init_prologue_pa (env : PageEnv) (P : Platform) (m0 : Machine)
    (v s h p1 p2 p3 p4 b : Nat) (rest : List Nat)
    (hscript : m0.w.pa.script = v :: s :: h :: p1 :: p2 :: p3 :: p4 :: b :: rest)
    (nv : v ≠ NULL) (ns : s ≠ NULL) (nh : h ≠ NULL) (n1 : p1 ≠ NULL) (n2 : p2 ≠ NULL)
    (n3 : p3 ≠ NULL) (n4 : p4 ≠ NULL) (nb : b ≠ NULL)
    (iv : v + 8192 ≤ 18446744073709551616) (is : s + 4096 ≤ 18446744073709551616)
    (i1 : p1 + 4096 ≤ 18446744073709551616) (i2 : p2 + 4096 ≤ 18446744073709551616)
    (i3 : p3 + 4096 ≤ 18446744073709551616)
    (i4 : p4 + 100 * 4096 ≤ 18446744073709551616)
    (hguest : ∀ w, (P.setup_guest w).pa = w.pa ∧
      (P.setup_guest w).vmm.vmx_on = w.vmm.vmx_on ∧
      (P.setup_guest w).vmm.msr_bitmap = w.vmm.msr_bitmap ∧
      (P.setup_guest w).vmm.host_state.rsp = w.vmm.host_state.rsp)
    (hexit : ∀ w, (P.init_vm_exit_handlers w).pa = w.pa ∧
      (P.init_vm_exit_handlers w).vmm.vmx_on = w.vmm.vmx_on ∧
      (P.init_vm_exit_handlers w).vmm.msr_bitmap = w.vmm.msr_bitmap ∧
      (P.init_vm_exit_handlers w).vmm.host_state.rsp = w.vmm.host_state.rsp) :
    ∃ m, vmm_init_prologue env P m0 = Sum.inr m ∧
      m.w.vmm.vmx_on = v ∧ m.w.vmm.msr_bitmap = b ∧ m.w.vmm.host_state.rsp = s + 4064 ∧
      m.w.pa.live =
        (ResKind.page, b, 1) :: (ResKind.page, p4, 100) :: (ResKind.page, p3, 1) ::
          (ResKind.page, p2, 1) :: (ResKind.page, p1, 1) :: (ResKind.huge, h, 100) ::
          (ResKind.heap, s, 4096) :: (ResKind.page, v, 2) :: m0.w.pa.live ∧
      m.w.pa.alloc_calls = m0.w.pa.alloc_calls + 8 ∧
      m.w.pa.release_calls = m0.w.pa.release_calls := by
  have hrsp : (s + 4064) % 18446744073709551616 = s + 4064 := by omega
  unfold vmm_init_prologue
  lift_lets
  extract_lets s0 w1 r vmm rev_id mem1 mem2 cr0 cr4 s1 m2 r1 s2 m3 r2 r3
  have hw1s : w1.pa.script = v :: s :: h :: p1 :: p2 :: p3 :: p4 :: b :: rest := hscript
  have hw1l : w1.pa.live = m0.w.pa.live ∧ w1.pa.alloc_calls = m0.w.pa.alloc_calls ∧
      w1.pa.release_calls = m0.w.pa.release_calls := ⟨rfl, rfl, rfl⟩
  clear_value w1 s0
  have A : r.1 = 0 ∧ r.2.vmm.vmx_on = v ∧
      r.2.pa = { script := s :: h :: p1 :: p2 :: p3 :: p4 :: b :: rest,
                 live := (ResKind.page, v, 2) :: m0.w.pa.live,
                 alloc_calls := m0.w.pa.alloc_calls + 1,
                 release_calls := m0.w.pa.release_calls } := by
    obtain ⟨a1, a2, a3, -⟩ := alloc_vmcs_ok w1 v _ hw1s nv iv
    refine ⟨a1, by rw [a3], ?_⟩
    rw [a2, hw1l.1, hw1l.2.1, hw1l.2.2]
  clear_value r
  obtain ⟨a1, a2, a3⟩ := A
  have hm2 : m2.w.vmm.vmx_on = v ∧ m2.w.pa = r.2.pa := ⟨a2, rfl⟩
  clear_value vmm rev_id mem1 mem2 cr0 cr4 m2 s1
  obtain ⟨g1, g2⟩ := hm2
  have B : r1.1 = 0 ∧ r1.2.w.vmm.vmx_on = v ∧ r1.2.w.vmm.host_state.rsp = s + 4064 ∧
      r1.2.w.pa = { script := h :: p1 :: p2 :: p3 :: p4 :: b :: rest,
                    live := (ResKind.heap, s, 4096) :: (ResKind.page, v, 2) :: m0.w.pa.live,
                    alloc_calls := m0.w.pa.alloc_calls + 2,
                    release_calls := m0.w.pa.release_calls } := by
    obtain ⟨b1, b2, b3, -, b5, -, -⟩ := vmcs_get_host_state_ok P m2 s
      (h :: p1 :: p2 :: p3 :: p4 :: b :: rest) (by rw [g2, a3]) ns
    refine ⟨b1, b3.trans g1, b5.trans hrsp, ?_⟩
    rw [b2, g2, a3]
  clear_value r1
  obtain ⟨b1, b2, b3, b4⟩ := B
  have hm3 : m3.w.vmm.vmx_on = v ∧ m3.w.vmm.host_state.rsp = s + 4064 ∧ m3.w.pa = r1.2.w.pa :=
    ⟨b2, b3, rfl⟩
  clear_value m3 s2
  obtain ⟨k1, k2, k3⟩ := hm3
  have E : r2.1 = 0 ∧ r2.2.vmm.vmx_on = v ∧ r2.2.vmm.host_state.rsp = s + 4064 ∧
      r2.2.pa = { script := b :: rest,
                  live := (ResKind.page, p4, 100) :: (ResKind.page, p3, 1) ::
                    (ResKind.page, p2, 1) :: (ResKind.page, p1, 1) :: (ResKind.huge, h, 100) ::
                    (ResKind.heap, s, 4096) :: (ResKind.page, v, 2) :: m0.w.pa.live,
                  alloc_calls := m0.w.pa.alloc_calls + 7,
                  release_calls := m0.w.pa.release_calls } := by
    obtain ⟨e1, e2, e3, -, e5, -⟩ := setup_ept_ok env m3.w h p1 p2 p3 p4 (b :: rest)
      (by rw [k3, b4]) nh n1 n2 n3 n4 i1 i2 i3 i4
    refine ⟨e1, e3.trans k1, ?_, ?_⟩
    · rw [e5]; exact k2
    · rw [e2, k3, b4]
  clear_value r2
  obtain ⟨e1, e2, e3, e4⟩ := E
  have F : r3.1 = 0 ∧ r3.2.vmm.vmx_on = v ∧ r3.2.vmm.msr_bitmap = b ∧
      r3.2.vmm.host_state.rsp = s + 4064 ∧
      r3.2.pa = { script := rest,
                  live := (ResKind.page, b, 1) :: (ResKind.page, p4, 100) ::
                    (ResKind.page, p3, 1) :: (ResKind.page, p2, 1) :: (ResKind.page, p1, 1) ::
                    (ResKind.huge, h, 100) :: (ResKind.heap, s, 4096) ::
                    (ResKind.page, v, 2) :: m0.w.pa.live,
                  alloc_calls := m0.w.pa.alloc_calls + 8,
                  release_calls := m0.w.pa.release_calls } := by
    obtain ⟨f1, f2, f3, -⟩ := init_msr_bitmap_ok r2.2 b rest (by rw [e4]) nb
    refine ⟨f1, by rw [f3]; exact e2, by rw [f3], by rw [f3]; exact e3, ?_⟩
    rw [f2, e4]
  clear_value r3
  obtain ⟨f1, f2, f3, f4, f5⟩ := F
  have c1 : ¬ (r.1 ≠ 0) := by rw [a1]; simp
  have c2 : ¬ (r1.1 ≠ 0) := by rw [b1]; simp
  have c3 : ¬ (r2.1 ≠ 0) := by rw [e1]; simp
  have c4 : ¬ (r3.1 ≠ 0) := by rw [f1]; simp
  rw [if_neg c1, if_neg c2, if_neg c3, if_neg c4]
  refine ⟨_, rfl, ?_, ?_, ?_, ?_, ?_, ?_⟩
  · show (P.init_vm_exit_handlers (P.setup_guest r3.2)).vmm.vmx_on = v
    rw [(hexit _).2.1, (hguest _).2.1, f2]
  · show (P.init_vm_exit_handlers (P.setup_guest r3.2)).vmm.msr_bitmap = b
    rw [(hexit _).2.2.1, (hguest _).2.2.1, f3]
  · show (P.init_vm_exit_handlers (P.setup_guest r3.2)).vmm.host_state.rsp = s + 4064
    rw [(hexit _).2.2.2, (hguest _).2.2.2, f4]
  · show (P.init_vm_exit_handlers (P.setup_guest r3.2)).pa.live = _
    rw [(hexit _).1, (hguest _).1, f5]
  · show (P.init_vm_exit_handlers (P.setup_guest r3.2)).pa.alloc_calls = _
    rw [(hexit _).1, (hguest _).1, f5]
  · show (P.init_vm_exit_handlers (P.setup_guest r3.2)).pa.release_calls = _
    rw [(hexit _).1, (hguest _).1, f5]

/-- What the labels `free_msr`, `free_host`, `free_vmcs` release when all eight
blocks are live: the MSR bitmap, the exit stack and the two VMCS pages, each by
one call.  The four EPT blocks and the guest memory stay. -/
theorem free_msr_live (m : Machine) (v s h p1 p2 p3 p4 b : Nat) (L : List (ResKind × Nat × Nat))
    (hs : s < 18446744073709551616)
    (hon : m.w.vmm.vmx_on = v) (hb : m.w.vmm.msr_bitmap = b)
    (hrsp : m.w.vmm.host_state.rsp = s + 4064)
    (hlive : m.w.pa.live =
      (ResKind.page, b, 1) :: (ResKind.page, p4, 100) :: (ResKind.page, p3, 1) ::
        (ResKind.page, p2, 1) :: (ResKind.page, p1, 1) :: (ResKind.huge, h, 100) ::
        (ResKind.heap, s, 4096) :: (ResKind.page, v, 2) :: L) :
    (free_msr m).1 = 1 ∧
    (free_msr m).2.w.pa.live =
      (ResKind.page, p4, 100) :: (ResKind.page, p3, 1) :: (ResKind.page, p2, 1) ::
        (ResKind.page, p1, 1) :: (ResKind.huge, h, 100) :: L ∧
    (free_msr m).2.w.pa.release_calls = m.w.pa.release_calls + 3 ∧
    (free_msr m).2.w.pa.alloc_calls = m.w.pa.alloc_calls := by
  have hp : (s + 4064 + (U64 - VM_EXIT_STACK_SIZE)) % U64 = s := by
    have hst : VM_EXIT_STACK_SIZE = 4064 := by decide
    rw [hst]; unfold U64; omega
  simp [free_msr, free_host, free_vmcs, release_vmcs, release_page, release_pages,
    release_block, kfree, hon, hb, hrsp, hlive, hp, VMCS_NB_PAGES, List.eraseP_cons]

/-- The teardown of `vmm_init` after a VMX instruction failed, for every
allocator that serves the eight requests and callbacks that leave the
allocator and the three pointers alone: `vmm_init` returns 1 after three
releases, and the four EPT blocks and the guest memory are still allocated on
top of what was allocated before the call. -/
theorem vmm_init_vmx_failure_leaks (env : PageEnv) (P : Platform) (m0 : Machine)
    (v s h p1 p2 p3 p4 b : Nat) (rest : List Nat)
    (hscript : m0.w.pa.script = v :: s :: h :: p1 :: p2 :: p3 :: p4 :: b :: rest)
    (nv : v ≠ NULL) (ns : s ≠ NULL) (nh : h ≠ NULL) (n1 : p1 ≠ NULL) (n2 : p2 ≠ NULL)
    (n3 : p3 ≠ NULL) (n4 : p4 ≠ NULL) (nb : b ≠ NULL)
    (iv : v + 8192 ≤ 18446744073709551616) (is : s + 4096 ≤ 18446744073709551616)
    (i1 : p1 + 4096 ≤ 18446744073709551616) (i2 : p2 + 4096 ≤ 18446744073709551616)
    (i3 : p3 + 4096 ≤ 18446744073709551616)
    (i4 : p4 + 100 * 4096 ≤ 18446744073709551616)
    (hguest : ∀ w, (P.setup_guest w).pa = w.pa ∧
      (P.setup_guest w).vmm.vmx_on = w.vmm.vmx_on ∧
      (P.setup_guest w).vmm.msr_bitmap = w.vmm.msr_bitmap ∧
      (P.setup_guest w).vmm.host_state.rsp = w.vmm.host_state.rsp)
    (hexit : ∀ w, (P.init_vm_exit_handlers w).pa = w.pa ∧
      (P.init_vm_exit_handlers w).vmm.vmx_on = w.vmm.vmx_on ∧
      (P.init_vm_exit_handlers w).vmm.msr_bitmap = w.vmm.msr_bitmap ∧
      (P.init_vm_exit_handlers w).vmm.host_state.rsp = w.vmm.host_state.rsp)
    (hfail : (P.vmxon_fails || P.vmclear_fails || P.vmptrld_fails || P.vmlaunch_fails) = true) :
    (vmm_init env P m0).1 = 1 ∧
    (vmm_init env P m0).2.w.pa.live =
      (ResKind.page, p4, 100) :: (ResKind.page, p3, 1) :: (ResKind.page, p2, 1) ::
        (ResKind.page, p1, 1) :: (ResKind.huge, h, 100) :: m0.w.pa.live ∧
    (vmm_init env P m0).2.w.pa.alloc_calls = m0.w.pa.alloc_calls + 8 ∧
    (vmm_init env P m0).2.w.pa.release_calls = m0.w.pa.release_calls + 3 := by
  obtain ⟨m, hm, hon, hb, hrsp, hlive, hac, hrc⟩ := vmm_init_prologue_pa env P m0
    v s h p1 p2 p3 p4 b rest hscript nv ns nh n1 n2 n3 n4 nb iv is i1 i2 i3 i4 hguest hexit
  have key : ∀ evs : List VmxEvent,
      (free_msr (m.exec evs)).1 = 1 ∧
      (free_msr (m.exec evs)).2.w.pa.live =
        (ResKind.page, p4, 100) :: (ResKind.page, p3, 1) :: (ResKind.page, p2, 1) ::
          (ResKind.page, p1, 1) :: (ResKind.huge, h, 100) :: m0.w.pa.live ∧
      (free_msr (m.exec evs)).2.w.pa.alloc_calls = m0.w.pa.alloc_calls + 8 ∧
      (free_msr (m.exec evs)).2.w.pa.release_calls = m0.w.pa.release_calls + 3 := by
    intro evs
    obtain ⟨t1, t2, t3, t4⟩ := free_msr_live (m.exec evs) v s h p1 p2 p3 p4 b m0.w.pa.live
      (by omega) hon hb hrsp hlive
    exact ⟨t1, t2, t4.trans hac, by rw [t3]; show m.w.pa.release_calls + 3 = _; rw [hrc]⟩
  unfold vmm_init
  rw [hm]
  simp only []
  unfold vmm_init_vmx
  cases h1 : P.vmxon_fails
  case true => simp only [if_true]; exact key _
  case false =>
  cases h2 : P.vmclear_fails
  case true =>
    simp only [if_true, Bool.false_eq_true, if_false, free_vmxoff, Machine.exec,
      List.append_assoc]
    exact key _
  case false =>
  cases h3 : P.vmptrld_fails
  case true =>
    simp only [if_true, Bool.false_eq_true, if_false, free_vmxoff, Machine.exec,
      List.append_assoc]
    exact key _
  case false =>
    have h4 : P.vmlaunch_fails = true := by simpa [h1, h2, h3] using hfail
    simp only [if_true, Bool.false_eq_true, if_false, free_vmxoff, Machine.exec,
      List.append_assoc, launch_vm, h4, ne_eq, one_ne_zero, not_false_eq_true]
    exact key _

/-! ## Order of the VMX instructions in `vmm_init` (C13) -/

/-- Positions in a trace of the form `a, b, c, writes, l, tail`. -/
theorem trace_positions (a b c l : VmxEvent) (ws : List VmWrite) (tail : List VmxEvent)
    (i : Nat) (e : VmxEvent)
    (h : (a :: b :: c :: (ws.map (fun fv => VmxEvent.vmwrite fv.1 fv.2) ++ l :: tail))[i]?
          = some e) :
    (i = 0 ∧ e = a) ∨ (i = 1 ∧ e = b) ∨ (i = 2 ∧ e = c) ∨
    (3 ≤ i ∧ i < 3 + ws.length ∧ ∃ fv ∈ ws, e = VmxEvent.vmwrite fv.1 fv.2) ∨
    (i = 3 + ws.length ∧ e = l) ∨ (3 + ws.length < i ∧ e ∈ tail) := by
  rcases i with _ | _ | _ | i
  · simp at h; simp [h]
  · simp at h; simp [h]
  · simp at h; simp [h]
  · simp only [List.getElem?_cons_succ] at h
    rcases Nat.lt_trichotomy i ws.length with hlt | heq | hgt
    · rw [List.getElem?_append_left (by simpa using hlt)] at h
      rw [List.getElem?_map] at h
      right; right; right; left
      refine ⟨by omega, by omega, ?_⟩
      cases hw : ws[i]? with
      | none => simp [hw] at h
      | some fv =>
        simp [hw] at h
        exact ⟨fv, List.getElem?_mem hw, h.symm⟩
    · rw [List.getElem?_append_right (by simp [heq])] at h
      simp [heq] at h
      right; right; right; right; left
      exact ⟨by omega, h.symm⟩
    · rw [List.getElem?_append_right (by simp; omega)] at h
      simp at h
      right; right; right; right; right
      refine ⟨by omega, ?_⟩
      have hi : i - ws.length = (i - ws.length - 1) + 1 := by omega
      rw [hi, List.getElem?_cons_succ] at h
      exact List.getElem?_mem h

/-- In a trace of the form `a, b, c, writes, l, tail` every write has a
position, before the position of `l`. -/
theorem trace_write_position (a b c l : VmxEvent) (ws : List VmWrite) (tail : List VmxEvent)
    (fv : VmWrite) (h : fv ∈ ws) :
    ∃ j : Nat, j < 3 + ws.length ∧
      (a :: b :: c :: (ws.map (fun fv => VmxEvent.vmwrite fv.1 fv.2) ++ l :: tail))[j]?
        = some (VmxEvent.vmwrite fv.1 fv.2) := by
  obtain ⟨k, hk, hget⟩ := List.getElem_of_mem h
  refine ⟨k + 3, by omega, ?_⟩
  simp only [List.getElem?_cons_succ]
  rw [List.getElem?_append_left (by simpa using hk), List.getElem?_map]
  simp [List.getElem?_eq_getElem hk, hget]

/-- The instructions executed by the second part of `vmm_init`, for each
outcome of `__vmxon`, `__vmclear`, `__vmptrld` and `vmlaunch`; the VMM record
is not changed. -/
theorem vmm_init_vmx_trace (env : PageEnv) (P : Platform) (m : Machine) :
    (vmm_init_vmx env P m).2.trace = m.trace ++
      (VmxEvent.vmxon (virt_to_phys env m.w.vmm.vmx_on) (!P.vmxon_fails) ::
        if P.vmxon_fails then []
        else VmxEvent.vmclear (virt_to_phys env m.w.vmm.vmcs) (!P.vmclear_fails) ::
          if P.vmclear_fails then [VmxEvent.vmxoff]
          else VmxEvent.vmptrld (virt_to_phys env m.w.vmm.vmcs) (!P.vmptrld_fails) ::
            if P.vmptrld_fails then [VmxEvent.vmxoff]
            else (vmcs_writes env m.w.vmm).map (fun fv => VmxEvent.vmwrite fv.1 fv.2) ++
              VmxEvent.vmlaunch (!P.vmlaunch_fails) ::
                if P.vmlaunch_fails then [VmxEvent.vmxoff] else []) ∧
    (vmm_init_vmx env P m).2.w.vmm = m.w.vmm := by
  unfold vmm_init_vmx
  cases h1 : P.vmxon_fails <;> cases h2 : P.vmclear_fails <;> cases h3 : P.vmptrld_fails <;>
    cases h4 : P.vmlaunch_fails <;>
    simp [free_vmxoff, free_msr, free_host, free_vmcs, release_vmcs, Machine.exec, launch_vm, h4]

/-- The first part of `vmm_init` executes no VMX instruction. -/
theorem vmm_init_prologue_trace (env : PageEnv) (P : Platform) (m0 : Machine) :
    (∀ mf, vmm_init_prologue env P m0 = Sum.inl mf → mf.trace = m0.trace) ∧
    (∀ m, vmm_init_prologue env P m0 = Sum.inr m → m.trace = m0.trace) := by
  unfold vmm_init_prologue
  simp only [vmcs_get_host_state, free_host, free_vmcs]
  constructor
  · intro mf h
    split_ifs at h <;> simp at h <;> subst h <;> rfl
  · intro m h
    split_ifs at h <;> simp at h <;> subst h <;> rfl

/-- C13. For every environment, platform (in particular every outcome of
`__vmxon`, `__vmclear`, `__vmptrld` and `vmlaunch`, and every outcome of the
allocations) and initial machine, let `evs` be the VMX instructions that
`vmm_init` executes, in order.  Then (1) `vmxoff` occurs only after an earlier
successful `vmxon`; (2) `vmclear` and `vmptrld` occur only after an earlier
successful `vmxon`; (3) a `vmwrite` or a `vmlaunch` occurs only after a
successful `vmclear` of the VMCS followed by a successful `vmptrld` of the
VMCS; (4) `vmlaunch` occurs only after each of the writes of the control,
host-state and guest-state writers. -/
theorem vmm_init_vmx_order (env : PageEnv) (P : Platform) (m0 : Machine) :
    ∃ evs : List VmxEvent,
      (vmm_init env P m0).2.trace = m0.trace ++ evs ∧
      (∀ i : Nat, evs[i]? = some VmxEvent.vmxoff →
        ∃ (j : Nat) (pa : Nat), j < i ∧ evs[j]? = some (VmxEvent.vmxon pa true)) ∧
      (∀ (i : Nat) (pa : Nat) (ok : Bool),
        evs[i]? = some (VmxEvent.vmclear pa ok) ∨ evs[i]? = some (VmxEvent.vmptrld pa ok) →
        ∃ (j : Nat) (pa0 : Nat), j < i ∧ evs[j]? = some (VmxEvent.vmxon pa0 true)) ∧
      (∀ i : Nat,
        (∃ f v, evs[i]? = some (VmxEvent.vmwrite f v)) ∨
          (∃ ok, evs[i]? = some (VmxEvent.vmlaunch ok)) →
        ∃ (j : Nat) (k : Nat), j < k ∧ k < i ∧
          evs[j]? = some
            (VmxEvent.vmclear (virt_to_phys env (vmm_init env P m0).2.w.vmm.vmcs) true) ∧
          evs[k]? = some
            (VmxEvent.vmptrld (virt_to_phys env (vmm_init env P m0).2.w.vmm.vmcs) true)) ∧
      (∀ (i : Nat) (ok : Bool), evs[i]? = some (VmxEvent.vmlaunch ok) →
        ∀ fv ∈ vmcs_writes env (vmm_init env P m0).2.w.vmm,
          ∃ j : Nat, j < i ∧ evs[j]? = some (VmxEvent.vmwrite fv.1 fv.2)) := by
  unfold vmm_init
  cases hp : vmm_init_prologue env P m0 with
  | inl mf =>
    refine ⟨[], ?_, ?_, ?_, ?_, ?_⟩
    · simp [(vmm_init_prologue_trace env P m0).1 mf hp]
    · intro i h; simp at h
    · intro i pa ok h; simp at h
    · intro i h; simp at h
    · intro i ok h; simp at h
  | inr m =>
    obtain ⟨ht, hv⟩ := vmm_init_vmx_trace env P m
    have h0 := (vmm_init_prologue_trace env P m0).2 m hp
    simp only []
    rw [hv]
    rw [h0] at ht
    cases h1 : P.vmxon_fails
    case true =>
      simp only [h1, if_true, Bool.not_true] at ht
      refine ⟨_, ht, ?_, ?_, ?_, ?_⟩
      · intro i h; rcases i with _ | i <;> simp at h
      · intro i pa ok h; rcases i with _ | i <;> simp at h
      · intro i h; rcases i with _ | i <;> simp at h
      · intro i ok h; rcases i with _ | i <;> simp at h
    case false =>
    cases h2 : P.vmclear_fails
    case true =>
      simp only [h1, h2, if_true, Bool.not_true, Bool.not_false, Bool.false_eq_true,
        if_false] at ht
      refine ⟨_, ht, ?_, ?_, ?_, ?_⟩
      · intro i h
        refine ⟨0, _, ?_, rfl⟩
        rcases i with _ | i
        · simp at h
        · omega
      · intro i pa ok h
        refine ⟨0, _, ?_, rfl⟩
        rcases i with _ | i
        · simp at h
        · omega
      · intro i h; rcases i with _ | _ | _ | i <;> simp at h
      · intro i ok h; rcases i with _ | _ | _ | i <;> simp at h
    case false =>
    cases h3 : P.vmptrld_fails
    case true =>
      simp only [h1, h2, h3, if_true, Bool.not_true, Bool.not_false, Bool.false_eq_true,
        if_false] at ht
      refine ⟨_, ht, ?_, ?_, ?_, ?_⟩
      · intro i h
        refine ⟨0, _, ?_, rfl⟩
        rcases i with _ | i
        · simp at h
        · omega
      · intro i pa ok h
        refine ⟨0, _, ?_, rfl⟩
        rcases i with _ | i
        · simp at h
        · omega
      · intro i h; rcases i with _ | _ | _ | _ | i <;> simp at h
      · intro i ok h; rcases i with _ | _ | _ | _ | i <;> simp at h
    case false =>
      simp only [h1, h2, h3, Bool.not_false, Bool.false_eq_true, if_false] at ht
      refine ⟨_, ht, ?_, ?_, ?_, ?_⟩
      · intro i h
        refine ⟨0, _, ?_, rfl⟩
        rcases i with _ | i
        · simp at h
        · omega
      · intro i pa ok h
        refine ⟨0, _, ?_, rfl⟩
        rcases i with _ | i
        · simp at h
        · omega
      · intro i h
        refine ⟨1, 2, by omega, ?_, rfl, rfl⟩
        rcases h with ⟨f, v, h⟩ | ⟨ok, h⟩
        · rcases trace_positions _ _ _ _ _ _ i _ h with
            ⟨_, he⟩ | ⟨_, he⟩ | ⟨_, he⟩ | ⟨hi, _⟩ | ⟨hi, _⟩ | ⟨hi, _⟩
          · simp at he
          · simp at he
          · simp at he
          · omega
          · omega
          · omega
        · rcases trace_positions _ _ _ _ _ _ i _ h with
            ⟨_, he⟩ | ⟨_, he⟩ | ⟨_, he⟩ | ⟨hi, _⟩ | ⟨hi, _⟩ | ⟨hi, _⟩
          · simp at he
          · simp at he
          · simp at he
          · omega
          · omega
          · omega
      · intro i ok h fv hfv
        obtain ⟨j, hj, hget⟩ := trace_write_position
          (VmxEvent.vmxon (virt_to_phys env m.w.vmm.vmx_on) true)
          (VmxEvent.vmclear (virt_to_phys env m.w.vmm.vmcs) true)
          (VmxEvent.vmptrld (virt_to_phys env m.w.vmm.vmcs) true)
          (VmxEvent.vmlaunch (!P.vmlaunch_fails)) (vmcs_writes env m.w.vmm)
          (if P.vmlaunch_fails then [VmxEvent.vmxoff] else []) fv hfv
        refine ⟨j, ?_, hget⟩
        rcases trace_positions _ _ _ _ _ _ i _ h with
          ⟨_, he⟩ | ⟨_, he⟩ | ⟨_, he⟩ | ⟨_, _, _, _, he⟩ | ⟨hi, _⟩ | ⟨hi, _⟩
        · simp at he
        · simp at he
        · simp at he
        · simp at he
        · omega
        · omega

/-- A run in which every allocation and every VMX instruction succeeds:
`vmm_init` returns 0 after `vmxon`, `vmclear`, `vmptrld`, the writes and
`vmlaunch`, and executes no `vmxoff`. -/
theorem vmm_init_trace_example :
    (vmm_init env0 (plat false false false false) (boot script_all)).1 = 0 ∧
    (vmm_init env0 (plat false false false false) (boot script_all)).2.trace.take 3 =
      [VmxEvent.vmxon 0x100000 true, VmxEvent.vmclear 0x101000 true,
       VmxEvent.vmptrld 0x101000 true] ∧
    (vmm_init env0 (plat false false false false) (boot script_all)).2.trace.getLast? =
      some (VmxEvent.vmlaunch true) ∧
    (vmm_init env0 (plat false false false false) (boot script_all)).2.trace.length =
      4 + (vmcs_writes env0
        (vmm_init env0 (plat false false false false) (boot script_all)).2.w.vmm).length ∧
    VmxEvent.vmxoff ∉ (vmm_init env0 (plat false false false false) (boot script_all)).2.trace := by
  decide

/-! ## The sentinel in the composed walks (C14) -/

/-- C14 as stated fails: `gpa_to_hva` and `gva_to_gpa` use the result of
`ept_translate` without comparing it with the sentinel.  Take an EPT that maps
nothing (its PML4 page is zero), guest CR3 `0x1000`, the linear map
`phys_to_virt(p) = p + 0xffff800000000000` and the guest-virtual address
`0x8040000123` (PML4 index 1, PDPT index 1).  Then `ept_translate` of the CR3
target is `(paddr_t)-1`; `gpa_to_hva` returns `phys_to_virt((paddr_t)-1)`, which
is `0xffff7fffffffffff`; `gva_to_gpa` reads its PML4 entry through that
pointer, at `0xffff800000000007`, finds `0x3087` and returns `0x3123`;
`ept_translate(0x3123)` is again `(paddr_t)-1`, and `gva_to_hva` returns
`0xffff7fffffffffff`, not `(hva_t)-1`.  On zero-filled memory the same call
returns `(hva_t)-1`: the word read through the sentinel decides the result.
With the identity map the entry is read at host-virtual 7, and `gva_to_gpa` is
`0x3123` as well. -/
theorem gva_to_hva_uses_unchecked_sentinel :
    ept_translate env_hi mem_at_sentinel vmm_unmapped (vmm_unmapped.guest_cr3 &&& PAGE_MASK)
      = SENTINEL ∧
    phys_to_virt env_hi SENTINEL = 0xffff7fffffffffff ∧
    gpa_to_hva env_hi mem_at_sentinel vmm_unmapped (vmm_unmapped.guest_cr3 &&& PAGE_MASK)
      = phys_to_virt env_hi SENTINEL ∧
    slot (phys_to_virt env_hi SENTINEL) (pgd_offset 0x8040000123) = 0xffff800000000007 ∧
    guest_pml4e env_hi mem_at_sentinel vmm_unmapped 0x8040000123
      = mem_at_sentinel (slot (phys_to_virt env_hi SENTINEL) (pgd_offset 0x8040000123)) ∧
    guest_pml4e env_hi mem_at_sentinel vmm_unmapped 0x8040000123 = 0x3087 ∧
    gva_to_gpa env_hi mem_at_sentinel vmm_unmapped 0x8040000123 = 0x3123 ∧
    ept_translate env_hi mem_at_sentinel vmm_unmapped 0x3123 = SENTINEL ∧
    gva_to_hva env_hi mem_at_sentinel vmm_unmapped 0x8040000123 = 0xffff7fffffffffff ∧
    gva_to_hva env_hi mem_at_sentinel vmm_unmapped 0x8040000123 ≠ SENTINEL ∧
    gva_to_hva env_hi (fun _ => 0) vmm_unmapped 0x8040000123 = SENTINEL ∧
    ept_translate env0 mem_at_top vmm_unmapped (vmm_unmapped.guest_cr3 &&& PAGE_MASK)
      = SENTINEL ∧
    slot (phys_to_virt env0 SENTINEL) (pgd_offset 0x8040000123) = 7 ∧
    guest_pml4e env0 mem_at_top vmm_unmapped 0x8040000123
      = mem_at_top (slot (phys_to_virt env0 SENTINEL) (pgd_offset 0x8040000123)) ∧
    gva_to_gpa env0 mem_at_top vmm_unmapped 0x8040000123 = 0x3123 := by
  decide

end HV
